import Mathlib

/-!
# Search-and-rescue drone: mission controller

A shallow embedding of the mission logic of `src/js/main.js` (together with the
entity roster of `src/js/people.js`), followed by theorems about it.

Conventions of the embedding.

* Numbers are exact rationals (`ℚ`); JavaScript floating point rounding is not
  modelled, except in the section on the search pattern in double precision,
  where every operation of `generateGridSearchPattern` is rounded to a binary64
  value (`Binary64.round`).
* `Math.sqrt` is only ever compared (`<`, `>`) with another square root or with
  a non-negative constant.  A value `Math.sqrt q` is kept as the record
  `Sqrt.mk q` of its radicand, a non-negative constant `c` as `Sqrt.ofRat c`
  (radicand `c * c`), and the comparison is the comparison of radicands, which
  is exact for non-negative radicands (every radicand below is a sum of
  squares).
* `Math.atan2(dz, dx) - Math.PI / 2` is kept symbolically in `Yaw`.
* A person object is referred to by its index in the `people` array.
* Rendering, camera, spot light and DOM updates are not modelled.
-/

namespace SearchRescue

/-! ## Numbers -/

/-- The non-negative real number `√sq`, kept as its radicand. -/
structure Sqrt where
  sq : ℚ
deriving DecidableEq, Repr

namespace Sqrt

/-- The non-negative constant `c`, as the square root of `c * c`. -/
def ofRat (c : ℚ) : Sqrt := ⟨c * c⟩

instance : LT Sqrt := ⟨fun a b => a.sq < b.sq⟩

instance (a b : Sqrt) : Decidable (a < b) := inferInstanceAs (Decidable (a.sq < b.sq))

end Sqrt

/-- Source: `Math.sqrt`. -/
def Math.sqrt (q : ℚ) : Sqrt := ⟨q⟩

/-- Source: `Math.abs`. -/
def Math.abs (q : ℚ) : ℚ := if q < 0 then -q else q

/-- The drone heading `rotation.y`.  Its value is
`(Math.atan2(dz, dx) - Math.PI / 2 when facing = some (dz, dx), else 0) + turned`. -/
structure Yaw where
  facing : Option (ℚ × ℚ)
  turned : ℚ
deriving DecidableEq, Repr

/-- Source: `rotation.y = Math.atan2(dz, dx) - Math.PI / 2`. -/
def Yaw.pointAt (dz dx : ℚ) : Yaw := ⟨some (dz, dx), 0⟩

/-- Source: `rotation.y += r`. -/
def Yaw.add (y : Yaw) (r : ℚ) : Yaw := { y with turned := y.turned + r }

/-! ## Data model -/

/-- Source: a `position` vector. -/
structure Vec3 where
  x : ℚ
  y : ℚ
  z : ℚ
deriving DecidableEq, Repr

/-- Source: a way point object `{ x, y, z }` pushed by `generateGridSearchPattern`. -/
structure Waypoint where
  x : ℚ
  y : ℚ
  z : ℚ
deriving DecidableEq, Repr

/-- Source: a person group of `people.js`: `position`, `userData.heatLevel`,
`userData.detected`. -/
structure Person where
  position : Vec3
  heatLevel : ℚ
  detected : Bool
deriving DecidableEq, Repr

/-- Source: `droneGroup`: `position` and `rotation.y`. -/
structure Drone where
  position : Vec3
  rotationY : Yaw
deriving DecidableEq, Repr

/-- Source: the values taken by the string `missionStatus`. -/
inductive MissionStatus where
  | standby
  | searching
  | investigatingHeatSource
  | searchComplete
  | manualControl
deriving DecidableEq, Repr

/-- The string held by `missionStatus`. -/
def MissionStatus.label : MissionStatus → String
  | .standby => "Standby"
  | .searching => "Searching"
  | .investigatingHeatSource => "Investigating Heat Source"
  | .searchComplete => "Search Complete"
  | .manualControl => "Manual Control"

/-- Source: the values taken by the string `searchPattern`. -/
inductive SearchPattern where
  | none
  | gridSearch
deriving DecidableEq, Repr

/-- Source: the `keys` table, polled once per frame. -/
structure Keys where
  arrowUp : Bool
  arrowDown : Bool
  arrowLeft : Bool
  arrowRight : Bool
  w : Bool
  s : Bool
  q : Bool
  e : Bool
deriving DecidableEq, Repr

/-- No key held. -/
def Keys.released : Keys := ⟨false, false, false, false, false, false, false, false⟩

/-- Source: the module-level variables of `main.js` that the mission logic
reads or writes.  An entry `none` of `missionPath` stands for an array element
that fails the test `target && 'x' in target && 'y' in target && 'z' in target`. -/
structure State where
  people : List Person
  droneGroup : Drone
  hoverTimer : ℚ
  heatSourceTarget : Option Nat
  isInvestigating : Bool
  investigationComplete : Bool
  thermalViewActive : Bool
  autoMode : Bool
  missionPath : List (Option Waypoint)
  currentPathIndex : Nat
  missionStatus : MissionStatus
  searchPattern : SearchPattern
  peopleDetected : Nat
  manualMode : Bool
deriving DecidableEq, Repr

/-! ## Constants -/

def moveSpeed : ℚ := 0.2
def rotateSpeed : ℚ := 0.05
def DEFAULT_FLIGHT_HEIGHT : ℚ := 40
def MIN_SAFE_HEIGHT : ℚ := 35
def SEARCH_PATTERN_HEIGHT : ℚ := 50
def INVESTIGATION_HEIGHT : ℚ := 30
def NORMAL_SEARCH_SPEED : ℚ := 1.5
def INVESTIGATION_SPEED : ℚ := 0.8
def HEAT_DETECTION_RANGE : ℚ := 40
def HOVER_TIME : ℚ := 5

/-! ## Distances used in the statements -/

/-- The square of the planar `(x, z)` distance between a person and the drone,
as computed in `findNearestHeatSource`: `dx * dx + dz * dz`. -/
def planarDistSq (person : Person) (drone : Vec3) : ℚ :=
  (person.position.x - drone.x) * (person.position.x - drone.x) +
    (person.position.z - drone.z) * (person.position.z - drone.z)

/-- The square of the distance between the drone and the investigation point
`(x, y + INVESTIGATION_HEIGHT, z)` of a person, as computed in
`investigateHeatSource`: `dx * dx + dz * dz + dy * dy`. -/
def hoverDistSq (person : Person) (drone : Vec3) : ℚ :=
  (person.position.x - drone.x) * (person.position.x - drone.x) +
    (person.position.z - drone.z) * (person.position.z - drone.z) +
    (person.position.y + INVESTIGATION_HEIGHT - drone.y) *
      (person.position.y + INVESTIGATION_HEIGHT - drone.y)

/-! ## Entity roster (`people.js`) -/

/-- Source: `createPerson(x, z, pose, heatLevel)`, without the meshes. -/
def createPerson (getTerrainHeightAt : ℚ → ℚ → ℚ) (x z heatLevel : ℚ) : Person :=
  { position := ⟨x, getTerrainHeightAt x z, z⟩, heatLevel := heatLevel, detected := false }

/-- Source: `createPeople`. -/
def createPeople (getTerrainHeightAt : ℚ → ℚ → ℚ) : List Person :=
  [ createPerson getTerrainHeightAt 30 40 37.2,
    createPerson getTerrainHeightAt 31 39 37.5,
    createPerson getTerrainHeightAt (-40) 25 38.1,
    createPerson getTerrainHeightAt (-42) 26 39.2,
    createPerson getTerrainHeightAt (-15) (-30) 32.5,
    createPerson getTerrainHeightAt 50 (-45) 37.0,
    createPerson getTerrainHeightAt (-70) (-60) 36.5 ]

/-! ## Search pattern -/

/-- Source: the `for (let z = gridMinZ; z <= gridMaxZ; z += lineSpacing)` loop of
`generateGridSearchPattern`; `path` is the array built so far. -/
def generateGridSearchPattern.loop (gridMinX gridMaxX gridMaxZ lineSpacing : ℚ)
    (hpos : 0 < lineSpacing) (z : ℚ) (goingRight : Bool) (path : List Waypoint) :
    List Waypoint :=
  if h : z ≤ gridMaxZ then
    let path :=
      if goingRight then
        let path := path ++ [⟨gridMaxX, SEARCH_PATTERN_HEIGHT, z⟩]
        if z + lineSpacing ≤ gridMaxZ then
          path ++ [⟨gridMaxX, SEARCH_PATTERN_HEIGHT, z + lineSpacing⟩]
        else path
      else
        let path := path ++ [⟨gridMinX, SEARCH_PATTERN_HEIGHT, z⟩]
        if z + lineSpacing ≤ gridMaxZ then
          path ++ [⟨gridMinX, SEARCH_PATTERN_HEIGHT, z + lineSpacing⟩]
        else path
    generateGridSearchPattern.loop gridMinX gridMaxX gridMaxZ lineSpacing hpos
      (z + lineSpacing) (!goingRight) path
  else path
termination_by (⌊(gridMaxZ - z) / lineSpacing⌋ + 1).toNat
decreasing_by
  have h1 : (gridMaxZ - (z + lineSpacing)) / lineSpacing = (gridMaxZ - z) / lineSpacing - 1 := by
    field_simp
    ring
  have h2 : (0 : ℤ) ≤ ⌊(gridMaxZ - z) / lineSpacing⌋ :=
    Int.floor_nonneg.mpr (div_nonneg (by linarith) hpos.le)
  rw [h1, Int.floor_sub_one]
  omega

/-- Source: `generateGridSearchPattern(startX, startZ)`. -/
def generateGridSearchPattern (startX startZ : ℚ) : List Waypoint :=
  let gridSize : ℚ := 180
  let lineSpacing : ℚ := 20
  let halfGrid := gridSize / 2
  let gridMinX := startX - halfGrid
  let gridMaxX := startX + halfGrid
  let gridMinZ := startZ - halfGrid
  let gridMaxZ := startZ + halfGrid
  let path : List Waypoint := []
  let path := path ++ [⟨startX, SEARCH_PATTERN_HEIGHT, startZ⟩]
  let path := path ++ [⟨gridMinX, SEARCH_PATTERN_HEIGHT, gridMinZ⟩]
  generateGridSearchPattern.loop gridMinX gridMaxX gridMaxZ lineSpacing (by norm_num)
    gridMinZ true path

/-! ## Heat-source detector -/

/-- Source: the `people.forEach` callback of `findNearestHeatSource`, run over the
rest of the array from index `i` with the captured `closestPerson` and
`minDistance`. -/
def findNearestHeatSource.forEach (drone : Vec3) :
    List Person → Nat → Option Nat → Sqrt → Option Nat
  | [], _, closestPerson, _ => closestPerson
  | person :: rest, i, closestPerson, minDistance =>
    if person.detected then
      findNearestHeatSource.forEach drone rest (i + 1) closestPerson minDistance
    else
      let dx := person.position.x - drone.x
      let dz := person.position.z - drone.z
      let distance := Math.sqrt (dx * dx + dz * dz)
      if distance < minDistance then
        findNearestHeatSource.forEach drone rest (i + 1) (some i) distance
      else
        findNearestHeatSource.forEach drone rest (i + 1) closestPerson minDistance

/-- Source: `findNearestHeatSource()`; the result is the index of the person in
`people`. -/
def findNearestHeatSource (people : List Person) (drone : Vec3) : Option Nat :=
  findNearestHeatSource.forEach drone people 0 none (Sqrt.ofRat HEAT_DETECTION_RANGE)

/-! ## Mode commands -/

/-- Source: the click handler of `start-auto`. -/
def startAuto (s : State) : State :=
  { s with
    autoMode := true
    manualMode := false
    thermalViewActive := true
    missionPath :=
      (generateGridSearchPattern s.droneGroup.position.x s.droneGroup.position.z).map some
    currentPathIndex := 0
    missionStatus := .searching
    searchPattern := .gridSearch
    isInvestigating := false
    investigationComplete := false
    heatSourceTarget := none }

/-- Source: the click handler of `manual-control`. -/
def manualControl (s : State) : State :=
  { s with
    autoMode := false
    manualMode := true
    missionStatus := .manualControl
    searchPattern := .none
    isInvestigating := false }

/-- Source: the click handler of `toggle-thermal`. -/
def toggleThermal (s : State) : State :=
  { s with thermalViewActive := !s.thermalViewActive }

/-! ## Investigation -/

/-- Source: `investigateHeatSource(heatSource, delta)`: the state after the call
and the returned flag.  A reference that is not in `people` cannot arise in the
program (targets come from `findNearestHeatSource`); it is treated like a null
reference. -/
def investigateHeatSource (s : State) (heatSource : Option Nat) (delta : ℚ) : State × Bool :=
  match heatSource with
  | none => (s, false)
  | some i =>
    match s.people[i]? with
    | none => (s, false)
    | some person =>
      let s :=
        if s.missionStatus ≠ .investigatingHeatSource then
          { s with missionStatus := .investigatingHeatSource }
        else s
      let targetX := person.position.x
      let targetZ := person.position.z
      let targetY := person.position.y + INVESTIGATION_HEIGHT
      let dx := targetX - s.droneGroup.position.x
      let dz := targetZ - s.droneGroup.position.z
      let dy := targetY - s.droneGroup.position.y
      let distance := Math.sqrt (dx * dx + dz * dz + dy * dy)
      if distance < Sqrt.ofRat 1 then
        let s := { s with hoverTimer := s.hoverTimer + delta }
        if s.hoverTimer ≥ HOVER_TIME ∧ person.detected = false then
          let s := { s with
            people := s.people.set i { person with detected := true }
            peopleDetected := s.peopleDetected + 1
            investigationComplete := true }
          (s, true)
        else (s, false)
      else
        let s := { s with
          droneGroup :=
            { position :=
                ⟨s.droneGroup.position.x + dx * INVESTIGATION_SPEED * delta,
                 s.droneGroup.position.y + dy * INVESTIGATION_SPEED * delta,
                 s.droneGroup.position.z + dz * INVESTIGATION_SPEED * delta⟩
              rotationY := Yaw.pointAt dz dx } }
        (s, false)

/-! ## Frame loop -/

/-- Source: the `if (autoMode) { ... }` block of `animate`. -/
def autoBlock (s : State) (delta : ℚ) : State :=
  if s.isInvestigating = true ∧ s.heatSourceTarget.isSome = true then
    let r := investigateHeatSource s s.heatSourceTarget delta
    let s := r.1
    let investigationDone := r.2
    if investigationDone then
      { s with
        isInvestigating := false
        heatSourceTarget := none
        hoverTimer := 0
        investigationComplete := false
        missionStatus := .searching }
    else s
  else
    let s :=
      if s.isInvestigating = false then
        let s := { s with
          heatSourceTarget := findNearestHeatSource s.people s.droneGroup.position }
        if s.heatSourceTarget.isSome then
          { s with isInvestigating := true, hoverTimer := 0, investigationComplete := false }
        else s
      else s
    if s.isInvestigating = false ∧ s.currentPathIndex < s.missionPath.length then
      match s.missionPath[s.currentPathIndex]? with
      | some (some target) =>
        let dx := target.x - s.droneGroup.position.x
        let dz := target.z - s.droneGroup.position.z
        let dy := target.y - s.droneGroup.position.y
        let distance := Math.sqrt (dx * dx + dz * dz + dy * dy)
        if Sqrt.ofRat 1 < distance then
          { s with
            droneGroup :=
              { position :=
                  ⟨s.droneGroup.position.x + dx * NORMAL_SEARCH_SPEED * delta,
                   s.droneGroup.position.y + dy * NORMAL_SEARCH_SPEED * delta,
                   s.droneGroup.position.z + dz * NORMAL_SEARCH_SPEED * delta⟩
                rotationY :=
                  if Math.abs dx > 0.1 ∨ Math.abs dz > 0.1 then Yaw.pointAt dz dx
                  else s.droneGroup.rotationY } }
        else
          { s with currentPathIndex := s.currentPathIndex + 1 }
      | _ =>
        { s with currentPathIndex := s.currentPathIndex + 1 }
    else if s.isInvestigating = false then
      { s with missionStatus := .searchComplete }
    else s

/-- Source: the `if (manualMode) { ... }` block of `animate`. -/
def manualBlock (getTerrainHeightAt : ℚ → ℚ → ℚ) (s : State) (keys : Keys) : State :=
  let p := s.droneGroup.position
  let r := s.droneGroup.rotationY
  let p := if keys.arrowUp then { p with z := p.z - moveSpeed } else p
  let p := if keys.arrowDown then { p with z := p.z + moveSpeed } else p
  let p := if keys.arrowLeft then { p with x := p.x - moveSpeed } else p
  let p := if keys.arrowRight then { p with x := p.x + moveSpeed } else p
  let p := if keys.w then { p with y := p.y + moveSpeed } else p
  let p :=
    if keys.s then
      let p := { p with y := p.y - moveSpeed }
      let currentTerrainHeight := getTerrainHeightAt p.x p.z
      let minHeight := currentTerrainHeight + MIN_SAFE_HEIGHT
      if p.y < minHeight then { p with y := minHeight } else p
    else p
  let r := if keys.q then r.add rotateSpeed else r
  let r := if keys.e then r.add (-rotateSpeed) else r
  { s with droneGroup := { position := p, rotationY := r } }

/-- Source: one call of `animate()` with `delta = clock.getDelta()` and the key
table as it stands during the frame. -/
def animate (getTerrainHeightAt : ℚ → ℚ → ℚ) (s : State) (delta : ℚ) (keys : Keys) : State :=
  let s := if s.autoMode then autoBlock s delta else s
  if s.manualMode then manualBlock getTerrainHeightAt s keys else s

/-! ## Runs -/

/-- What can happen between two states: a button click or a frame. -/
inductive Event where
  | startAuto
  | manualControl
  | toggleThermal
  | frame (delta : ℚ) (keys : Keys)
deriving DecidableEq, Repr

/-- The effect of one event. -/
def step (getTerrainHeightAt : ℚ → ℚ → ℚ) (s : State) : Event → State
  | .startAuto => startAuto s
  | .manualControl => manualControl s
  | .toggleThermal => toggleThermal s
  | .frame delta keys => animate getTerrainHeightAt s delta keys

/-- The effect of a sequence of events, oldest first. -/
def run (getTerrainHeightAt : ℚ → ℚ → ℚ) (s : State) (events : List Event) : State :=
  events.foldl (step getTerrainHeightAt) s

/-- Source: the module-level initialisation of `main.js`, for a given roster. -/
def initialState (people : List Person) : State :=
  { people := people
    droneGroup := { position := ⟨0, 40, 0⟩, rotationY := ⟨none, 0⟩ }
    hoverTimer := 0
    heatSourceTarget := none
    isInvestigating := false
    investigationComplete := false
    thermalViewActive := false
    autoMode := false
    missionPath := []
    currentPathIndex := 0
    missionStatus := .standby
    searchPattern := .none
    peopleDetected := 0
    manualMode := true }

/-! ## Observations on states and runs, used in the statements -/

/-- The `detected` flag of the person at index `j`, if there is one. -/
def State.detected? (s : State) (j : Nat) : Option Bool :=
  s.people[j]?.map Person.detected

/-- The drone is within one unit of the investigation point of person `j`
(`distance < 1` in `investigateHeatSource`). -/
def State.hoversOver (s : State) (j : Nat) : Bool :=
  match s.people[j]? with
  | some p => decide (hoverDistSq p s.droneGroup.position < 1)
  | none => false

/-- A frame that starts in autonomous mode with person `j` under investigation
and the drone within one unit of its investigation point. -/
def State.isHoverFrame (s : State) (j : Nat) : Bool :=
  s.autoMode && s.isInvestigating && decide (s.heatSourceTarget = some j) && s.hoversOver j

/-- Starting in `s`, every frame among `events` is a hover frame over person `j`,
and no mode command occurs among them. -/
def hoverFrames (getTerrainHeightAt : ℚ → ℚ → ℚ) (s : State) (j : Nat) : List Event → Bool
  | [] => true
  | .frame delta keys :: rest =>
    s.isHoverFrame j && hoverFrames getTerrainHeightAt (animate getTerrainHeightAt s delta keys) j rest
  | .toggleThermal :: rest => hoverFrames getTerrainHeightAt (toggleThermal s) j rest
  | .startAuto :: _ => false
  | .manualControl :: _ => false

/-- The square of the distance between the drone and a way point, as computed in
the path-following branch of `animate`: `dx * dx + dz * dz + dy * dy`. -/
def waypointDistSq (target : Waypoint) (drone : Vec3) : ℚ :=
  (target.x - drone.x) * (target.x - drone.x) +
    (target.z - drone.z) * (target.z - drone.z) +
    (target.y - drone.y) * (target.y - drone.y)

/-- The two mode commands, `start-auto` and `manual-control`. -/
def Event.isModeCommand : Event → Bool
  | .startAuto => true
  | .manualControl => true
  | _ => false

/-- The number of frames among `events`, run from `s`, that advance the path
cursor. -/
def cursorAdvances (getTerrainHeightAt : ℚ → ℚ → ℚ) (s : State) : List Event → Nat
  | [] => 0
  | .frame delta keys :: rest =>
    (if (animate getTerrainHeightAt s delta keys).currentPathIndex = s.currentPathIndex + 1
      then 1 else 0) +
      cursorAdvances getTerrainHeightAt (animate getTerrainHeightAt s delta keys) rest
  | e :: rest => cursorAdvances getTerrainHeightAt (step getTerrainHeightAt s e) rest

/-- The sum of the deltas of the frames among `events`. -/
def deltaSum : List Event → ℚ
  | [] => 0
  | .frame delta _ :: rest => delta + deltaSum rest
  | _ :: rest => deltaSum rest

/-! ## Concrete inputs used to exercise the theorems -/

/-- A terrain that is flat at height 0. -/
def flatTerrain : ℚ → ℚ → ℚ := fun _ _ => 0

/-- The person of the scenario of the specification: undetected, at `(5, 0, 5)`. -/
def scenarioPerson : Person := { position := ⟨5, 0, 5⟩, heatLevel := 37, detected := false }

/-- An undetected person 30 units below the initial drone position `(0, 40, 0)`,
so that the drone starts on the investigation point. -/
def personBelow : Person := { position := ⟨0, 10, 0⟩, heatLevel := 37, detected := false }

/-- A person at `(5, 0, 5)` whose `detected` flag is already true. -/
def rescuedPerson : Person := { position := ⟨5, 0, 5⟩, heatLevel := 37, detected := true }

/-- Autonomous mode, hovering over `personBelow` with 4.9 s accumulated. -/
def hoveringState : State :=
  { initialState [personBelow] with
    autoMode := true
    manualMode := false
    missionStatus := .investigatingHeatSource
    isInvestigating := true
    heatSourceTarget := some 0
    hoverTimer := 4.9 }

/-- Autonomous mode, `personBelow` just acquired as target, nothing accumulated. -/
def acquiredState : State :=
  { initialState [personBelow] with
    autoMode := true
    manualMode := false
    missionStatus := .searching
    isInvestigating := true
    heatSourceTarget := some 0 }

/-- Autonomous mode over an empty roster with an empty mission path. -/
def exhaustedState : State :=
  { initialState [] with
    autoMode := true
    manualMode := false
    missionStatus := .searching }

/-- Autonomous mode over an empty roster, with a path of 10 way points of which
the first is the drone position `(0, 40, 0)`. -/
def tenWaypointState : State :=
  { initialState [] with
    autoMode := true
    manualMode := false
    missionStatus := .searching
    missionPath :=
      [some ⟨0, 40, 0⟩, some ⟨10, 40, 0⟩, some ⟨20, 40, 0⟩, some ⟨30, 40, 0⟩,
        some ⟨40, 40, 0⟩, some ⟨50, 40, 0⟩, some ⟨60, 40, 0⟩, some ⟨70, 40, 0⟩,
        some ⟨80, 40, 0⟩, some ⟨90, 40, 0⟩] }

/-- Autonomous mode over an empty roster, with a malformed first path entry. -/
def malformedPathState : State :=
  { initialState [] with
    autoMode := true
    manualMode := false
    missionStatus := .searching
    missionPath := [none, some ⟨0, 50, 0⟩] }

/-- Only the descend key `s` held. -/
def descendKeys : Keys := { Keys.released with s := true }

/-- Activation over an empty roster followed by `n` frames of 2/3 s, a delta at
which a move lands exactly on the current way point. -/
def sweepEvents (n : Nat) : List Event :=
  .startAuto :: List.replicate n (.frame (2 / 3) Keys.released)

/-- The state after `sweepEvents n` from the initial state with an empty roster. -/
@[irreducible]
def sweepState (n : Nat) : State :=
  run flatTerrain (initialState []) (sweepEvents n)

/-- The start of the scenario of the specification: autonomous mode just
activated, drone at `(0, 40, 0)`, one undetected person at `(5, 0, 5)`,
`peopleDetected = 0`. -/
def scenarioStart : State := startAuto (initialState [scenarioPerson])

/-- The state of the scenario after `n` frames of 0.1 s. -/
@[irreducible]
def scenarioState (n : Nat) : State :=
  run flatTerrain scenarioStart (List.replicate n (.frame 0.1 Keys.released))

/-- Two undetected persons at the same planar distance 5 from `(0, 40, 0)`. -/
def tiedRoster : List Person :=
  [{ position := ⟨3, 0, 4⟩, heatLevel := 37, detected := false },
   { position := ⟨4, 0, 3⟩, heatLevel := 37, detected := false }]

/-- A terrain with a step: height 10 where `x > 0`, height 0 elsewhere. -/
def stepTerrain : ℚ → ℚ → ℚ := fun x _ => if 0 < x then 10 else 0

/-- Only the right arrow key held. -/
def rightKeys : Keys := { Keys.released with arrowRight := true }

/-- Manual mode (the initial mode) with the drone at altitude `y` above the
origin. -/
def manualAt (y : ℚ) : State :=
  { initialState [] with droneGroup := { position := ⟨0, y, 0⟩, rotationY := ⟨none, 0⟩ } }

/-- Autonomous mode over an empty roster, the drone at `(0, 48, 0)`, two units
below the only way point `(0, 50, 0)`. -/
def landingState : State :=
  { initialState [] with
    autoMode := true
    manualMode := false
    missionStatus := .searching
    droneGroup := { position := ⟨0, 48, 0⟩, rotationY := ⟨none, 0⟩ }
    missionPath := [some ⟨0, 50, 0⟩] }

/-! ## Search pattern in double precision -/

namespace Binary64

/-- Round to nearest, ties to even, onto the numbers with a 53-bit significand:
the IEEE 754 binary64 result of an operation whose exact result is `q` (no
overflow or underflow, which do not occur at the magnitudes of a drone
position). -/
def round (q : ℚ) : ℚ :=
  if q = 0 then 0
  else
    let ulp : ℚ := 2 ^ (Int.log 2 |q| - 52)
    let t := q / ulp
    let f := ⌊t⌋
    let k : ℤ :=
      if t - f < 1 / 2 then f
      else if 1 / 2 < t - f then f + 1
      else if f % 2 = 0 then f
      else f + 1
    k * ulp

/-- Source: the `for (let z = gridMinZ; z <= gridMaxZ; z += lineSpacing)` loop of
`generateGridSearchPattern`, every sum rounded to a double.  A double loop
counter need not advance, so the loop is run for at most `fuel` rows. -/
def generateGridSearchPattern.loop (gridMinX gridMaxX gridMaxZ lineSpacing : ℚ) :
    Nat → ℚ → Bool → List Waypoint → Option (List Waypoint)
  | 0, _, _, _ => none
  | fuel + 1, z, goingRight, path =>
    if z ≤ gridMaxZ then
      let path :=
        if goingRight then
          let path := path ++ [⟨gridMaxX, SEARCH_PATTERN_HEIGHT, z⟩]
          if round (z + lineSpacing) ≤ gridMaxZ then
            path ++ [⟨gridMaxX, SEARCH_PATTERN_HEIGHT, round (z + lineSpacing)⟩]
          else path
        else
          let path := path ++ [⟨gridMinX, SEARCH_PATTERN_HEIGHT, z⟩]
          if round (z + lineSpacing) ≤ gridMaxZ then
            path ++ [⟨gridMinX, SEARCH_PATTERN_HEIGHT, round (z + lineSpacing)⟩]
          else path
      generateGridSearchPattern.loop gridMinX gridMaxX gridMaxZ lineSpacing fuel
        (round (z + lineSpacing)) (!goingRight) path
    else some path

/-- Source: `generateGridSearchPattern(startX, startZ)` on doubles `startX`,
`startZ`, every operation rounded to a double. -/
def generateGridSearchPattern (fuel : Nat) (startX startZ : ℚ) : Option (List Waypoint) :=
  let gridSize : ℚ := 180
  let lineSpacing : ℚ := 20
  let halfGrid := round (gridSize / 2)
  let gridMinX := round (startX - halfGrid)
  let gridMaxX := round (startX + halfGrid)
  let gridMinZ := round (startZ - halfGrid)
  let gridMaxZ := round (startZ + halfGrid)
  let path : List Waypoint := []
  let path := path ++ [⟨startX, SEARCH_PATTERN_HEIGHT, startZ⟩]
  let path := path ++ [⟨gridMinX, SEARCH_PATTERN_HEIGHT, gridMinZ⟩]
  generateGridSearchPattern.loop gridMinX gridMaxX gridMaxZ lineSpacing fuel gridMinZ true path

/-- Source: `const moveSpeed = 0.2`, the double nearest to `0.2`. -/
def moveSpeed : ℚ := round 0.2

/-- Source: `droneGroup.position.z -= moveSpeed`, the effect of a manual frame with
only `ArrowUp` held on the `z` coordinate. -/
def arrowUp (z : ℚ) : ℚ := round (z - moveSpeed)

end Binary64

/-- The double `-26.19999999999994`: the `z` coordinate of the drone after 131
manual frames with `ArrowUp` held, starting from `z = 0`. -/
def rowLossStart : ℚ := -3687322194909585 / 140737488355328

/-! # Theorems -/

theorem Sqrt.lt_def (a b : Sqrt) : a < b ↔ a.sq < b.sq := Iff.rfl

/-! ## Heat-source detector -/

/-- The loop of the detector either keeps the captured candidate, and then no
undetected person of the rest is nearer than the captured minimum, or returns
the first undetected person of the rest at minimal distance, which is strictly
nearer than the captured minimum. -/
theorem forEach_spec (drone : Vec3) :
    ∀ (l : List Person) (i : Nat) (c : Option Nat) (m : Sqrt),
      (findNearestHeatSource.forEach drone l i c m = c ∧
        ∀ q ∈ l, q.detected = false → m.sq ≤ planarDistSq q drone) ∨
      (∃ k p, findNearestHeatSource.forEach drone l i c m = some (i + k) ∧
        l[k]? = some p ∧ p.detected = false ∧ planarDistSq p drone < m.sq ∧
        (∀ q ∈ l, q.detected = false → planarDistSq p drone ≤ planarDistSq q drone) ∧
        (∀ j q, j < k → l[j]? = some q → q.detected = false →
          planarDistSq p drone < planarDistSq q drone)) := by
  intro l
  induction l with
  | nil =>
    intro i c m
    left
    simp [findNearestHeatSource.forEach]
  | cons a rest ih =>
    intro i c m
    by_cases hd : a.detected = true
    · have hstep : findNearestHeatSource.forEach drone (a :: rest) i c m =
          findNearestHeatSource.forEach drone rest (i + 1) c m := by
        simp [findNearestHeatSource.forEach, hd]
      rw [hstep]
      rcases ih (i + 1) c m with ⟨h1, h2⟩ | ⟨k, p, h1, h2, h3, h4, h5, h6⟩
      · left
        refine ⟨h1, ?_⟩
        intro q hq hqd
        rcases List.mem_cons.mp hq with rfl | hq
        · simp [hd] at hqd
        · exact h2 q hq hqd
      · right
        refine ⟨k + 1, p, by rw [h1]; congr 1; omega, by simpa using h2, h3, h4, ?_, ?_⟩
        · intro q hq hqd
          rcases List.mem_cons.mp hq with rfl | hq
          · simp [hd] at hqd
          · exact h5 q hq hqd
        · intro j q hj hjq hqd
          cases j with
          | zero =>
            simp at hjq
            subst hjq
            simp [hd] at hqd
          | succ j => exact h6 j q (by omega) (by simpa using hjq) hqd
    · have hd : a.detected = false := by simpa using hd
      by_cases hlt : planarDistSq a drone < m.sq
      · have hstep : findNearestHeatSource.forEach drone (a :: rest) i c m =
            findNearestHeatSource.forEach drone rest (i + 1) (some i)
              (Math.sqrt (planarDistSq a drone)) := by
          have hlt2 : Math.sqrt ((a.position.x - drone.x) * (a.position.x - drone.x) +
              (a.position.z - drone.z) * (a.position.z - drone.z)) < m := hlt
          simp [findNearestHeatSource.forEach, hd, hlt2, planarDistSq]
        rw [hstep]
        rcases ih (i + 1) (some i) (Math.sqrt (planarDistSq a drone)) with
          ⟨h1, h2⟩ | ⟨k, p, h1, h2, h3, h4, h5, h6⟩
        · right
          refine ⟨0, a, by rw [h1]; rfl, by simp, hd, hlt, ?_, ?_⟩
          · intro q hq hqd
            rcases List.mem_cons.mp hq with rfl | hq
            · exact le_refl _
            · exact h2 q hq hqd
          · intro j q hj
            omega
        · right
          have h4 : planarDistSq p drone < planarDistSq a drone := h4
          refine ⟨k + 1, p, by rw [h1]; congr 1; omega, by simpa using h2, h3,
            lt_trans h4 hlt, ?_, ?_⟩
          · intro q hq hqd
            rcases List.mem_cons.mp hq with rfl | hq
            · exact le_of_lt h4
            · exact h5 q hq hqd
          · intro j q hj hjq hqd
            cases j with
            | zero =>
              simp at hjq
              subst hjq
              exact h4
            | succ j => exact h6 j q (by omega) (by simpa using hjq) hqd
      · have hstep : findNearestHeatSource.forEach drone (a :: rest) i c m =
            findNearestHeatSource.forEach drone rest (i + 1) c m := by
          have hlt2 : ¬ Math.sqrt ((a.position.x - drone.x) * (a.position.x - drone.x) +
              (a.position.z - drone.z) * (a.position.z - drone.z)) < m := hlt
          simp [findNearestHeatSource.forEach, hd, hlt2]
        rw [hstep]
        have hle : m.sq ≤ planarDistSq a drone := not_lt.mp hlt
        rcases ih (i + 1) c m with ⟨h1, h2⟩ | ⟨k, p, h1, h2, h3, h4, h5, h6⟩
        · left
          refine ⟨h1, ?_⟩
          intro q hq hqd
          rcases List.mem_cons.mp hq with rfl | hq
          · exact hle
          · exact h2 q hq hqd
        · right
          refine ⟨k + 1, p, by rw [h1]; congr 1; omega, by simpa using h2, h3, h4, ?_, ?_⟩
          · intro q hq hqd
            rcases List.mem_cons.mp hq with rfl | hq
            · exact le_of_lt (lt_of_lt_of_le h4 hle)
            · exact h5 q hq hqd
          · intro j q hj hjq hqd
            cases j with
            | zero =>
              simp at hjq
              subst hjq
              exact lt_of_lt_of_le h4 hle
            | succ j => exact h6 j q (by omega) (by simpa using hjq) hqd

/-- The detector either returns nothing, and then no undetected person is within
range, or returns the first undetected person at minimal distance, which is
within range. -/
theorem findNearestHeatSource_spec (people : List Person) (drone : Vec3) :
    (findNearestHeatSource people drone = none ∧
      ∀ q ∈ people, q.detected = false →
        HEAT_DETECTION_RANGE * HEAT_DETECTION_RANGE ≤ planarDistSq q drone) ∨
    (∃ k p, findNearestHeatSource people drone = some k ∧
      people[k]? = some p ∧ p.detected = false ∧
      planarDistSq p drone < HEAT_DETECTION_RANGE * HEAT_DETECTION_RANGE ∧
      (∀ q ∈ people, q.detected = false → planarDistSq p drone ≤ planarDistSq q drone) ∧
      (∀ j q, j < k → people[j]? = some q → q.detected = false →
        planarDistSq p drone < planarDistSq q drone)) := by
  have h := forEach_spec drone people 0 none (Sqrt.ofRat HEAT_DETECTION_RANGE)
  simpa [findNearestHeatSource, Sqrt.ofRat] using h

/-- An entity returned by the detector is in the roster, undetected and within
range. -/
theorem findNearestHeatSource_sound (people : List Person)
    (drone : Vec3) (i : Nat) (h : findNearestHeatSource people drone = some i) :
    ∃ p, people[i]? = some p ∧ p.detected ≠ true ∧
      ¬ (HEAT_DETECTION_RANGE * HEAT_DETECTION_RANGE ≤ planarDistSq p drone) ∧
      planarDistSq p drone ≠ 40 * 40 := by
  rcases findNearestHeatSource_spec people drone with ⟨h1, _⟩ | ⟨k, p, h1, h2, h3, h4, _, _⟩
  · rw [h1] at h
    exact absurd h (by simp)
  · rw [h1] at h
    have hk : k = i := by simpa using h
    subst hk
    refine ⟨p, h2, by simp [h3], not_le.mpr h4, ?_⟩
    have h40 : HEAT_DETECTION_RANGE * HEAT_DETECTION_RANGE = 40 * 40 := by
      simp [HEAT_DETECTION_RANGE]
    rw [h40] at h4
    exact ne_of_lt h4

/-- C1: whatever the roster and the drone position, an entity returned by
`findNearestHeatSource` is in the roster, its `detected` flag is not true, and
its planar distance to the drone is neither greater than nor equal to
`HEAT_DETECTION_RANGE` (stated on the squares: the squared distance is below
`40 * 40`, in particular it is not `40 * 40`). -/
theorem findNearestHeatSource_undetected_within_range (people : List Person) (drone : Vec3)
    (i : Nat) (h : findNearestHeatSource people drone = some i) :
    ∃ p, people[i]? = some p ∧ p.detected ≠ true ∧
      ¬ (HEAT_DETECTION_RANGE * HEAT_DETECTION_RANGE ≤ planarDistSq p drone) ∧
      planarDistSq p drone ≠ 40 * 40 :=
  findNearestHeatSource_sound people drone i h

/-- C1, at a roster of an undetected person at planar distance exactly 40 (not
returned) followed by an undetected person at distance 30 (returned). -/
theorem findNearestHeatSource_undetected_within_range_witness :
    ∃ p, [(⟨⟨40, 0, 0⟩, 37, false⟩ : Person), ⟨⟨0, 0, 30⟩, 37, false⟩][1]? = some p ∧
      p.detected ≠ true ∧
      ¬ (HEAT_DETECTION_RANGE * HEAT_DETECTION_RANGE ≤ planarDistSq p ⟨0, 40, 0⟩) ∧
      planarDistSq p ⟨0, 40, 0⟩ ≠ 40 * 40 :=
  findNearestHeatSource_undetected_within_range
    [⟨⟨40, 0, 0⟩, 37, false⟩, ⟨⟨0, 0, 30⟩, 37, false⟩] ⟨0, 40, 0⟩ 1
    (by
      simp [findNearestHeatSource, findNearestHeatSource.forEach, Sqrt.ofRat, Math.sqrt,
        Sqrt.lt_def, HEAT_DETECTION_RANGE]
      norm_num)

/-- C2: `findNearestHeatSource` returns nothing exactly when no undetected entity
of the roster is at planar distance below 40 (squared distance below `40 * 40`),
and an entity it returns is at most as far from the drone as every undetected
entity of the roster. -/
theorem findNearestHeatSource_none_iff_and_minimal (people : List Person) (drone : Vec3) :
    (findNearestHeatSource people drone = none ↔
      ∀ q ∈ people, q.detected = false → ¬ planarDistSq q drone < 40 * 40) ∧
    (∀ i, findNearestHeatSource people drone = some i →
      ∃ p, people[i]? = some p ∧
        ∀ q ∈ people, q.detected = false → planarDistSq p drone ≤ planarDistSq q drone) := by
  have h40 : HEAT_DETECTION_RANGE * HEAT_DETECTION_RANGE = 40 * 40 := by
    simp [HEAT_DETECTION_RANGE]
  rcases findNearestHeatSource_spec people drone with ⟨h1, h2⟩ | ⟨k, p, h1, h2, h3, h4, h5, _⟩
  · rw [h40] at h2
    refine ⟨⟨fun _ q hq hqd => not_lt.mpr (h2 q hq hqd), fun _ => h1⟩, ?_⟩
    intro i hi
    rw [h1] at hi
    exact absurd hi (by simp)
  · rw [h40] at h4
    refine ⟨⟨fun hn => ?_, fun hall => ?_⟩, ?_⟩
    · rw [h1] at hn
      exact absurd hn (by simp)
    · exact absurd h4 (hall p (List.getElem?_mem h2) h3)
    · intro i hi
      rw [h1] at hi
      have hk : k = i := by simpa using hi
      subst hk
      exact ⟨p, h2, h5⟩

/-! ## The four outcomes of `investigateHeatSource` -/

theorem investigateHeatSource_dangling (s : State) (i : Nat) (delta : ℚ)
    (hp : s.people[i]? = none) :
    investigateHeatSource s (some i) delta = (s, false) := by
  simp [investigateHeatSource, hp]

theorem investigateHeatSource_done (s : State) (i : Nat) (p : Person) (delta : ℚ)
    (hp : s.people[i]? = some p) (hnear : hoverDistSq p s.droneGroup.position < 1)
    (htime : HOVER_TIME ≤ s.hoverTimer + delta) (hund : p.detected = false) :
    investigateHeatSource s (some i) delta =
      ({ s with
          missionStatus := .investigatingHeatSource
          hoverTimer := s.hoverTimer + delta
          people := s.people.set i { p with detected := true }
          peopleDetected := s.peopleDetected + 1
          investigationComplete := true }, true) := by
  have hnear2 : Math.sqrt ((p.position.x - s.droneGroup.position.x) *
      (p.position.x - s.droneGroup.position.x) +
      (p.position.z - s.droneGroup.position.z) * (p.position.z - s.droneGroup.position.z) +
      (p.position.y + INVESTIGATION_HEIGHT - s.droneGroup.position.y) *
        (p.position.y + INVESTIGATION_HEIGHT - s.droneGroup.position.y)) < Sqrt.ofRat 1 := by
    simpa [Sqrt.lt_def, Math.sqrt, Sqrt.ofRat, hoverDistSq] using hnear
  by_cases hst : s.missionStatus = .investigatingHeatSource <;>
    simp [investigateHeatSource, hp, hst, hnear2, htime, hund]

theorem investigateHeatSource_wait (s : State) (i : Nat) (p : Person) (delta : ℚ)
    (hp : s.people[i]? = some p) (hnear : hoverDistSq p s.droneGroup.position < 1)
    (hnot : ¬ (HOVER_TIME ≤ s.hoverTimer + delta ∧ p.detected = false)) :
    investigateHeatSource s (some i) delta =
      ({ s with
          missionStatus := .investigatingHeatSource
          hoverTimer := s.hoverTimer + delta }, false) := by
  have hnear2 : Math.sqrt ((p.position.x - s.droneGroup.position.x) *
      (p.position.x - s.droneGroup.position.x) +
      (p.position.z - s.droneGroup.position.z) * (p.position.z - s.droneGroup.position.z) +
      (p.position.y + INVESTIGATION_HEIGHT - s.droneGroup.position.y) *
        (p.position.y + INVESTIGATION_HEIGHT - s.droneGroup.position.y)) < Sqrt.ofRat 1 := by
    simpa [Sqrt.lt_def, Math.sqrt, Sqrt.ofRat, hoverDistSq] using hnear
  by_cases hst : s.missionStatus = .investigatingHeatSource <;>
    simp [investigateHeatSource, hp, hst, hnear2, hnot]

theorem investigateHeatSource_approach (s : State) (i : Nat) (p : Person) (delta : ℚ)
    (hp : s.people[i]? = some p) (hfar : ¬ hoverDistSq p s.droneGroup.position < 1) :
    investigateHeatSource s (some i) delta =
      ({ s with
          missionStatus := .investigatingHeatSource
          droneGroup :=
            { position :=
                ⟨s.droneGroup.position.x +
                   (p.position.x - s.droneGroup.position.x) * INVESTIGATION_SPEED * delta,
                 s.droneGroup.position.y +
                   (p.position.y + INVESTIGATION_HEIGHT - s.droneGroup.position.y) *
                     INVESTIGATION_SPEED * delta,
                 s.droneGroup.position.z +
                   (p.position.z - s.droneGroup.position.z) * INVESTIGATION_SPEED * delta⟩
              rotationY := Yaw.pointAt (p.position.z - s.droneGroup.position.z)
                (p.position.x - s.droneGroup.position.x) } }, false) := by
  have hfar2 : ¬ Math.sqrt ((p.position.x - s.droneGroup.position.x) *
      (p.position.x - s.droneGroup.position.x) +
      (p.position.z - s.droneGroup.position.z) * (p.position.z - s.droneGroup.position.z) +
      (p.position.y + INVESTIGATION_HEIGHT - s.droneGroup.position.y) *
        (p.position.y + INVESTIGATION_HEIGHT - s.droneGroup.position.y)) < Sqrt.ofRat 1 := by
    simpa [Sqrt.lt_def, Math.sqrt, Sqrt.ofRat, hoverDistSq] using hfar
  by_cases hst : s.missionStatus = .investigatingHeatSource <;>
    simp [investigateHeatSource, hp, hst, hfar2]

/-! ## The outcomes of the autonomous block -/

theorem autoBlock_investigating (s : State) (i : Nat) (delta : ℚ)
    (hinv : s.isInvestigating = true) (ht : s.heatSourceTarget = some i) :
    autoBlock s delta =
      if (investigateHeatSource s (some i) delta).2 = true then
        { (investigateHeatSource s (some i) delta).1 with
          isInvestigating := false
          heatSourceTarget := none
          hoverTimer := 0
          investigationComplete := false
          missionStatus := .searching }
      else (investigateHeatSource s (some i) delta).1 := by
  simp [autoBlock, hinv, ht]

theorem autoBlock_stalled (s : State) (delta : ℚ)
    (hinv : s.isInvestigating = true) (ht : s.heatSourceTarget = none) :
    autoBlock s delta = s := by
  simp [autoBlock, hinv, ht]

theorem autoBlock_acquire (s : State) (e : Nat) (delta : ℚ)
    (hinv : s.isInvestigating = false)
    (hf : findNearestHeatSource s.people s.droneGroup.position = some e) :
    autoBlock s delta =
      { s with
        heatSourceTarget := some e
        isInvestigating := true
        hoverTimer := 0
        investigationComplete := false } := by
  simp [autoBlock, hinv, hf]

theorem autoBlock_move (s : State) (target : Waypoint) (delta : ℚ)
    (hinv : s.isInvestigating = false)
    (hf : findNearestHeatSource s.people s.droneGroup.position = none)
    (hidx : s.missionPath[s.currentPathIndex]? = some (some target))
    (hfar : 1 < (target.x - s.droneGroup.position.x) * (target.x - s.droneGroup.position.x) +
      (target.z - s.droneGroup.position.z) * (target.z - s.droneGroup.position.z) +
      (target.y - s.droneGroup.position.y) * (target.y - s.droneGroup.position.y)) :
    autoBlock s delta =
      { s with
        heatSourceTarget := none
        droneGroup :=
          { position :=
              ⟨s.droneGroup.position.x +
                 (target.x - s.droneGroup.position.x) * NORMAL_SEARCH_SPEED * delta,
               s.droneGroup.position.y +
                 (target.y - s.droneGroup.position.y) * NORMAL_SEARCH_SPEED * delta,
               s.droneGroup.position.z +
                 (target.z - s.droneGroup.position.z) * NORMAL_SEARCH_SPEED * delta⟩
            rotationY :=
              if Math.abs (target.x - s.droneGroup.position.x) > 0.1 ∨
                  Math.abs (target.z - s.droneGroup.position.z) > 0.1 then
                Yaw.pointAt (target.z - s.droneGroup.position.z)
                  (target.x - s.droneGroup.position.x)
              else s.droneGroup.rotationY } } := by
  have hlen : s.currentPathIndex < s.missionPath.length := by
    by_contra hcon
    rw [List.getElem?_eq_none (by omega)] at hidx
    exact absurd hidx (by simp)
  have hfar2 : Sqrt.ofRat 1 < Math.sqrt ((target.x - s.droneGroup.position.x) *
      (target.x - s.droneGroup.position.x) +
      (target.z - s.droneGroup.position.z) * (target.z - s.droneGroup.position.z) +
      (target.y - s.droneGroup.position.y) * (target.y - s.droneGroup.position.y)) := by
    simpa [Sqrt.lt_def, Math.sqrt, Sqrt.ofRat] using hfar
  simp only [autoBlock, hinv, hf]
  simp [hlen, hidx, hfar2]

theorem autoBlock_arrive (s : State) (target : Waypoint) (delta : ℚ)
    (hinv : s.isInvestigating = false)
    (hf : findNearestHeatSource s.people s.droneGroup.position = none)
    (hidx : s.missionPath[s.currentPathIndex]? = some (some target))
    (hnear : ¬ 1 < (target.x - s.droneGroup.position.x) * (target.x - s.droneGroup.position.x) +
      (target.z - s.droneGroup.position.z) * (target.z - s.droneGroup.position.z) +
      (target.y - s.droneGroup.position.y) * (target.y - s.droneGroup.position.y)) :
    autoBlock s delta =
      { s with heatSourceTarget := none, currentPathIndex := s.currentPathIndex + 1 } := by
  have hlen : s.currentPathIndex < s.missionPath.length := by
    by_contra hcon
    rw [List.getElem?_eq_none (by omega)] at hidx
    exact absurd hidx (by simp)
  have hnear2 : ¬ Sqrt.ofRat 1 < Math.sqrt ((target.x - s.droneGroup.position.x) *
      (target.x - s.droneGroup.position.x) +
      (target.z - s.droneGroup.position.z) * (target.z - s.droneGroup.position.z) +
      (target.y - s.droneGroup.position.y) * (target.y - s.droneGroup.position.y)) := by
    simpa [Sqrt.lt_def, Math.sqrt, Sqrt.ofRat] using hnear
  simp only [autoBlock, hinv, hf]
  simp [hlen, hidx, hnear2]

theorem autoBlock_skip (s : State) (delta : ℚ)
    (hinv : s.isInvestigating = false)
    (hf : findNearestHeatSource s.people s.droneGroup.position = none)
    (hidx : s.missionPath[s.currentPathIndex]? = some none) :
    autoBlock s delta =
      { s with heatSourceTarget := none, currentPathIndex := s.currentPathIndex + 1 } := by
  have hlen : s.currentPathIndex < s.missionPath.length := by
    by_contra hcon
    rw [List.getElem?_eq_none (by omega)] at hidx
    exact absurd hidx (by simp)
  simp only [autoBlock, hinv, hf]
  simp [hlen, hidx]

theorem autoBlock_exhausted (s : State) (delta : ℚ)
    (hinv : s.isInvestigating = false)
    (hf : findNearestHeatSource s.people s.droneGroup.position = none)
    (hidx : ¬ s.currentPathIndex < s.missionPath.length) :
    autoBlock s delta =
      { s with heatSourceTarget := none, missionStatus := .searchComplete } := by
  simp only [autoBlock, hinv, hf]
  simp [hidx]

/-- Every run of the autonomous block is one of ten outcomes: a stalled or
dangling investigation (neither arises in a run of the program), dwell
completion, a hover frame, an approach frame, acquisition of a target, a move
toward the current way point, arrival at it, a skipped malformed way point, or
the end of the path. -/
theorem autoBlock_outcome (s : State) (delta : ℚ) :
    (s.isInvestigating = true ∧ s.heatSourceTarget = none ∧ autoBlock s delta = s) ∨
    (∃ i, s.isInvestigating = true ∧ s.heatSourceTarget = some i ∧ s.people[i]? = none ∧
      autoBlock s delta = s) ∨
    (∃ i p, s.isInvestigating = true ∧ s.heatSourceTarget = some i ∧ s.people[i]? = some p ∧
      hoverDistSq p s.droneGroup.position < 1 ∧ HOVER_TIME ≤ s.hoverTimer + delta ∧
      p.detected = false ∧
      autoBlock s delta =
        { s with
          people := s.people.set i { p with detected := true }
          peopleDetected := s.peopleDetected + 1
          isInvestigating := false
          heatSourceTarget := none
          hoverTimer := 0
          investigationComplete := false
          missionStatus := .searching }) ∨
    (∃ i p, s.isInvestigating = true ∧ s.heatSourceTarget = some i ∧ s.people[i]? = some p ∧
      hoverDistSq p s.droneGroup.position < 1 ∧
      ¬ (HOVER_TIME ≤ s.hoverTimer + delta ∧ p.detected = false) ∧
      autoBlock s delta =
        { s with
          missionStatus := .investigatingHeatSource
          hoverTimer := s.hoverTimer + delta }) ∨
    (∃ i p, s.isInvestigating = true ∧ s.heatSourceTarget = some i ∧ s.people[i]? = some p ∧
      ¬ hoverDistSq p s.droneGroup.position < 1 ∧
      autoBlock s delta =
        { s with
          missionStatus := .investigatingHeatSource
          droneGroup :=
            { position :=
                ⟨s.droneGroup.position.x +
                   (p.position.x - s.droneGroup.position.x) * INVESTIGATION_SPEED * delta,
                 s.droneGroup.position.y +
                   (p.position.y + INVESTIGATION_HEIGHT - s.droneGroup.position.y) *
                     INVESTIGATION_SPEED * delta,
                 s.droneGroup.position.z +
                   (p.position.z - s.droneGroup.position.z) * INVESTIGATION_SPEED * delta⟩
              rotationY := Yaw.pointAt (p.position.z - s.droneGroup.position.z)
                (p.position.x - s.droneGroup.position.x) } }) ∨
    (∃ e, s.isInvestigating = false ∧
      findNearestHeatSource s.people s.droneGroup.position = some e ∧
      autoBlock s delta =
        { s with
          heatSourceTarget := some e
          isInvestigating := true
          hoverTimer := 0
          investigationComplete := false }) ∨
    (∃ target, s.isInvestigating = false ∧
      findNearestHeatSource s.people s.droneGroup.position = none ∧
      s.missionPath[s.currentPathIndex]? = some (some target) ∧
      1 < (target.x - s.droneGroup.position.x) * (target.x - s.droneGroup.position.x) +
        (target.z - s.droneGroup.position.z) * (target.z - s.droneGroup.position.z) +
        (target.y - s.droneGroup.position.y) * (target.y - s.droneGroup.position.y) ∧
      autoBlock s delta =
        { s with
          heatSourceTarget := none
          droneGroup :=
            { position :=
                ⟨s.droneGroup.position.x +
                   (target.x - s.droneGroup.position.x) * NORMAL_SEARCH_SPEED * delta,
                 s.droneGroup.position.y +
                   (target.y - s.droneGroup.position.y) * NORMAL_SEARCH_SPEED * delta,
                 s.droneGroup.position.z +
                   (target.z - s.droneGroup.position.z) * NORMAL_SEARCH_SPEED * delta⟩
              rotationY :=
                if Math.abs (target.x - s.droneGroup.position.x) > 0.1 ∨
                    Math.abs (target.z - s.droneGroup.position.z) > 0.1 then
                  Yaw.pointAt (target.z - s.droneGroup.position.z)
                    (target.x - s.droneGroup.position.x)
                else s.droneGroup.rotationY } }) ∨
    (∃ target, s.isInvestigating = false ∧
      findNearestHeatSource s.people s.droneGroup.position = none ∧
      s.missionPath[s.currentPathIndex]? = some (some target) ∧
      ¬ 1 < (target.x - s.droneGroup.position.x) * (target.x - s.droneGroup.position.x) +
        (target.z - s.droneGroup.position.z) * (target.z - s.droneGroup.position.z) +
        (target.y - s.droneGroup.position.y) * (target.y - s.droneGroup.position.y) ∧
      autoBlock s delta =
        { s with heatSourceTarget := none, currentPathIndex := s.currentPathIndex + 1 }) ∨
    (s.isInvestigating = false ∧
      findNearestHeatSource s.people s.droneGroup.position = none ∧
      s.missionPath[s.currentPathIndex]? = some none ∧
      autoBlock s delta =
        { s with heatSourceTarget := none, currentPathIndex := s.currentPathIndex + 1 }) ∨
    (s.isInvestigating = false ∧
      findNearestHeatSource s.people s.droneGroup.position = none ∧
      ¬ s.currentPathIndex < s.missionPath.length ∧
      autoBlock s delta =
        { s with heatSourceTarget := none, missionStatus := .searchComplete }) := by
  rcases Bool.eq_false_or_eq_true s.isInvestigating with hinv | hinv
  · obtain ht | ⟨i, ht⟩ : s.heatSourceTarget = none ∨ ∃ i, s.heatSourceTarget = some i := by
      cases s.heatSourceTarget <;> simp
    · exact Or.inl ⟨hinv, ht, autoBlock_stalled s delta hinv ht⟩
    · right
      obtain hp | ⟨p, hp⟩ : s.people[i]? = none ∨ ∃ p, s.people[i]? = some p := by
        cases s.people[i]? <;> simp
      · left
        refine ⟨i, hinv, ht, hp, ?_⟩
        rw [autoBlock_investigating s i delta hinv ht, investigateHeatSource_dangling s i delta hp]
        simp
      · right
        by_cases hnear : hoverDistSq p s.droneGroup.position < 1
        · by_cases hdone : HOVER_TIME ≤ s.hoverTimer + delta ∧ p.detected = false
          · left
            refine ⟨i, p, hinv, ht, hp, hnear, hdone.1, hdone.2, ?_⟩
            rw [autoBlock_investigating s i delta hinv ht,
              investigateHeatSource_done s i p delta hp hnear hdone.1 hdone.2]
            simp
          · right; left
            refine ⟨i, p, hinv, ht, hp, hnear, hdone, ?_⟩
            rw [autoBlock_investigating s i delta hinv ht,
              investigateHeatSource_wait s i p delta hp hnear hdone]
            simp
        · right; right; left
          refine ⟨i, p, hinv, ht, hp, hnear, ?_⟩
          rw [autoBlock_investigating s i delta hinv ht,
            investigateHeatSource_approach s i p delta hp hnear]
          simp
  · right; right; right; right; right
    obtain hf | ⟨e, hf⟩ : findNearestHeatSource s.people s.droneGroup.position = none ∨
        ∃ e, findNearestHeatSource s.people s.droneGroup.position = some e := by
      cases findNearestHeatSource s.people s.droneGroup.position <;> simp
    · right
      by_cases hlen : s.currentPathIndex < s.missionPath.length
      · obtain hidx | hidx | ⟨target, hidx⟩ : s.missionPath[s.currentPathIndex]? = none ∨
            s.missionPath[s.currentPathIndex]? = some none ∨
            ∃ target, s.missionPath[s.currentPathIndex]? = some (some target) := by
          rcases s.missionPath[s.currentPathIndex]? with _ | _ | _ <;> simp
        · rw [List.getElem?_eq_getElem hlen] at hidx
          exact absurd hidx (by simp)
        · right; right; left
          exact ⟨hinv, hf, hidx, autoBlock_skip s delta hinv hf hidx⟩
        · by_cases hfar : 1 < (target.x - s.droneGroup.position.x) *
              (target.x - s.droneGroup.position.x) +
              (target.z - s.droneGroup.position.z) * (target.z - s.droneGroup.position.z) +
              (target.y - s.droneGroup.position.y) * (target.y - s.droneGroup.position.y)
          · left
            exact ⟨target, hinv, hf, hidx, hfar,
              autoBlock_move s target delta hinv hf hidx hfar⟩
          · right; left
            exact ⟨target, hinv, hf, hidx, hfar,
              autoBlock_arrive s target delta hinv hf hidx hfar⟩
      · right; right; right
        exact ⟨hinv, hf, hlen, autoBlock_exhausted s delta hinv hf hlen⟩
    · exact Or.inl ⟨e, hinv, hf, autoBlock_acquire s e delta hinv hf⟩

/-- The autonomous block never writes the mode flags, the mission path, the
pattern label, the thermal flag, nor the length of the roster. -/
theorem autoBlock_frame (s : State) (delta : ℚ) :
    (autoBlock s delta).autoMode = s.autoMode ∧
    (autoBlock s delta).manualMode = s.manualMode ∧
    (autoBlock s delta).missionPath = s.missionPath ∧
    (autoBlock s delta).searchPattern = s.searchPattern ∧
    (autoBlock s delta).thermalViewActive = s.thermalViewActive ∧
    (autoBlock s delta).people.length = s.people.length := by
  rcases autoBlock_outcome s delta with
    ⟨_, _, h⟩ | ⟨_, _, _, _, h⟩ | ⟨_, _, _, _, _, _, _, _, h⟩ | ⟨_, _, _, _, _, _, _, h⟩ |
    ⟨_, _, _, _, _, _, h⟩ | ⟨_, _, _, h⟩ | ⟨_, _, _, _, _, h⟩ | ⟨_, _, _, _, _, h⟩ |
    ⟨_, _, _, h⟩ | ⟨_, _, _, h⟩ <;>
  simp [h]

/-- The manual block writes the drone pose only. -/
theorem manualBlock_eq (g : ℚ → ℚ → ℚ) (s : State) (keys : Keys) :
    manualBlock g s keys = { s with droneGroup := (manualBlock g s keys).droneGroup } := rfl

/-- In autonomous mode a frame is the autonomous block followed, if manual mode
is on as well, by the manual block. -/
theorem animate_of_auto (g : ℚ → ℚ → ℚ) (s : State) (delta : ℚ) (keys : Keys)
    (hauto : s.autoMode = true) :
    animate g s delta keys =
      if (autoBlock s delta).manualMode = true then manualBlock g (autoBlock s delta) keys
      else autoBlock s delta := by
  simp [animate, hauto]

/-- In autonomous mode with manual mode off, a frame is the autonomous block. -/
theorem animate_auto (g : ℚ → ℚ → ℚ) (s : State) (delta : ℚ) (keys : Keys)
    (hauto : s.autoMode = true) (hman : s.manualMode = false) :
    animate g s delta keys = autoBlock s delta := by
  have hm := (autoBlock_frame s delta).2.1
  simp [animate, hauto, hm, hman]

/-- Fields a frame can change only through the autonomous block. -/
theorem animate_fields (g : ℚ → ℚ → ℚ) (s : State) (delta : ℚ) (keys : Keys) :
    (animate g s delta keys).people = (if s.autoMode then autoBlock s delta else s).people ∧
    (animate g s delta keys).hoverTimer = (if s.autoMode then autoBlock s delta else s).hoverTimer ∧
    (animate g s delta keys).heatSourceTarget =
      (if s.autoMode then autoBlock s delta else s).heatSourceTarget ∧
    (animate g s delta keys).isInvestigating =
      (if s.autoMode then autoBlock s delta else s).isInvestigating ∧
    (animate g s delta keys).missionStatus =
      (if s.autoMode then autoBlock s delta else s).missionStatus ∧
    (animate g s delta keys).currentPathIndex =
      (if s.autoMode then autoBlock s delta else s).currentPathIndex ∧
    (animate g s delta keys).peopleDetected =
      (if s.autoMode then autoBlock s delta else s).peopleDetected ∧
    (animate g s delta keys).missionPath = s.missionPath ∧
    (animate g s delta keys).autoMode = s.autoMode ∧
    (animate g s delta keys).manualMode = s.manualMode := by
  have hf := autoBlock_frame s delta
  unfold animate
  by_cases hauto : s.autoMode = true <;> by_cases hman : s.manualMode = true <;>
    simp [hauto, hman, hf.1, hf.2.1, hf.2.2.1, manualBlock]

/-! ## Single frames and commands -/

/-- C5: dwell completion.  An autonomous frame that starts with an active
investigation of an undetected target, with the drone within one unit of the
investigation point and `hoverTimer + delta ≥ HOVER_TIME`, ends with the target
detected, `peopleDetected` one higher, no target, `isInvestigating` false,
`hoverTimer` 0, status `Searching`, and the drone position and path cursor
unchanged. -/
theorem dwell_completion (g : ℚ → ℚ → ℚ) (s : State) (delta : ℚ) (keys : Keys) (i : Nat)
    (p : Person) (hauto : s.autoMode = true) (hman : s.manualMode = false)
    (hinv : s.isInvestigating = true) (ht : s.heatSourceTarget = some i)
    (hp : s.people[i]? = some p) (hund : p.detected = false)
    (hnear : hoverDistSq p s.droneGroup.position < 1)
    (htime : HOVER_TIME ≤ s.hoverTimer + delta) :
    (animate g s delta keys).people[i]? = some { p with detected := true } ∧
    (animate g s delta keys).detected? i = some true ∧
    (animate g s delta keys).peopleDetected = s.peopleDetected + 1 ∧
    (animate g s delta keys).heatSourceTarget = none ∧
    (animate g s delta keys).isInvestigating = false ∧
    (animate g s delta keys).hoverTimer = 0 ∧
    (animate g s delta keys).missionStatus = .searching ∧
    (animate g s delta keys).missionStatus.label = "Searching" ∧
    (animate g s delta keys).droneGroup.position = s.droneGroup.position ∧
    (animate g s delta keys).currentPathIndex = s.currentPathIndex := by
  have hlt : i < s.people.length := by
    by_contra hcon
    rw [List.getElem?_eq_none (by omega)] at hp
    exact absurd hp (by simp)
  rw [animate_auto g s delta keys hauto hman, autoBlock_investigating s i delta hinv ht,
    investigateHeatSource_done s i p delta hp hnear htime hund]
  simp [State.detected?, hlt, MissionStatus.label]

/-- C5 at `hoveringState`: 4.9 s accumulated, a frame of 0.1 s completes the dwell. -/
theorem dwell_completion_witness :
    (animate flatTerrain hoveringState 0.1 Keys.released).detected? 0 = some true ∧
    (animate flatTerrain hoveringState 0.1 Keys.released).peopleDetected = 1 ∧
    (animate flatTerrain hoveringState 0.1 Keys.released).missionStatus = .searching :=
  have h := dwell_completion flatTerrain hoveringState 0.1 Keys.released 0 personBelow
    rfl rfl rfl rfl rfl rfl
    (by norm_num [hoverDistSq, hoveringState, initialState, personBelow, INVESTIGATION_HEIGHT])
    (by norm_num [hoveringState, initialState, HOVER_TIME])
  ⟨h.2.1, h.2.2.1, h.2.2.2.2.2.2.1⟩

/-- C7, as amended: an autonomous frame that starts with no active investigation
and in which the detector returns `e` ends with target `e`, `isInvestigating`
true, `hoverTimer` 0 and the mission status unchanged; the status is
`Investigating Heat Source` after the next frame whose delta is below
`HOVER_TIME`. -/
theorem acquisition_effect (g : ℚ → ℚ → ℚ) (s : State) (delta : ℚ) (keys : Keys) (e : Nat)
    (hauto : s.autoMode = true) (hinv : s.isInvestigating = false)
    (hf : findNearestHeatSource s.people s.droneGroup.position = some e) :
    (animate g s delta keys).heatSourceTarget = some e ∧
    (animate g s delta keys).isInvestigating = true ∧
    (animate g s delta keys).hoverTimer = 0 ∧
    (animate g s delta keys).missionStatus = s.missionStatus ∧
    ∀ delta2 keys2, delta2 < HOVER_TIME →
      (animate g (animate g s delta keys) delta2 keys2).missionStatus =
        .investigatingHeatSource := by
  have hA := animate_fields g s delta keys
  have hB := autoBlock_acquire s e delta hinv hf
  simp only [hauto, if_true, hB] at hA
  obtain ⟨hpeople, htimer, htarget, hinv2, hstatus, _, _, _, hauto2, _⟩ := hA
  refine ⟨htarget, hinv2, htimer, hstatus, ?_⟩
  intro delta2 keys2 hd
  have hA2 := animate_fields g (animate g s delta keys) delta2 keys2
  rw [hA2.2.2.2.2.1, hauto2]
  simp only [if_true]
  rcases findNearestHeatSource_spec s.people s.droneGroup.position with
    ⟨h1, _⟩ | ⟨k, p, h1, h2, _, _, _, _⟩
  · rw [h1] at hf
    exact absurd hf (by simp)
  · rw [h1] at hf
    have hk : k = e := by simpa using hf
    subst hk
    have hp : (animate g s delta keys).people[k]? = some p := by rw [hpeople]; exact h2
    rw [autoBlock_investigating _ k delta2 hinv2 htarget]
    by_cases hnear : hoverDistSq p (animate g s delta keys).droneGroup.position < 1
    · have hnot : ¬ (HOVER_TIME ≤ (animate g s delta keys).hoverTimer + delta2 ∧
          p.detected = false) := by
        rw [htimer]
        intro hcon
        have := hcon.1
        linarith
      rw [investigateHeatSource_wait _ k p delta2 hp hnear hnot]
      simp
    · rw [investigateHeatSource_approach _ k p delta2 hp hnear]
      simp

/-- C7, as amended, at the first frame of the scenario of the specification. -/
theorem acquisition_effect_witness :
    (animate flatTerrain (startAuto (initialState [scenarioPerson])) 0.1
      Keys.released).heatSourceTarget = some 0 ∧
    (animate flatTerrain (startAuto (initialState [scenarioPerson])) 0.1
      Keys.released).missionStatus = .searching :=
  have h := acquisition_effect flatTerrain (startAuto (initialState [scenarioPerson])) 0.1
    Keys.released 0 rfl rfl
    (by
      simp [findNearestHeatSource, findNearestHeatSource.forEach, Sqrt.ofRat, Math.sqrt,
        Sqrt.lt_def, HEAT_DETECTION_RANGE, startAuto, initialState, scenarioPerson]
      norm_num)
  ⟨h.1, h.2.2.2.1⟩

/-- C7 as stated fails: at the first frame of the scenario of the specification
there is no active investigation, the detector returns person 0, and at the end
of the frame the status is still `Searching`, not `Investigating Heat Source`. -/
theorem acquisition_status_counterexample :
    (startAuto (initialState [scenarioPerson])).autoMode = true ∧
    (startAuto (initialState [scenarioPerson])).isInvestigating = false ∧
    findNearestHeatSource (startAuto (initialState [scenarioPerson])).people
      (startAuto (initialState [scenarioPerson])).droneGroup.position = some 0 ∧
    (animate flatTerrain (startAuto (initialState [scenarioPerson])) 0.1
      Keys.released).missionStatus ≠ .investigatingHeatSource := by
  have hf : findNearestHeatSource (startAuto (initialState [scenarioPerson])).people
      (startAuto (initialState [scenarioPerson])).droneGroup.position = some 0 := by
    simp [findNearestHeatSource, findNearestHeatSource.forEach, Sqrt.ofRat, Math.sqrt,
      Sqrt.lt_def, HEAT_DETECTION_RANGE, startAuto, initialState, scenarioPerson]
    norm_num
  refine ⟨rfl, rfl, hf, ?_⟩
  have hA := animate_fields flatTerrain (startAuto (initialState [scenarioPerson])) 0.1
    Keys.released
  rw [hA.2.2.2.2.1, autoBlock_acquire _ 0 _ rfl hf]
  simp [startAuto]

/-- C9: after the `start-auto` command the mission path is
`generateGridSearchPattern` at the drone position, the cursor is 0, there is no
target, `isInvestigating` and `investigationComplete` are false, `autoMode` is
true, `manualMode` is false and the status is `Searching`; the drone pose and
the roster (hence every `detected` flag) are unchanged. -/
theorem startAuto_effect (s : State) :
    (startAuto s).missionPath =
      (generateGridSearchPattern s.droneGroup.position.x s.droneGroup.position.z).map some ∧
    (startAuto s).currentPathIndex = 0 ∧
    (startAuto s).heatSourceTarget = none ∧
    (startAuto s).isInvestigating = false ∧
    (startAuto s).investigationComplete = false ∧
    (startAuto s).autoMode = true ∧
    (startAuto s).manualMode = false ∧
    (startAuto s).missionStatus = .searching ∧
    (startAuto s).missionStatus.label = "Searching" ∧
    (startAuto s).droneGroup = s.droneGroup ∧
    (startAuto s).people = s.people ∧
    ∀ j, (startAuto s).detected? j = s.detected? j :=
  ⟨rfl, rfl, rfl, rfl, rfl, rfl, rfl, rfl, rfl, rfl, rfl, fun _ => rfl⟩

/-- C10, as amended: the `start-auto` command does not write `hoverTimer`, which
keeps the value it had; `isInvestigating` is false afterwards, and if the next
frame starts an investigation it sets `hoverTimer` to 0. -/
theorem startAuto_hoverTimer (g : ℚ → ℚ → ℚ) (s : State) :
    (startAuto s).hoverTimer = s.hoverTimer ∧
    (startAuto s).isInvestigating = false ∧
    ∀ delta keys, (animate g (startAuto s) delta keys).isInvestigating = true →
      (animate g (startAuto s) delta keys).hoverTimer = 0 := by
  refine ⟨rfl, rfl, ?_⟩
  intro delta keys h
  have hA := animate_fields g (startAuto s) delta keys
  have hauto : (startAuto s).autoMode = true := rfl
  rw [hA.2.2.2.1] at h
  rw [hA.2.1]
  simp only [hauto, if_true] at h ⊢
  rcases autoBlock_outcome (startAuto s) delta with
    ⟨h1, _, _⟩ | ⟨_, h1, _, _, _⟩ | ⟨_, _, h1, _, _, _, _, _, _⟩ | ⟨_, _, h1, _, _, _, _, _⟩ |
    ⟨_, _, h1, _, _, _, _⟩ | ⟨_, _, _, h2⟩ | ⟨_, _, _, _, _, h2⟩ | ⟨_, _, _, _, _, h2⟩ |
    ⟨_, _, _, h2⟩ | ⟨_, _, _, h2⟩
  · exact absurd h1 (by simp [startAuto])
  · exact absurd h1 (by simp [startAuto])
  · exact absurd h1 (by simp [startAuto])
  · exact absurd h1 (by simp [startAuto])
  · exact absurd h1 (by simp [startAuto])
  · rw [h2]
  · rw [h2] at h; exact absurd h (by simp [startAuto])
  · rw [h2] at h; exact absurd h (by simp [startAuto])
  · rw [h2] at h; exact absurd h (by simp [startAuto])
  · rw [h2] at h; exact absurd h (by simp [startAuto])

/-- C10 as stated fails: hover for one frame of 0.1 s over `personBelow`, switch to
manual control, then press `start-auto`: `hoverTimer` is 0.1, not 0. -/
theorem startAuto_hoverTimer_counterexample :
    (run flatTerrain (initialState [personBelow])
      [.startAuto, .frame 0.1 Keys.released, .frame 0.1 Keys.released, .manualControl,
        .startAuto]).hoverTimer = 0.1 ∧
    (run flatTerrain (initialState [personBelow])
      [.startAuto, .frame 0.1 Keys.released, .frame 0.1 Keys.released, .manualControl,
        .startAuto]).hoverTimer ≠ 0 := by
  have hf : findNearestHeatSource [personBelow] ⟨0, 40, 0⟩ = some 0 := by
    simp [findNearestHeatSource, findNearestHeatSource.forEach, Sqrt.ofRat, Math.sqrt,
      Sqrt.lt_def, HEAT_DETECTION_RANGE, personBelow]
  have h1 : animate flatTerrain (startAuto (initialState [personBelow])) 0.1 Keys.released =
      { startAuto (initialState [personBelow]) with
        heatSourceTarget := some 0
        isInvestigating := true
        hoverTimer := 0
        investigationComplete := false } := by
    rw [animate_auto _ _ _ _ rfl rfl, autoBlock_acquire _ 0 _ rfl hf]
  have h2 : (animate flatTerrain (animate flatTerrain (startAuto (initialState [personBelow]))
      0.1 Keys.released) 0.1 Keys.released).hoverTimer = 0.1 := by
    rw [h1, animate_auto _ _ _ _ rfl rfl, autoBlock_investigating _ 0 _ rfl rfl,
      investigateHeatSource_wait
        { startAuto (initialState [personBelow]) with
          heatSourceTarget := some 0
          isInvestigating := true
          hoverTimer := 0
          investigationComplete := false } 0 personBelow 0.1 rfl
        (by norm_num [hoverDistSq, startAuto, initialState, personBelow, INVESTIGATION_HEIGHT])
        (by norm_num [startAuto, initialState, HOVER_TIME])]
    simp [startAuto, initialState]
  have h3 : (run flatTerrain (initialState [personBelow])
      [.startAuto, .frame 0.1 Keys.released, .frame 0.1 Keys.released, .manualControl,
        .startAuto]).hoverTimer = 0.1 := by
    simp only [run, List.foldl, step]
    exact h2
  refine ⟨h3, ?_⟩
  rw [h3]
  norm_num

/-! ## Runs -/

theorem run_append (g : ℚ → ℚ → ℚ) (s : State) (a b : List Event) :
    run g s (a ++ b) = run g (run g s a) b := by
  simp [run, List.foldl_append]

theorem run_snoc (g : ℚ → ℚ → ℚ) (s : State) (a : List Event) (e : Event) :
    run g s (a ++ [e]) = step g (run g s a) e := by
  simp [run, List.foldl_append]

/-- In every state of a run from the initial state exactly one of the two mode
flags is set, and an investigation is active only in autonomous mode. -/
theorem reachable_modes (g : ℚ → ℚ → ℚ) (people : List Person) (events : List Event) :
    (run g (initialState people) events).manualMode =
        !(run g (initialState people) events).autoMode ∧
    ((run g (initialState people) events).isInvestigating = true →
      (run g (initialState people) events).autoMode = true) := by
  induction events using List.reverseRecOn with
  | nil => simp [run, initialState]
  | append_singleton evs e ih =>
    rw [run_snoc]
    cases e with
    | startAuto => simp [step, startAuto]
    | manualControl => simp [step, manualControl]
    | toggleThermal => simpa [step, toggleThermal] using ih
    | frame delta keys =>
      have hA := animate_fields g (run g (initialState people) evs) delta keys
      obtain ⟨_, _, _, hinv, _, _, _, _, hauto, hman⟩ := hA
      simp only [step]
      rw [hauto, hman, hinv]
      refine ⟨ih.1, ?_⟩
      by_cases ha : (run g (initialState people) evs).autoMode = true
      · intro _; exact ha
      · simp only [ha]
        intro h
        exact absurd (ih.2 h) ha

/-- A `detected` flag that is true stays true over any event. -/
theorem step_detected_mono (g : ℚ → ℚ → ℚ) (s : State) (e : Event) (j : Nat)
    (h : s.detected? j = some true) : (step g s e).detected? j = some true := by
  cases e with
  | startAuto => exact h
  | manualControl => exact h
  | toggleThermal => exact h
  | frame delta keys =>
    have hA := (animate_fields g s delta keys).1
    simp only [step, State.detected?] at h ⊢
    rw [hA]
    by_cases ha : s.autoMode = true
    · simp only [ha, if_true]
      rcases autoBlock_outcome s delta with
        ⟨_, _, h2⟩ | ⟨_, _, _, _, h2⟩ | ⟨i, p, _, _, hp, _, _, _, h2⟩ | ⟨_, _, _, _, _, _, _, h2⟩ |
        ⟨_, _, _, _, _, _, h2⟩ | ⟨_, _, _, h2⟩ | ⟨_, _, _, _, _, h2⟩ | ⟨_, _, _, _, _, h2⟩ |
        ⟨_, _, _, h2⟩ | ⟨_, _, _, h2⟩
      all_goals rw [h2]
      all_goals try exact h
      simp only [List.getElem?_set]
      by_cases hij : i = j
      · subst hij
        have hlt : i < s.people.length := by
          by_contra hcon
          rw [List.getElem?_eq_none (by omega)] at hp
          exact absurd hp (by simp)
        simp [hlt]
      · simpa [hij] using h
    · simpa [ha] using h

/-- C4: monotonicity of detection.  Over every sequence of events (commands and
frames, in any mode) from any state, a `detected` flag that is true is true in
the state reached, and `findNearestHeatSource` does not return that entity
there. -/
theorem detection_monotone (g : ℚ → ℚ → ℚ) (s : State) (events : List Event) (j : Nat)
    (h : s.detected? j = some true) :
    (run g s events).detected? j = some true ∧
    findNearestHeatSource (run g s events).people (run g s events).droneGroup.position ≠
      some j := by
  have hmono : (run g s events).detected? j = some true := by
    induction events using List.reverseRecOn with
    | nil => exact h
    | append_singleton evs e ih =>
      rw [run_snoc]
      exact step_detected_mono g _ e j ih
  refine ⟨hmono, ?_⟩
  intro hcon
  obtain ⟨p, hp, hpd, _, _⟩ := findNearestHeatSource_sound _ _ j hcon
  simp [State.detected?, hp] at hmono
  exact hpd hmono

/-! ## The hover accumulator along a run -/

theorem hoverFrames_append (g : ℚ → ℚ → ℚ) (j : Nat) (a b : List Event) :
    ∀ s : State, hoverFrames g s j (a ++ b) =
      (hoverFrames g s j a && hoverFrames g (run g s a) j b) := by
  induction a with
  | nil => intro s; simp [hoverFrames, run]
  | cons e rest ih =>
    intro s
    cases e with
    | startAuto => simp [hoverFrames]
    | manualControl => simp [hoverFrames]
    | toggleThermal => simpa [hoverFrames, run, step] using ih (toggleThermal s)
    | frame delta keys =>
      have h := ih (animate g s delta keys)
      simp only [List.cons_append, hoverFrames, run, List.foldl, step, List.append_eq] at h ⊢
      rw [h, Bool.and_assoc]

theorem deltaSum_append (a b : List Event) : deltaSum (a ++ b) = deltaSum a + deltaSum b := by
  induction a with
  | nil => simp [deltaSum]
  | cons e rest ih =>
    cases e <;> simp [deltaSum, ih]
    ring

/-- A frame changes a `detected` flag from false to true only by completing the
dwell over that entity. -/
theorem detection_frame (g : ℚ → ℚ → ℚ) (s : State) (delta : ℚ) (keys : Keys) (j : Nat)
    (h0 : s.detected? j = some false)
    (h1 : (animate g s delta keys).detected? j = some true) :
    s.autoMode = true ∧ s.isInvestigating = true ∧ s.heatSourceTarget = some j ∧
    s.hoversOver j = true ∧ HOVER_TIME ≤ s.hoverTimer + delta := by
  have hA := (animate_fields g s delta keys).1
  simp only [State.detected?] at h0 h1
  rw [hA] at h1
  by_cases ha : s.autoMode = true
  · simp only [ha, if_true] at h1
    rcases autoBlock_outcome s delta with
      ⟨_, _, h2⟩ | ⟨_, _, _, _, h2⟩ | ⟨i, p, hinv, ht, hp, hnear, htime, _, h2⟩ |
      ⟨_, _, _, _, _, _, _, h2⟩ | ⟨_, _, _, _, _, _, h2⟩ | ⟨_, _, _, h2⟩ |
      ⟨_, _, _, _, _, h2⟩ | ⟨_, _, _, _, _, h2⟩ | ⟨_, _, _, h2⟩ | ⟨_, _, _, h2⟩
    all_goals rw [h2] at h1
    all_goals try (rw [h0] at h1; exact absurd h1 (by simp))
    have hij : i = j := by
      by_contra hne
      simp only [List.getElem?_set_ne hne] at h1
      rw [h0] at h1
      exact absurd h1 (by simp)
    subst hij
    exact ⟨ha, hinv, ht, by simp [State.hoversOver, hp, hnear], htime⟩
  · simp only [ha, Bool.false_eq_true, if_false] at h1
    rw [h0] at h1
    exact absurd h1 (by simp)

/-- Along a run from the initial state, while an investigation of entity `j` is
active the accumulator is the sum of the deltas of the latest consecutive hover
frames over `j`, counted from a state in which the accumulator was 0; and it is
non-zero only with the drone within one unit of the investigation point. -/
theorem hover_accumulator_inv (g : ℚ → ℚ → ℚ) (people : List Person) (events : List Event) :
    ∀ j, (run g (initialState people) events).isInvestigating = true →
      (run g (initialState people) events).heatSourceTarget = some j →
      (∃ pre hov, events = pre ++ hov ∧
        (run g (initialState people) pre).hoverTimer = 0 ∧
        hoverFrames g (run g (initialState people) pre) j hov = true ∧
        (run g (initialState people) events).hoverTimer = deltaSum hov) ∧
      ((run g (initialState people) events).hoverTimer ≠ 0 →
        (run g (initialState people) events).hoversOver j = true) := by
  have fresh : ∀ (evs : List Event) (j : Nat),
      (run g (initialState people) evs).hoverTimer = 0 →
      (∃ pre hov, evs = pre ++ hov ∧
        (run g (initialState people) pre).hoverTimer = 0 ∧
        hoverFrames g (run g (initialState people) pre) j hov = true ∧
        (run g (initialState people) evs).hoverTimer = deltaSum hov) ∧
      ((run g (initialState people) evs).hoverTimer ≠ 0 →
        (run g (initialState people) evs).hoversOver j = true) := by
    intro evs j h0
    exact ⟨⟨evs, [], by simp, h0, rfl, by simpa [deltaSum] using h0⟩, fun hne => absurd h0 hne⟩
  induction events using List.reverseRecOn with
  | nil =>
    intro j hinv
    simp [run, initialState] at hinv
  | append_singleton evs e ih =>
    intro j hinv ht
    have hmodes := reachable_modes g people evs
    cases e with
    | startAuto =>
      rw [run_snoc] at hinv
      simp [step, startAuto] at hinv
    | manualControl =>
      rw [run_snoc] at hinv
      simp [step, manualControl] at hinv
    | toggleThermal =>
      rw [run_snoc] at hinv ht
      obtain ⟨⟨pre, hov, hsplit, hzero, hhov, hsum⟩, hnear⟩ := ih j hinv ht
      refine ⟨⟨pre, hov ++ [.toggleThermal], by simp [hsplit], hzero, ?_, ?_⟩, ?_⟩
      · rw [hoverFrames_append, hhov]
        simp [hoverFrames]
      · rw [run_snoc, deltaSum_append]
        simpa [deltaSum, step, toggleThermal] using hsum
      · rw [run_snoc]
        exact hnear
    | frame delta keys =>
      by_cases hauto : (run g (initialState people) evs).autoMode = true
      · have hman : (run g (initialState people) evs).manualMode = false := by
          rw [hmodes.1, hauto]; rfl
        have hstep : run g (initialState people) (evs ++ [.frame delta keys]) =
            autoBlock (run g (initialState people) evs) delta := by
          rw [run_snoc]
          exact animate_auto g _ delta keys hauto hman
        rw [hstep] at hinv ht
        rcases autoBlock_outcome (run g (initialState people) evs) delta with
          ⟨hi0, ht0, h2⟩ | ⟨i, hi0, ht0, hp, h2⟩ | ⟨_, _, _, _, _, _, _, _, h2⟩ |
          ⟨i, p, hi0, ht0, hp, hnear, _, h2⟩ | ⟨i, p, hi0, ht0, hp, hfar, h2⟩ | ⟨_, _, _, h2⟩ |
          ⟨_, _, _, _, _, h2⟩ | ⟨_, _, _, _, _, h2⟩ | ⟨_, _, _, h2⟩ | ⟨_, _, _, h2⟩
        · rw [h2, ht0] at ht
          exact absurd ht (by simp)
        · rw [h2, ht0] at ht
          have hij : i = j := by simpa using ht
          subst hij
          have hz : (run g (initialState people) evs).hoverTimer = 0 := by
            by_contra hne
            have := (ih i hi0 ht0).2 hne
            simp [State.hoversOver, hp] at this
          apply fresh
          rw [hstep, h2]
          exact hz
        · rw [h2] at hinv
          simp at hinv
        · rw [h2] at ht
          have hij : i = j := by simpa [ht0] using ht
          subst hij
          obtain ⟨⟨pre, hov, hsplit, hzero, hhov, hsum⟩, _⟩ := ih i hi0 ht0
          have hover : (run g (initialState people) evs).hoversOver i = true := by
            simp [State.hoversOver, hp, hnear]
          refine ⟨⟨pre, hov ++ [.frame delta keys], by simp [hsplit], hzero, ?_, ?_⟩, ?_⟩
          · rw [hoverFrames_append, hhov, ← run_append, ← hsplit]
            simp [hoverFrames, State.isHoverFrame, hauto, hi0, ht0, hover]
          · rw [hstep, h2, deltaSum_append]
            simp [deltaSum, hsum]
          · intro _
            rw [hstep, h2]
            simpa [State.hoversOver] using hover
        · rw [h2] at ht
          have hij : i = j := by simpa [ht0] using ht
          subst hij
          have hz : (run g (initialState people) evs).hoverTimer = 0 := by
            by_contra hne
            have := (ih i hi0 ht0).2 hne
            simp [State.hoversOver, hp, hfar] at this
          apply fresh
          rw [hstep, h2]
          exact hz
        · apply fresh
          rw [hstep, h2]
        · rw [h2] at hinv
          simp_all
        · rw [h2] at hinv
          simp_all
        · rw [h2] at hinv
          simp_all
        · rw [h2] at hinv
          simp_all
      · have hA := (animate_fields g (run g (initialState people) evs) delta keys).2.2.2.1
        rw [run_snoc] at hinv
        simp only [step] at hinv
        rw [hA] at hinv
        simp only [hauto] at hinv
        exact absurd (hmodes.2 hinv) hauto

/-- C3: a frame that changes an entity's `detected` flag from false to true is an
autonomous frame whose target at the start is that entity, with the drone
within one unit of the point `(x, y + 30, z)` at the start and
`hoverTimer + delta ≥ HOVER_TIME`; and along every run from the initial state,
that sum is the sum of the deltas of the consecutive hover frames over that
entity (the detecting frame included) since a state in which `hoverTimer` was
0. -/
theorem detection_only_after_dwell :
    (∀ (g : ℚ → ℚ → ℚ) (s : State) (delta : ℚ) (keys : Keys) (j : Nat),
      s.detected? j = some false → (animate g s delta keys).detected? j = some true →
      s.autoMode = true ∧ s.isInvestigating = true ∧ s.heatSourceTarget = some j ∧
      (∃ p, s.people[j]? = some p ∧ hoverDistSq p s.droneGroup.position < 1) ∧
      HOVER_TIME ≤ s.hoverTimer + delta) ∧
    (∀ (g : ℚ → ℚ → ℚ) (people : List Person) (events : List Event) (delta : ℚ) (keys : Keys)
      (j : Nat),
      (run g (initialState people) events).detected? j = some false →
      (animate g (run g (initialState people) events) delta keys).detected? j = some true →
      ∃ pre hov, events ++ [.frame delta keys] = pre ++ hov ∧
        (run g (initialState people) pre).hoverTimer = 0 ∧
        hoverFrames g (run g (initialState people) pre) j hov = true ∧
        (run g (initialState people) events).hoverTimer + delta = deltaSum hov ∧
        HOVER_TIME ≤ deltaSum hov) := by
  constructor
  · intro g s delta keys j h0 h1
    obtain ⟨ha, hinv, ht, hover, htime⟩ := detection_frame g s delta keys j h0 h1
    refine ⟨ha, hinv, ht, ?_, htime⟩
    unfold State.hoversOver at hover
    split at hover
    · rename_i p hp
      exact ⟨p, hp, by simpa using hover⟩
    · exact absurd hover (by simp)
  · intro g people events delta keys j h0 h1
    obtain ⟨ha, hinv, ht, hover, htime⟩ := detection_frame g _ delta keys j h0 h1
    obtain ⟨⟨pre, hov, hsplit, hzero, hhov, hsum⟩, _⟩ :=
      hover_accumulator_inv g people events j hinv ht
    refine ⟨pre, hov ++ [.frame delta keys], by simp [hsplit], hzero, ?_, ?_, ?_⟩
    · rw [hoverFrames_append, hhov, ← run_append, ← hsplit]
      simp [hoverFrames, State.isHoverFrame, ha, hinv, ht, hover]
    · rw [deltaSum_append, hsum]
      simp [deltaSum]
    · rw [deltaSum_append, ← hsum]
      simpa [deltaSum] using htime

/-! ## Investigation and the search path -/

/-- With an investigation active, or a target found by the detector, the
autonomous block neither reads nor writes the mission path and its cursor. -/
theorem autoBlock_preempt (s : State) (delta : ℚ) (path : List (Option Waypoint)) (idx : Nat)
    (h : s.isInvestigating = true ∨
      findNearestHeatSource s.people s.droneGroup.position ≠ none) :
    autoBlock { s with missionPath := path, currentPathIndex := idx } delta =
      { autoBlock s delta with missionPath := path, currentPathIndex := idx } ∧
    (autoBlock s delta).currentPathIndex = s.currentPathIndex := by
  rcases autoBlock_outcome s delta with
    ⟨hinv, ht, h2⟩ | ⟨i, hinv, ht, hp, h2⟩ | ⟨i, p, hinv, ht, hp, hnear, htime, hund, h2⟩ |
    ⟨i, p, hinv, ht, hp, hnear, hnot, h2⟩ | ⟨i, p, hinv, ht, hp, hfar, h2⟩ | ⟨e, hinv, hf, h2⟩ |
    ⟨_, hinv, hf, _, _, _⟩ | ⟨_, hinv, hf, _, _, _⟩ | ⟨hinv, hf, _, _⟩ | ⟨hinv, hf, _, _⟩
  · rw [h2, autoBlock_stalled { s with missionPath := path, currentPathIndex := idx } delta
      hinv ht]
    exact ⟨rfl, rfl⟩
  · rw [h2, autoBlock_investigating { s with missionPath := path, currentPathIndex := idx } i
      delta hinv ht, investigateHeatSource_dangling
      { s with missionPath := path, currentPathIndex := idx } i delta hp]
    simp
  · rw [h2, autoBlock_investigating { s with missionPath := path, currentPathIndex := idx } i
      delta hinv ht, investigateHeatSource_done
      { s with missionPath := path, currentPathIndex := idx } i p delta hp hnear htime hund]
    simp
  · rw [h2, autoBlock_investigating { s with missionPath := path, currentPathIndex := idx } i
      delta hinv ht, investigateHeatSource_wait
      { s with missionPath := path, currentPathIndex := idx } i p delta hp hnear hnot]
    simp
  · rw [h2, autoBlock_investigating { s with missionPath := path, currentPathIndex := idx } i
      delta hinv ht, investigateHeatSource_approach
      { s with missionPath := path, currentPathIndex := idx } i p delta hp hfar]
    simp
  · rw [h2, autoBlock_acquire { s with missionPath := path, currentPathIndex := idx } e
      delta hinv hf]
    exact ⟨rfl, rfl⟩
  all_goals
    rcases h with h | h
    · rw [hinv] at h
      exact absurd h (by simp)
    · exact absurd hf h

/-- C8: investigation preempts path following.  In an autonomous frame that
starts with an investigation active, or in which the detector finds a target,
the path cursor and the mission path are unchanged and the resulting drone pose
does not depend on the path or the cursor; on the acquiring frame the pose is
unchanged; hence over any sequence of such frames the path and its cursor are
the ones the investigation started with. -/
theorem investigation_preempts_path :
    (∀ (g : ℚ → ℚ → ℚ) (s : State) (delta : ℚ) (keys : Keys),
      s.autoMode = true →
      (s.isInvestigating = true ∨
        findNearestHeatSource s.people s.droneGroup.position ≠ none) →
      (animate g s delta keys).currentPathIndex = s.currentPathIndex ∧
      (animate g s delta keys).missionPath = s.missionPath ∧
      ∀ path idx,
        (animate g { s with missionPath := path, currentPathIndex := idx } delta keys).droneGroup =
          (animate g s delta keys).droneGroup) ∧
    (∀ (g : ℚ → ℚ → ℚ) (s : State) (delta : ℚ) (keys : Keys) (e : Nat),
      s.autoMode = true → s.manualMode = false → s.isInvestigating = false →
      findNearestHeatSource s.people s.droneGroup.position = some e →
      (animate g s delta keys).droneGroup = s.droneGroup) ∧
    (∀ (g : ℚ → ℚ → ℚ) (s : State) (events : List Event),
      (∀ pre e post, events = pre ++ e :: post →
        (∃ delta keys, e = .frame delta keys) ∧ (run g s pre).autoMode = true ∧
        ((run g s pre).isInvestigating = true ∨
          findNearestHeatSource (run g s pre).people (run g s pre).droneGroup.position ≠
            none)) →
      (run g s events).currentPathIndex = s.currentPathIndex ∧
      (run g s events).missionPath = s.missionPath) := by
  have part1 : ∀ (g : ℚ → ℚ → ℚ) (s : State) (delta : ℚ) (keys : Keys),
      s.autoMode = true →
      (s.isInvestigating = true ∨
        findNearestHeatSource s.people s.droneGroup.position ≠ none) →
      (animate g s delta keys).currentPathIndex = s.currentPathIndex ∧
      (animate g s delta keys).missionPath = s.missionPath ∧
      ∀ path idx,
        (animate g { s with missionPath := path, currentPathIndex := idx } delta keys).droneGroup =
          (animate g s delta keys).droneGroup := by
    intro g s delta keys hauto h
    have hA := animate_fields g s delta keys
    refine ⟨?_, hA.2.2.2.2.2.2.2.1, ?_⟩
    · rw [hA.2.2.2.2.2.1]
      simp only [hauto, if_true]
      exact (autoBlock_preempt s delta s.missionPath s.currentPathIndex h).2
    · intro path idx
      have hP := (autoBlock_preempt s delta path idx h).1
      have hm := (autoBlock_frame s delta).2.1
      rw [animate_of_auto g s delta keys hauto,
        animate_of_auto g { s with missionPath := path, currentPathIndex := idx } delta keys
          hauto, hP]
      by_cases hman : s.manualMode = true
      · simp only [hm, hman, if_true]
        rfl
      · simp only [hm, hman]
        rfl
  refine ⟨part1, ?_, ?_⟩
  · intro g s delta keys e hauto hman hinv hf
    rw [animate_auto g s delta keys hauto hman, autoBlock_acquire s e delta hinv hf]
  · intro g s events
    induction events using List.reverseRecOn with
    | nil => intro _; exact ⟨rfl, rfl⟩
    | append_singleton evs e ih =>
      intro hall
      have hprev := ih (fun pre e2 post hsplit =>
        hall pre e2 (post ++ [e]) (by simp [hsplit]))
      obtain ⟨⟨delta, keys, he⟩, hauto, hact⟩ := hall evs e [] rfl
      subst he
      rw [run_snoc]
      have h1 := part1 g (run g s evs) delta keys hauto hact
      simp only [step]
      exact ⟨h1.1.trans hprev.1, h1.2.1.trans hprev.2⟩

/-! ## The scenario of the specification -/

theorem scenarioState_succ (n : Nat) :
    scenarioState (n + 1) = animate flatTerrain (scenarioState n) 0.1 Keys.released := by
  unfold scenarioState
  rw [List.replicate_succ', run_snoc]
  simp only [step]

/-- After the acquiring frame and `n ≤ 31` approach frames the offset of the
drone to the investigation point `(5, 30, 5)` is `(23/25)^n` times the initial
offset, and nothing has been accumulated or detected. -/
theorem scenario_approach (n : Nat) (hn : n ≤ 31) :
    (scenarioState (n + 1)).autoMode = true ∧
    (scenarioState (n + 1)).manualMode = false ∧
    (scenarioState (n + 1)).isInvestigating = true ∧
    (scenarioState (n + 1)).heatSourceTarget = some 0 ∧
    (scenarioState (n + 1)).people = [scenarioPerson] ∧
    (scenarioState (n + 1)).hoverTimer = 0 ∧
    (scenarioState (n + 1)).peopleDetected = 0 ∧
    (scenarioState (n + 1)).droneGroup.position =
      ⟨5 - 5 * (23 / 25) ^ n, 30 + 10 * (23 / 25) ^ n, 5 - 5 * (23 / 25) ^ n⟩ := by
  induction n with
  | zero =>
    have hf : findNearestHeatSource scenarioStart.people scenarioStart.droneGroup.position =
        some 0 := by
      simp [findNearestHeatSource, findNearestHeatSource.forEach, Sqrt.ofRat, Math.sqrt,
        Sqrt.lt_def, HEAT_DETECTION_RANGE, scenarioStart, startAuto, initialState,
        scenarioPerson]
      norm_num
    have h0 : scenarioState 0 = scenarioStart := by
      unfold scenarioState
      rfl
    rw [scenarioState_succ, h0, animate_auto _ _ _ _ rfl rfl,
      autoBlock_acquire scenarioStart 0 _ rfl hf]
    simp [scenarioStart, startAuto, initialState]
    norm_num
  | succ n ih =>
    obtain ⟨ha, hm, hi, ht, hp, hh, hd, hpos⟩ := ih (by omega)
    have hp0 : (scenarioState (n + 1)).people[0]? = some scenarioPerson := by rw [hp]; rfl
    have hpow : (23 / 25 : ℚ) ^ 60 ≤ (23 / 25) ^ (2 * n) :=
      pow_le_pow_of_le_one (by norm_num) (by norm_num) (by omega)
    have hfar : ¬ hoverDistSq scenarioPerson (scenarioState (n + 1)).droneGroup.position < 1 := by
      rw [hpos]
      simp only [hoverDistSq, scenarioPerson, INVESTIGATION_HEIGHT]
      have h150 : (1 : ℚ) ≤ 150 * (23 / 25) ^ 60 := by norm_num
      have hsq : (5 - (5 - 5 * (23 / 25 : ℚ) ^ n)) * (5 - (5 - 5 * (23 / 25) ^ n)) +
          (5 - (5 - 5 * (23 / 25) ^ n)) * (5 - (5 - 5 * (23 / 25) ^ n)) +
          (0 + 30 - (30 + 10 * (23 / 25) ^ n)) * (0 + 30 - (30 + 10 * (23 / 25) ^ n)) =
          150 * (23 / 25) ^ (2 * n) := by
        rw [pow_mul']
        ring
      rw [hsq]
      linarith
    rw [scenarioState_succ (n + 1), animate_auto _ _ _ _ ha hm,
      autoBlock_investigating _ 0 _ hi ht,
      investigateHeatSource_approach _ 0 scenarioPerson _ hp0 hfar]
    simp only [Bool.false_eq_true, if_false]
    refine ⟨ha, hm, hi, ht, hp, hh, hd, ?_⟩
    simp only [hpos, scenarioPerson, INVESTIGATION_HEIGHT, INVESTIGATION_SPEED, Vec3.mk.injEq]
    refine ⟨?_, ?_, ?_⟩ <;> (rw [pow_succ]; ring)

/-- During the first 49 hover frames of the scenario the drone stays where the
approach ended, the accumulator is a tenth of the number of hover frames, and
nothing is detected. -/
theorem scenario_hover (m : Nat) (hm : m ≤ 49) :
    (scenarioState (32 + m)).autoMode = true ∧
    (scenarioState (32 + m)).manualMode = false ∧
    (scenarioState (32 + m)).isInvestigating = true ∧
    (scenarioState (32 + m)).heatSourceTarget = some 0 ∧
    (scenarioState (32 + m)).people = [scenarioPerson] ∧
    (scenarioState (32 + m)).hoverTimer = m / 10 ∧
    (scenarioState (32 + m)).peopleDetected = 0 ∧
    (scenarioState (32 + m)).droneGroup.position =
      ⟨5 - 5 * (23 / 25) ^ 31, 30 + 10 * (23 / 25) ^ 31, 5 - 5 * (23 / 25) ^ 31⟩ := by
  induction m with
  | zero =>
    have h := scenario_approach 31 (le_refl _)
    have h32 : 32 + 0 = 31 + 1 := by omega
    rw [h32]
    simpa using h
  | succ m ih =>
    obtain ⟨ha, hma, hi, ht, hp, hh, hd, hpos⟩ := ih (by omega)
    have hp0 : (scenarioState (32 + m)).people[0]? = some scenarioPerson := by rw [hp]; rfl
    have hnear : hoverDistSq scenarioPerson (scenarioState (32 + m)).droneGroup.position < 1 := by
      rw [hpos]
      simp only [hoverDistSq, scenarioPerson, INVESTIGATION_HEIGHT]
      norm_num
    have hm2 : (m : ℚ) ≤ 48 := by
      have : m ≤ 48 := by omega
      exact_mod_cast this
    have hnot : ¬ (HOVER_TIME ≤ (scenarioState (32 + m)).hoverTimer + 0.1 ∧
        scenarioPerson.detected = false) := by
      rw [hh]
      simp only [HOVER_TIME]
      intro hcon
      have h5 := hcon.1
      norm_num at h5
      linarith
    have hsucc : scenarioState (32 + (m + 1)) =
        animate flatTerrain (scenarioState (32 + m)) 0.1 Keys.released :=
      scenarioState_succ (32 + m)
    rw [hsucc, animate_auto _ _ _ _ ha hma, autoBlock_investigating _ 0 _ hi ht,
      investigateHeatSource_wait _ 0 scenarioPerson _ hp0 hnear hnot]
    simp only [Bool.false_eq_true, if_false]
    refine ⟨ha, hma, hi, ht, hp, ?_, hd, hpos⟩
    rw [hh]
    push_cast
    norm_num
    ring

/-- C6: the scenario of the specification, in exact arithmetic, with a delta of
0.1 s on every frame.  The detector of the first frame returns the person; the
drone then approaches `(5, 30, 5)`, is not within one unit of it after 0 to 30
approach frames and is within one unit after 31; the next 50 frames are hover
frames; the person is undetected and `peopleDetected` is 0 up to and including
the state after the 49th hover frame, and after the 50th the person is detected,
`peopleDetected` is 1 and the status is `Searching`. -/
theorem scenario_detection :
    findNearestHeatSource scenarioStart.people scenarioStart.droneGroup.position = some 0 ∧
    (scenarioState 1).heatSourceTarget = some 0 ∧
    (∀ n, n ≤ 31 → (scenarioState (n + 1)).droneGroup.position =
      ⟨5 - 5 * (23 / 25) ^ n, 30 + 10 * (23 / 25) ^ n, 5 - 5 * (23 / 25) ^ n⟩) ∧
    (∀ n, n ≤ 30 → (scenarioState (n + 1)).hoversOver 0 = false) ∧
    (scenarioState (31 + 1)).hoversOver 0 = true ∧
    (∀ m, m ≤ 49 → (scenarioState (32 + m)).isHoverFrame 0 = true) ∧
    (∀ n, n ≤ 32 + 49 → (scenarioState n).detected? 0 = some false ∧
      (scenarioState n).peopleDetected = 0) ∧
    (scenarioState (32 + 50)).detected? 0 = some true ∧
    (scenarioState (32 + 50)).peopleDetected = 1 ∧
    (scenarioState (32 + 50)).missionStatus = .searching ∧
    (scenarioState (32 + 50)).missionStatus.label = "Searching" := by
  have hf : findNearestHeatSource scenarioStart.people scenarioStart.droneGroup.position =
      some 0 := by
    simp [findNearestHeatSource, findNearestHeatSource.forEach, Sqrt.ofRat, Math.sqrt,
      Sqrt.lt_def, HEAT_DETECTION_RANGE, scenarioStart, startAuto, initialState,
      scenarioPerson]
    norm_num
  have hover32 : ∀ m, m ≤ 49 → (scenarioState (32 + m)).hoversOver 0 = true := by
    intro m hm
    obtain ⟨_, _, _, _, hp, _, _, hpos⟩ := scenario_hover m hm
    simp only [State.hoversOver, hp, hpos, hoverDistSq, scenarioPerson, INVESTIGATION_HEIGHT]
    norm_num
  refine ⟨hf, (scenario_approach 0 (by omega)).2.2.2.1,
    fun n hn => (scenario_approach n hn).2.2.2.2.2.2.2, ?_, ?_, ?_, ?_, ?_⟩
  · intro n hn
    obtain ⟨_, _, _, _, hp, _, _, hpos⟩ := scenario_approach n (by omega)
    have hpow : (23 / 25 : ℚ) ^ 60 ≤ (23 / 25) ^ (2 * n) :=
      pow_le_pow_of_le_one (by norm_num) (by norm_num) (by omega)
    have h150 : (1 : ℚ) ≤ 150 * (23 / 25) ^ 60 := by norm_num
    have hsq : (5 - (5 - 5 * (23 / 25 : ℚ) ^ n)) * (5 - (5 - 5 * (23 / 25) ^ n)) +
        (5 - (5 - 5 * (23 / 25) ^ n)) * (5 - (5 - 5 * (23 / 25) ^ n)) +
        (0 + 30 - (30 + 10 * (23 / 25) ^ n)) * (0 + 30 - (30 + 10 * (23 / 25) ^ n)) =
        150 * (23 / 25) ^ (2 * n) := by
      rw [pow_mul']
      ring
    simp only [State.hoversOver, hp, hpos, hoverDistSq, scenarioPerson, INVESTIGATION_HEIGHT]
    simp only [List.getElem?_cons_zero, hsq, decide_eq_false_iff_not, not_lt]
    linarith
  · exact hover32 0 (by omega)
  · intro m hm
    obtain ⟨ha, _, hi, ht, _, _, _, _⟩ := scenario_hover m hm
    simp [State.isHoverFrame, ha, hi, ht, hover32 m hm]
  · intro n hn
    rcases Nat.eq_zero_or_pos n with h0 | hpos
    · subst h0
      have h0 : scenarioState 0 = scenarioStart := by
        unfold scenarioState
        rfl
      rw [h0]
      exact ⟨rfl, rfl⟩
    · by_cases h32 : n ≤ 32
      · obtain ⟨_, _, _, _, hp, _, hd, _⟩ := scenario_approach (n - 1) (by omega)
        have hn1 : n - 1 + 1 = n := by omega
        rw [hn1] at hp hd
        exact ⟨by simp [State.detected?, hp, scenarioPerson], hd⟩
      · obtain ⟨_, _, _, _, hp, _, hd, _⟩ := scenario_hover (n - 32) (by omega)
        have hn1 : 32 + (n - 32) = n := by omega
        rw [hn1] at hp hd
        exact ⟨by simp [State.detected?, hp, scenarioPerson], hd⟩
  · obtain ⟨ha, hma, hi, ht, hp, hh, hd, hpos⟩ := scenario_hover 49 (le_refl _)
    have hp0 : (scenarioState (32 + 49)).people[0]? = some scenarioPerson := by rw [hp]; rfl
    have hnear := hover32 49 (le_refl _)
    simp only [State.hoversOver, hp0, decide_eq_true_eq] at hnear
    have htime : HOVER_TIME ≤ (scenarioState (32 + 49)).hoverTimer + 0.1 := by
      rw [hh]
      norm_num [HOVER_TIME]
    have h82 : 32 + 50 = 32 + 49 + 1 := by omega
    have hsucc : scenarioState (32 + 50) =
        animate flatTerrain (scenarioState (32 + 49)) 0.1 Keys.released := by
      rw [h82]
      exact scenarioState_succ (32 + 49)
    rw [hsucc, animate_auto _ _ _ _ ha hma, autoBlock_investigating _ 0 _ hi ht,
      investigateHeatSource_done _ 0 scenarioPerson _ hp0 hnear htime rfl]
    simp [State.detected?, hp, hd, MissionStatus.label]

/-! ## The theorems at concrete inputs -/

theorem hoveringState_detects :
    (animate flatTerrain hoveringState 0.1 Keys.released).detected? 0 = some true := by
  rw [animate_auto _ _ _ _ rfl rfl, autoBlock_investigating _ 0 _ rfl rfl,
    investigateHeatSource_done hoveringState 0 personBelow 0.1 rfl
      (by norm_num [hoverDistSq, hoveringState, initialState, personBelow, INVESTIGATION_HEIGHT])
      (by norm_num [hoveringState, initialState, HOVER_TIME]) rfl]
  simp [State.detected?, hoveringState, initialState]

/-- C3 at `hoveringState`: the frame of 0.1 s that detects `personBelow` starts
with that person as target and reaches `HOVER_TIME`. -/
theorem detection_only_after_dwell_witness :
    hoveringState.heatSourceTarget = some 0 ∧
    HOVER_TIME ≤ hoveringState.hoverTimer + 0.1 :=
  have h := detection_only_after_dwell.1 flatTerrain hoveringState 0.1 Keys.released 0 rfl
    hoveringState_detects
  ⟨h.2.2.1, h.2.2.2.2⟩

/-- C4 at a roster whose only person is already detected: after activation and a
frame the flag is still true and the detector does not return the person. -/
theorem detection_monotone_witness :
    (run flatTerrain (initialState [rescuedPerson])
      [.startAuto, .frame 0.1 Keys.released]).detected? 0 = some true ∧
    findNearestHeatSource
      (run flatTerrain (initialState [rescuedPerson])
        [.startAuto, .frame 0.1 Keys.released]).people
      (run flatTerrain (initialState [rescuedPerson])
        [.startAuto, .frame 0.1 Keys.released]).droneGroup.position ≠ some 0 :=
  detection_monotone flatTerrain (initialState [rescuedPerson])
    [.startAuto, .frame 0.1 Keys.released] 0 rfl

/-- C8 at the first frame of the scenario, which acquires the person: the cursor
and the drone pose are unchanged. -/
theorem investigation_preempts_path_witness :
    (animate flatTerrain scenarioStart 0.1 Keys.released).currentPathIndex =
      scenarioStart.currentPathIndex ∧
    (animate flatTerrain scenarioStart 0.1 Keys.released).droneGroup =
      scenarioStart.droneGroup :=
  have hf : findNearestHeatSource scenarioStart.people scenarioStart.droneGroup.position =
      some 0 := by
    simp [findNearestHeatSource, findNearestHeatSource.forEach, Sqrt.ofRat, Math.sqrt,
      Sqrt.lt_def, HEAT_DETECTION_RANGE, scenarioStart, startAuto, initialState,
      scenarioPerson]
    norm_num
  ⟨(investigation_preempts_path.1 flatTerrain scenarioStart 0.1 Keys.released rfl
      (Or.inr (by rw [hf]; simp))).1,
    investigation_preempts_path.2.1 flatTerrain scenarioStart 0.1 Keys.released 0 rfl rfl rfl hf⟩

/-! ## Search pattern -/

/-- One iteration of the row loop: the row end point is appended and, unless the
row is the last one, the transition point to the next row. -/
theorem loop_step (gridMinX gridMaxX gridMaxZ lineSpacing : ℚ) (hpos : 0 < lineSpacing)
    (z : ℚ) (goingRight : Bool) (path : List Waypoint) (h : z ≤ gridMaxZ) :
    generateGridSearchPattern.loop gridMinX gridMaxX gridMaxZ lineSpacing hpos z goingRight path =
      generateGridSearchPattern.loop gridMinX gridMaxX gridMaxZ lineSpacing hpos
        (z + lineSpacing) (!goingRight)
        (path ++ [⟨if goingRight then gridMaxX else gridMinX, SEARCH_PATTERN_HEIGHT, z⟩] ++
          if z + lineSpacing ≤ gridMaxZ then
            [⟨if goingRight then gridMaxX else gridMinX, SEARCH_PATTERN_HEIGHT, z + lineSpacing⟩]
          else []) := by
  rw [generateGridSearchPattern.loop]
  simp only [h, dif_pos]
  cases goingRight <;> by_cases h2 : z + lineSpacing ≤ gridMaxZ <;> simp [h2]

/-- The row loop ends when `z` has passed `gridMaxZ`. -/
theorem loop_stop (gridMinX gridMaxX gridMaxZ lineSpacing : ℚ) (hpos : 0 < lineSpacing)
    (z : ℚ) (goingRight : Bool) (path : List Waypoint) (h : ¬ z ≤ gridMaxZ) :
    generateGridSearchPattern.loop gridMinX gridMaxX gridMaxZ lineSpacing hpos z goingRight path =
      path := by
  rw [generateGridSearchPattern.loop]
  simp only [h, dif_neg, not_false_eq_true]

/-- The generated path, way point by way point. -/
theorem generateGridSearchPattern_eq (startX startZ : ℚ) :
    generateGridSearchPattern startX startZ =
      [⟨startX, 50, startZ⟩, ⟨startX - 90, 50, startZ - 90⟩,
       ⟨startX + 90, 50, startZ - 90⟩, ⟨startX + 90, 50, startZ - 70⟩,
       ⟨startX - 90, 50, startZ - 70⟩, ⟨startX - 90, 50, startZ - 50⟩,
       ⟨startX + 90, 50, startZ - 50⟩, ⟨startX + 90, 50, startZ - 30⟩,
       ⟨startX - 90, 50, startZ - 30⟩, ⟨startX - 90, 50, startZ - 10⟩,
       ⟨startX + 90, 50, startZ - 10⟩, ⟨startX + 90, 50, startZ + 10⟩,
       ⟨startX - 90, 50, startZ + 10⟩, ⟨startX - 90, 50, startZ + 30⟩,
       ⟨startX + 90, 50, startZ + 30⟩, ⟨startX + 90, 50, startZ + 50⟩,
       ⟨startX - 90, 50, startZ + 50⟩, ⟨startX - 90, 50, startZ + 70⟩,
       ⟨startX + 90, 50, startZ + 70⟩, ⟨startX + 90, 50, startZ + 90⟩,
       ⟨startX - 90, 50, startZ + 90⟩] := by
  unfold generateGridSearchPattern
  simp only []
  rw [loop_step _ _ _ _ _ _ _ _ (by linarith), loop_step _ _ _ _ _ _ _ _ (by linarith),
    loop_step _ _ _ _ _ _ _ _ (by linarith), loop_step _ _ _ _ _ _ _ _ (by linarith),
    loop_step _ _ _ _ _ _ _ _ (by linarith), loop_step _ _ _ _ _ _ _ _ (by linarith),
    loop_step _ _ _ _ _ _ _ _ (by linarith), loop_step _ _ _ _ _ _ _ _ (by linarith),
    loop_step _ _ _ _ _ _ _ _ (by linarith), loop_step _ _ _ _ _ _ _ _ (by linarith),
    loop_stop _ _ _ _ _ _ _ _ (by linarith)]
  have e1 : startZ - 180 / 2 + 20 ≤ startZ + 180 / 2 := by linarith
  have e2 : startZ - 180 / 2 + 20 + 20 ≤ startZ + 180 / 2 := by linarith
  have e3 : startZ - 180 / 2 + 20 + 20 + 20 ≤ startZ + 180 / 2 := by linarith
  have e4 : startZ - 180 / 2 + 20 + 20 + 20 + 20 ≤ startZ + 180 / 2 := by linarith
  have e5 : startZ - 180 / 2 + 20 + 20 + 20 + 20 + 20 ≤ startZ + 180 / 2 := by linarith
  have e6 : startZ - 180 / 2 + 20 + 20 + 20 + 20 + 20 + 20 ≤ startZ + 180 / 2 := by linarith
  have e7 : startZ - 180 / 2 + 20 + 20 + 20 + 20 + 20 + 20 + 20 ≤ startZ + 180 / 2 := by linarith
  have e8 : startZ - 180 / 2 + 20 + 20 + 20 + 20 + 20 + 20 + 20 + 20 ≤ startZ + 180 / 2 := by
    linarith
  have e9 : startZ - 180 / 2 + 20 + 20 + 20 + 20 + 20 + 20 + 20 + 20 + 20 ≤ startZ + 180 / 2 := by
    linarith
  have e10 : ¬ startZ - 180 / 2 + 20 + 20 + 20 + 20 + 20 + 20 + 20 + 20 + 20 + 20 ≤
      startZ + 180 / 2 := by
    intro h; linarith
  simp only [e1, e2, e3, e4, e5, e6, e7, e8, e9, e10, if_true, if_false, Bool.not_true,
    Bool.not_false, List.nil_append, List.cons_append, List.append_nil, List.append_assoc,
    SEARCH_PATTERN_HEIGHT, Bool.false_eq_true]
  simp only [List.cons.injEq, Waypoint.mk.injEq, and_true, true_and]
  repeat' constructor
  all_goals ring

/-- C14: for every start coordinate, `generateGridSearchPattern` returns a path of
length 21 whose first point is `(startX, 50, startZ)` and whose second point is
the near corner `(startX - 90, 50, startZ - 90)`. -/
theorem generateGridSearchPattern_length_and_head (startX startZ : ℚ) :
    (generateGridSearchPattern startX startZ).length = 21 ∧
    (generateGridSearchPattern startX startZ)[0]? = some ⟨startX, 50, startZ⟩ ∧
    (generateGridSearchPattern startX startZ)[1]? = some ⟨startX - 90, 50, startZ - 90⟩ := by
  rw [generateGridSearchPattern_eq]
  exact ⟨rfl, rfl, rfl⟩

/-- Boustrophedon shape in exact arithmetic.  With `minX = startX - 90`, `maxX = startX + 90` and
`z_k = startZ - 90 + 20 k`: every way point has `y = 50`; for `k = 0..9` the way
point at index `2 + 2k` is `(maxX if k is even else minX, 50, z_k)`; for
`k = 0..8` the way point at index `3 + 2k` has the same `x` and `z = z_(k+1)`;
there is no way point after the last row (index 21); for each of the 10 rows the
way points at indices `1 + 2k` and `2 + 2k` are its two end points, swept from
`minX` to `maxX` on even rows and from `maxX` to `minX` on odd rows; and from
index 1 onward consecutive way points differ in exactly one of `x` and `z`. -/
theorem generateGridSearchPattern_boustrophedon (startX startZ : ℚ) :
    (∀ w ∈ generateGridSearchPattern startX startZ, w.y = 50) ∧
    (∀ k : Nat, k < 10 →
      (generateGridSearchPattern startX startZ)[2 + 2 * k]? =
        some ⟨if k % 2 = 0 then startX + 90 else startX - 90, 50, startZ - 90 + 20 * k⟩) ∧
    (∀ k : Nat, k < 9 →
      (generateGridSearchPattern startX startZ)[3 + 2 * k]? =
        some ⟨if k % 2 = 0 then startX + 90 else startX - 90, 50,
          startZ - 90 + 20 * (k + 1 : Nat)⟩) ∧
    (generateGridSearchPattern startX startZ)[3 + 2 * 9]? = none ∧
    (∀ k : Nat, k < 10 →
      (generateGridSearchPattern startX startZ)[1 + 2 * k]? =
        some ⟨if k % 2 = 0 then startX - 90 else startX + 90, 50, startZ - 90 + 20 * k⟩ ∧
      (generateGridSearchPattern startX startZ)[2 + 2 * k]? =
        some ⟨if k % 2 = 0 then startX + 90 else startX - 90, 50, startZ - 90 + 20 * k⟩) ∧
    (∀ (i : Nat) (a b : Waypoint), 1 ≤ i →
      (generateGridSearchPattern startX startZ)[i]? = some a →
      (generateGridSearchPattern startX startZ)[i + 1]? = some b →
      (a.x ≠ b.x ∧ a.z = b.z) ∨ (a.x = b.x ∧ a.z ≠ b.z)) := by
  rw [generateGridSearchPattern_eq]
  refine ⟨?_, ?_, ?_, rfl, ?_, ?_⟩
  · intro w hw
    simp only [List.mem_cons, List.mem_singleton, List.not_mem_nil, or_false] at hw
    rcases hw with h | h | h | h | h | h | h | h | h | h | h | h | h | h | h | h | h | h | h |
      h | h <;> rw [h]
  · intro k hk
    interval_cases k <;> simp <;> (try norm_num) <;> (try ring)
  · intro k hk
    interval_cases k <;> simp <;> (try norm_num) <;> (try ring)
  · intro k hk
    interval_cases k <;> simp <;> (try norm_num) <;> (try ring)
  · intro i a b h1 ha hb
    have hi : i < 20 := by
      by_contra hcon
      rw [List.getElem?_eq_none (by simp; omega)] at hb
      exact absurd hb (by simp)
    interval_cases i <;> simp at ha hb <;> subst ha <;> subst hb <;> simp <;> intro h <;> linarith

/-! ## The path cursor -/

/-- A frame never decreases the cursor and increases it by at most one. -/
theorem animate_cursor (g : ℚ → ℚ → ℚ) (s : State) (delta : ℚ) (keys : Keys) :
    s.currentPathIndex ≤ (animate g s delta keys).currentPathIndex ∧
    (animate g s delta keys).currentPathIndex ≤ s.currentPathIndex + 1 := by
  rw [(animate_fields g s delta keys).2.2.2.2.2.1]
  by_cases ha : s.autoMode = true
  · simp only [ha, if_true]
    rcases autoBlock_outcome s delta with
      ⟨_, _, h⟩ | ⟨_, _, _, _, h⟩ | ⟨_, _, _, _, _, _, _, _, h⟩ | ⟨_, _, _, _, _, _, _, h⟩ |
      ⟨_, _, _, _, _, _, h⟩ | ⟨_, _, _, h⟩ | ⟨_, _, _, _, _, h⟩ | ⟨_, _, _, _, _, h⟩ |
      ⟨_, _, _, h⟩ | ⟨_, _, _, h⟩ <;>
    simp [h]
  · simp [ha]

/-- Along a run from the initial state the cursor stays within the path, and in
autonomous mode with the path exhausted no investigation is active and the
detector finds nothing. -/
theorem reachable_cursor (g : ℚ → ℚ → ℚ) (people : List Person) (events : List Event) :
    (run g (initialState people) events).currentPathIndex ≤
      (run g (initialState people) events).missionPath.length ∧
    ((run g (initialState people) events).autoMode = true →
      (run g (initialState people) events).currentPathIndex =
        (run g (initialState people) events).missionPath.length →
      (run g (initialState people) events).isInvestigating = false ∧
      findNearestHeatSource (run g (initialState people) events).people
        (run g (initialState people) events).droneGroup.position = none) := by
  induction events using List.reverseRecOn with
  | nil => simp [run, initialState]
  | append_singleton evs e ih =>
    have hmodes := reachable_modes g people evs
    rw [run_snoc]
    cases e with
    | startAuto =>
      simp [step, startAuto, generateGridSearchPattern_eq]
    | manualControl =>
      simpa [step, manualControl] using ih.1
    | toggleThermal =>
      simpa [step, toggleThermal] using ih
    | frame delta keys =>
      simp only [step]
      by_cases hauto : (run g (initialState people) evs).autoMode = true
      · have hman : (run g (initialState people) evs).manualMode = false := by
          rw [hmodes.1, hauto]; rfl
        rw [animate_auto g _ delta keys hauto hman]
        have ih2 := ih.2 hauto
        rcases autoBlock_outcome (run g (initialState people) evs) delta with
          ⟨hi, _, h⟩ | ⟨_, hi, _, _, h⟩ | ⟨_, _, hi, _, _, _, _, _, h⟩ |
          ⟨_, _, hi, _, _, _, _, h⟩ | ⟨_, _, hi, _, _, _, h⟩ | ⟨_, hi, hf, h⟩ |
          ⟨_, hi, hf, hidx, _, h⟩ | ⟨_, hi, hf, hidx, _, h⟩ | ⟨hi, hf, hidx, h⟩ |
          ⟨hi, hf, hlen, h⟩
        · rw [h]; exact ⟨ih.1, fun _ hc => by simp [(ih2 hc).1] at hi⟩
        · rw [h]; exact ⟨ih.1, fun _ hc => by simp [(ih2 hc).1] at hi⟩
        · rw [h]; exact ⟨ih.1, fun _ hc => by simp [(ih2 hc).1] at hi⟩
        · rw [h]; exact ⟨ih.1, fun _ hc => by simp [(ih2 hc).1] at hi⟩
        · rw [h]; exact ⟨ih.1, fun _ hc => by simp [(ih2 hc).1] at hi⟩
        · rw [h]; exact ⟨ih.1, fun _ hc => by simp [(ih2 hc).2] at hf⟩
        · have hlt : (run g (initialState people) evs).currentPathIndex <
              (run g (initialState people) evs).missionPath.length := by
            by_contra hcon
            rw [List.getElem?_eq_none (by omega)] at hidx
            exact absurd hidx (by simp)
          rw [h]
          exact ⟨ih.1, fun _ hc => absurd hc (by simp; omega)⟩
        · have hlt : (run g (initialState people) evs).currentPathIndex <
              (run g (initialState people) evs).missionPath.length := by
            by_contra hcon
            rw [List.getElem?_eq_none (by omega)] at hidx
            exact absurd hidx (by simp)
          rw [h]
          exact ⟨by simp; omega, fun _ _ => ⟨hi, hf⟩⟩
        · have hlt : (run g (initialState people) evs).currentPathIndex <
              (run g (initialState people) evs).missionPath.length := by
            by_contra hcon
            rw [List.getElem?_eq_none (by omega)] at hidx
            exact absurd hidx (by simp)
          rw [h]
          exact ⟨by simp; omega, fun _ _ => ⟨hi, hf⟩⟩
        · rw [h]
          exact ⟨ih.1, fun _ _ => ⟨hi, hf⟩⟩
      · have hA := animate_fields g (run g (initialState people) evs) delta keys
        obtain ⟨_, _, _, _, _, hidx, _, hpath, hauto2, _⟩ := hA
        rw [hidx, hpath, hauto2]
        simp only [hauto, Bool.false_eq_true, if_false]
        exact ⟨ih.1, fun hc => absurd hc (by simp)⟩

/-- C11: cursor invariant.  In every state reachable from the initial state by
commands and frames the cursor is between 0 and the length of the mission path;
a frame never decreases the cursor and increases it by at most one; and an
autonomous frame that starts in a reachable state with the cursor at the end of
the path and ends with no investigation active sets the status to
`Search Complete`. -/
theorem cursor_invariant :
    (∀ (g : ℚ → ℚ → ℚ) (people : List Person) (events : List Event),
      0 ≤ (run g (initialState people) events).currentPathIndex ∧
      (run g (initialState people) events).currentPathIndex ≤
        (run g (initialState people) events).missionPath.length) ∧
    (∀ (g : ℚ → ℚ → ℚ) (s : State) (delta : ℚ) (keys : Keys),
      s.currentPathIndex ≤ (animate g s delta keys).currentPathIndex ∧
      (animate g s delta keys).currentPathIndex ≤ s.currentPathIndex + 1) ∧
    (∀ (g : ℚ → ℚ → ℚ) (people : List Person) (events : List Event) (delta : ℚ) (keys : Keys),
      (run g (initialState people) events).autoMode = true →
      (run g (initialState people) events).currentPathIndex =
        (run g (initialState people) events).missionPath.length →
      (animate g (run g (initialState people) events) delta keys).isInvestigating = false →
      (animate g (run g (initialState people) events) delta keys).missionStatus =
        .searchComplete) := by
  refine ⟨fun g people events => ⟨Nat.zero_le _, (reachable_cursor g people events).1⟩,
    animate_cursor, ?_⟩
  intro g people events delta keys hauto hend _
  obtain ⟨hi, hf⟩ := (reachable_cursor g people events).2 hauto hend
  rw [(animate_fields g _ delta keys).2.2.2.2.1]
  simp only [hauto, if_true]
  rw [autoBlock_exhausted _ delta hi hf (by omega)]

/-! ## Way point arrival and search completion -/

/-- A frame that changes the status to `Search Complete` runs the last branch of
the autonomous block: no investigation, nothing found, cursor not within the
path. -/
theorem searchComplete_frame (g : ℚ → ℚ → ℚ) (s : State) (delta : ℚ) (keys : Keys)
    (h0 : s.missionStatus ≠ .searchComplete)
    (h1 : (animate g s delta keys).missionStatus = .searchComplete) :
    s.autoMode = true ∧ s.isInvestigating = false ∧
    findNearestHeatSource s.people s.droneGroup.position = none ∧
    ¬ s.currentPathIndex < s.missionPath.length ∧
    autoBlock s delta = { s with heatSourceTarget := none, missionStatus := .searchComplete } := by
  rw [(animate_fields g s delta keys).2.2.2.2.1] at h1
  by_cases ha : s.autoMode = true
  · simp only [ha, if_true] at h1
    rcases autoBlock_outcome s delta with
      ⟨_, _, h⟩ | ⟨_, _, _, _, h⟩ | ⟨_, _, _, _, _, _, _, _, h⟩ | ⟨_, _, _, _, _, _, _, h⟩ |
      ⟨_, _, _, _, _, _, h⟩ | ⟨_, _, _, h⟩ | ⟨_, _, _, _, _, h⟩ | ⟨_, _, _, _, _, h⟩ |
      ⟨_, _, _, h⟩ | ⟨hi, hf, hlen, h⟩
    all_goals rw [h] at h1
    all_goals first | exact absurd h1 h0 | simp at h1
    exact ⟨ha, hi, hf, hlen, h⟩
  · simp only [ha, Bool.false_eq_true, if_false] at h1
    exact absurd h1 h0

/-- A frame that advances the cursor has no investigation active and no target
found, and either has arrived within one unit of the current way point or skips
a malformed entry; it leaves the drone pose to the manual block. -/
theorem advance_frame (g : ℚ → ℚ → ℚ) (s : State) (delta : ℚ) (keys : Keys)
    (h : (animate g s delta keys).currentPathIndex = s.currentPathIndex + 1) :
    s.autoMode = true ∧ s.isInvestigating = false ∧
    findNearestHeatSource s.people s.droneGroup.position = none ∧
    ((∃ target, s.missionPath[s.currentPathIndex]? = some (some target) ∧
        waypointDistSq target s.droneGroup.position ≤ 1) ∨
      s.missionPath[s.currentPathIndex]? = some none) := by
  rw [(animate_fields g s delta keys).2.2.2.2.2.1] at h
  by_cases ha : s.autoMode = true
  · simp only [ha, if_true] at h
    rcases autoBlock_outcome s delta with
      ⟨_, _, h2⟩ | ⟨_, _, _, _, h2⟩ | ⟨_, _, _, _, _, _, _, _, h2⟩ | ⟨_, _, _, _, _, _, _, h2⟩ |
      ⟨_, _, _, _, _, _, h2⟩ | ⟨_, _, _, h2⟩ | ⟨_, _, _, _, _, h2⟩ |
      ⟨target, hi, hf, hidx, hnear, h2⟩ | ⟨hi, hf, hidx, h2⟩ | ⟨_, _, _, h2⟩
    all_goals rw [h2] at h
    all_goals try (simp at h)
    · exact ⟨ha, hi, hf, Or.inl ⟨target, hidx, not_lt.mp hnear⟩⟩
    · exact ⟨ha, hi, hf, Or.inr hidx⟩
  · simp [ha] at h

/-- Over events without mode commands, a status that becomes `Search Complete`
does so only after the cursor has been advanced to the end of the path. -/
theorem searchComplete_needs_advances (g : ℚ → ℚ → ℚ) (events : List Event) :
    ∀ s : State, (∀ e ∈ events, e.isModeCommand = false) →
      s.missionStatus ≠ .searchComplete →
      (run g s events).missionStatus = .searchComplete →
      s.missionPath.length ≤ s.currentPathIndex + cursorAdvances g s events := by
  induction events with
  | nil =>
    intro s _ h0 h1
    exact absurd h1 h0
  | cons e rest ih =>
    intro s hall h0 h1
    have hrest : ∀ e2 ∈ rest, e2.isModeCommand = false :=
      fun e2 he2 => hall e2 (List.mem_cons_of_mem _ he2)
    have he := hall e (List.mem_cons_self _ _)
    cases e with
    | startAuto => simp [Event.isModeCommand] at he
    | manualControl => simp [Event.isModeCommand] at he
    | toggleThermal =>
      have := ih (toggleThermal s) hrest h0 h1
      simpa [cursorAdvances, step, toggleThermal] using this
    | frame delta keys =>
      simp only [cursorAdvances]
      have hc := animate_cursor g s delta keys
      have hp := (animate_fields g s delta keys).2.2.2.2.2.2.2.1
      by_cases hs : (animate g s delta keys).missionStatus = .searchComplete
      · have := (searchComplete_frame g s delta keys h0 hs).2.2.2.1
        omega
      · have := ih (animate g s delta keys) hrest hs h1
        rw [hp] at this
        split_ifs with hadv
        · omega
        · omega

/-- C12: way point arrival.  An autonomous frame with no investigation active, no
target found, the cursor within the path and the drone at distance at most 1
(squared distance at most 1) from `path[cursor]` increments the cursor by one
and leaves the drone position and yaw unchanged.  A frame changes the status to
`Search Complete` only when the cursor is not within the path, which in a run
from the initial state means `cursor = path.length`; a frame advances the
cursor only by such an arrival (or by skipping a malformed entry); hence with a
path of 10 way points and the cursor at 0, the status does not become
`Search Complete` before ten frames have advanced the cursor. -/
theorem waypoint_arrival :
    (∀ (g : ℚ → ℚ → ℚ) (s : State) (delta : ℚ) (keys : Keys) (target : Waypoint),
      s.autoMode = true → s.manualMode = false → s.isInvestigating = false →
      findNearestHeatSource s.people s.droneGroup.position = none →
      s.missionPath[s.currentPathIndex]? = some (some target) →
      waypointDistSq target s.droneGroup.position ≤ 1 →
      (animate g s delta keys).currentPathIndex = s.currentPathIndex + 1 ∧
      (animate g s delta keys).droneGroup.position = s.droneGroup.position ∧
      (animate g s delta keys).droneGroup.rotationY = s.droneGroup.rotationY) ∧
    (∀ (g : ℚ → ℚ → ℚ) (s : State) (delta : ℚ) (keys : Keys),
      s.missionStatus ≠ .searchComplete →
      (animate g s delta keys).missionStatus = .searchComplete →
      s.autoMode = true ∧ ¬ s.currentPathIndex < s.missionPath.length) ∧
    (∀ (g : ℚ → ℚ → ℚ) (people : List Person) (events : List Event) (delta : ℚ) (keys : Keys),
      (run g (initialState people) events).missionStatus ≠ .searchComplete →
      (animate g (run g (initialState people) events) delta keys).missionStatus =
        .searchComplete →
      (run g (initialState people) events).currentPathIndex =
        (run g (initialState people) events).missionPath.length) ∧
    (∀ (g : ℚ → ℚ → ℚ) (s : State) (delta : ℚ) (keys : Keys),
      (animate g s delta keys).currentPathIndex = s.currentPathIndex + 1 →
      s.autoMode = true ∧ s.isInvestigating = false ∧
      findNearestHeatSource s.people s.droneGroup.position = none ∧
      ((∃ target, s.missionPath[s.currentPathIndex]? = some (some target) ∧
          waypointDistSq target s.droneGroup.position ≤ 1) ∨
        s.missionPath[s.currentPathIndex]? = some none)) ∧
    (∀ (g : ℚ → ℚ → ℚ) (s : State) (events : List Event),
      (∀ e ∈ events, e.isModeCommand = false) →
      s.missionPath.length = 10 → s.currentPathIndex = 0 →
      s.missionStatus ≠ .searchComplete →
      (run g s events).missionStatus = .searchComplete →
      10 ≤ cursorAdvances g s events) := by
  refine ⟨?_, ?_, ?_, advance_frame, ?_⟩
  · intro g s delta keys target hauto hman hinv hf hidx hnear
    rw [animate_auto g s delta keys hauto hman,
      autoBlock_arrive s target delta hinv hf hidx (not_lt.mpr hnear)]
    exact ⟨rfl, rfl, rfl⟩
  · intro g s delta keys h0 h1
    obtain ⟨ha, _, _, hlen, _⟩ := searchComplete_frame g s delta keys h0 h1
    exact ⟨ha, hlen⟩
  · intro g people events delta keys h0 h1
    obtain ⟨_, _, _, hlen, _⟩ := searchComplete_frame g _ delta keys h0 h1
    have := (reachable_cursor g people events).1
    omega
  · intro g s events hall hlen hidx h0 h1
    have := searchComplete_needs_advances g events s hall h0 h1
    omega

/-- In autonomous mode, with the path exhausted, no investigation, nothing found,
no target and the status already `Search Complete`, a frame changes nothing. -/
theorem animate_complete_fixed (g : ℚ → ℚ → ℚ) (u : State) (delta : ℚ) (keys : Keys)
    (hauto : u.autoMode = true) (hman : u.manualMode = false)
    (hinv : u.isInvestigating = false)
    (hf : findNearestHeatSource u.people u.droneGroup.position = none)
    (hlen : ¬ u.currentPathIndex < u.missionPath.length)
    (ht : u.heatSourceTarget = none) (hs : u.missionStatus = .searchComplete) :
    animate g u delta keys = u := by
  rw [animate_auto g u delta keys hauto hman, autoBlock_exhausted u delta hinv hf hlen]
  cases u
  simp_all

/-- C13: search completion is absorbing for the pose.  If an autonomous frame
changes the status to `Search Complete`, then over every later sequence of
frames without a mode command the drone position and yaw stay what they were,
no investigation starts, and the status stays `Search Complete`. -/
theorem searchComplete_absorbing (g : ℚ → ℚ → ℚ) (s : State) (delta : ℚ) (keys : Keys)
    (events : List Event) (hauto : s.autoMode = true) (hman : s.manualMode = false)
    (h0 : s.missionStatus ≠ .searchComplete)
    (h1 : (animate g s delta keys).missionStatus = .searchComplete)
    (hev : ∀ e ∈ events, e.isModeCommand = false) :
    (run g (animate g s delta keys) events).droneGroup = (animate g s delta keys).droneGroup ∧
    (run g (animate g s delta keys) events).droneGroup = s.droneGroup ∧
    (run g (animate g s delta keys) events).isInvestigating = false ∧
    (run g (animate g s delta keys) events).heatSourceTarget = none ∧
    (run g (animate g s delta keys) events).missionStatus = .searchComplete ∧
    (run g (animate g s delta keys) events).missionStatus.label = "Search Complete" := by
  obtain ⟨_, hinv, hf, hlen, hblock⟩ := searchComplete_frame g s delta keys h0 h1
  have hstart : animate g s delta keys =
      { s with heatSourceTarget := none, missionStatus := .searchComplete } := by
    rw [animate_auto g s delta keys hauto hman, hblock]
  have key : ∀ (evs : List Event) (u : State), (∀ e ∈ evs, e.isModeCommand = false) →
      u.autoMode = true → u.manualMode = false → u.isInvestigating = false →
      findNearestHeatSource u.people u.droneGroup.position = none →
      ¬ u.currentPathIndex < u.missionPath.length →
      u.heatSourceTarget = none → u.missionStatus = .searchComplete →
      (run g u evs).droneGroup = u.droneGroup ∧ (run g u evs).isInvestigating = false ∧
      (run g u evs).heatSourceTarget = none ∧
      (run g u evs).missionStatus = .searchComplete := by
    intro evs
    induction evs with
    | nil => intro u _ _ _ hi _ _ ht hs; exact ⟨rfl, hi, ht, hs⟩
    | cons e rest ih =>
      intro u hall ha hm hi hfu hl ht hs
      have hrest : ∀ e2 ∈ rest, e2.isModeCommand = false :=
        fun e2 he2 => hall e2 (List.mem_cons_of_mem _ he2)
      have he := hall e (List.mem_cons_self _ _)
      cases e with
      | startAuto => simp [Event.isModeCommand] at he
      | manualControl => simp [Event.isModeCommand] at he
      | toggleThermal =>
        exact ih (toggleThermal u) hrest ha hm hi hfu hl ht hs
      | frame d k =>
        have hfix := animate_complete_fixed g u d k ha hm hi hfu hl ht hs
        have hrun : run g u (.frame d k :: rest) = run g u rest := by
          simp only [run, List.foldl, step]
          rw [hfix]
        rw [hrun]
        exact ih u hrest ha hm hi hfu hl ht hs
  have h := key events (animate g s delta keys) hev (by rw [hstart]; exact hauto)
    (by rw [hstart]; exact hman) (by rw [hstart]; exact hinv) (by rw [hstart]; exact hf)
    (by rw [hstart]; exact hlen) (by rw [hstart]) (by rw [hstart])
  refine ⟨h.1, ?_, h.2.1, h.2.2.1, h.2.2.2, ?_⟩
  · rw [h.1, hstart]
  · rw [h.2.2.2]; rfl

/-! ## The hover accumulator in a single frame -/

/-- What a frame can do to the accumulator: leave it, add the delta during a
hover frame, or clear it at dwell completion and at acquisition. -/
theorem animate_hoverTimer (g : ℚ → ℚ → ℚ) (s : State) (delta : ℚ) (keys : Keys) :
    (animate g s delta keys).hoverTimer = s.hoverTimer ∧
        (animate g s delta keys).isInvestigating = s.isInvestigating ∧
        ((animate g s delta keys).isInvestigating = true →
          (animate g s delta keys).heatSourceTarget = s.heatSourceTarget) ∨
    (s.autoMode = true ∧ s.isInvestigating = true ∧
        (∃ i p, s.heatSourceTarget = some i ∧ s.people[i]? = some p ∧
          hoverDistSq p s.droneGroup.position < 1 ∧
          ¬ (HOVER_TIME ≤ s.hoverTimer + delta ∧ p.detected = false)) ∧
        (animate g s delta keys).isInvestigating = true ∧
        (animate g s delta keys).heatSourceTarget = s.heatSourceTarget ∧
        (animate g s delta keys).hoverTimer = s.hoverTimer + delta) ∨
    (s.autoMode = true ∧ s.isInvestigating = true ∧
        (∃ i p, s.heatSourceTarget = some i ∧ s.people[i]? = some p ∧
          hoverDistSq p s.droneGroup.position < 1 ∧
          HOVER_TIME ≤ s.hoverTimer + delta ∧ p.detected = false) ∧
        (animate g s delta keys).isInvestigating = false ∧
        (animate g s delta keys).hoverTimer = 0) ∨
    (s.autoMode = true ∧ s.isInvestigating = false ∧
        (∃ e, findNearestHeatSource s.people s.droneGroup.position = some e ∧
          (animate g s delta keys).heatSourceTarget = some e) ∧
        (animate g s delta keys).isInvestigating = true ∧
        (animate g s delta keys).hoverTimer = 0) := by
  obtain ⟨_, ht, htg, hi, _, _, _, _, _, _⟩ := animate_fields g s delta keys
  rw [ht, htg, hi]
  by_cases ha : s.autoMode = true
  · simp only [ha, if_true, true_and]
    rcases autoBlock_outcome s delta with
      ⟨hinv, htn, h⟩ | ⟨i, hinv, hti, hp, h⟩ | ⟨i, p, hinv, hti, hp, hnear, htime, hund, h⟩ |
      ⟨i, p, hinv, hti, hp, hnear, hnot, h⟩ | ⟨i, p, hinv, hti, hp, hfar, h⟩ |
      ⟨e, hinv, hf, h⟩ | ⟨_, hinv, _, _, _, h⟩ | ⟨_, hinv, _, _, _, h⟩ | ⟨hinv, _, _, h⟩ |
      ⟨hinv, _, _, h⟩
    · left; rw [h]; simp
    · left; rw [h]; simp
    · right; right; left
      rw [h]
      exact ⟨hinv, ⟨i, p, hti, hp, hnear, htime, hund⟩, rfl, rfl⟩
    · right; left
      rw [h]
      exact ⟨hinv, ⟨i, p, hti, hp, hnear, hnot⟩, hinv, rfl, rfl⟩
    · left; rw [h]; simp
    · right; right; right
      rw [h]
      exact ⟨hinv, ⟨e, hf, rfl⟩, rfl, rfl⟩
    · left; rw [h]; simp [hinv]
    · left; rw [h]; simp [hinv]
    · left; rw [h]; simp [hinv]
    · left; rw [h]; simp [hinv]
  · left
    simp [ha]

/-- With non-negative deltas the accumulator is never negative along a run from
the initial state. -/
theorem reachable_hoverTimer_nonneg (g : ℚ → ℚ → ℚ) (people : List Person)
    (events : List Event)
    (hpos : ∀ delta keys, Event.frame delta keys ∈ events → 0 ≤ delta) :
    0 ≤ (run g (initialState people) events).hoverTimer := by
  induction events using List.reverseRecOn with
  | nil => simp [run, initialState]
  | append_singleton evs e ih =>
    have ih2 := ih (fun delta keys hmem => hpos delta keys (List.mem_append_left _ hmem))
    rw [run_snoc]
    cases e with
    | startAuto => exact ih2
    | manualControl => exact ih2
    | toggleThermal => exact ih2
    | frame delta keys =>
      have hd : 0 ≤ delta := hpos delta keys (by simp)
      simp only [step]
      rcases animate_hoverTimer g (run g (initialState people) evs) delta keys with
        ⟨h, _⟩ | ⟨_, _, _, _, _, h⟩ | ⟨_, _, _, _, h⟩ | ⟨_, _, _, _, h⟩
      · rw [h]; exact ih2
      · rw [h]; linarith
      · rw [h]
      · rw [h]

/-- C16: the hover accumulator in a frame.  A frame that starts with a non-negative
accumulator and strictly increases it is an autonomous frame with an
investigation active and the drone within one unit of the target's
investigation point, and the increase is exactly the delta; in such a hover
frame the accumulator grows by the delta unless the dwell completes, in which
case it is reset to 0; on every approach frame (distance at least 1) and every
path-following frame it is unchanged; and with non-negative deltas it is never
negative along a run from the initial state. -/
theorem hover_accumulator_frame :
    (∀ (g : ℚ → ℚ → ℚ) (s : State) (delta : ℚ) (keys : Keys),
      0 ≤ s.hoverTimer → s.hoverTimer < (animate g s delta keys).hoverTimer →
      s.autoMode = true ∧ s.isInvestigating = true ∧
      (∃ i p, s.heatSourceTarget = some i ∧ s.people[i]? = some p ∧
        hoverDistSq p s.droneGroup.position < 1) ∧
      (animate g s delta keys).hoverTimer = s.hoverTimer + delta) ∧
    (∀ (g : ℚ → ℚ → ℚ) (s : State) (delta : ℚ) (keys : Keys) (i : Nat) (p : Person),
      s.autoMode = true → s.isInvestigating = true → s.heatSourceTarget = some i →
      s.people[i]? = some p → hoverDistSq p s.droneGroup.position < 1 →
      (animate g s delta keys).hoverTimer = s.hoverTimer + delta ∨
      (HOVER_TIME ≤ s.hoverTimer + delta ∧ p.detected = false ∧
        (animate g s delta keys).detected? i = some true ∧
        (animate g s delta keys).hoverTimer = 0)) ∧
    (∀ (g : ℚ → ℚ → ℚ) (s : State) (delta : ℚ) (keys : Keys) (i : Nat) (p : Person),
      s.autoMode = true → s.isInvestigating = true → s.heatSourceTarget = some i →
      s.people[i]? = some p → ¬ hoverDistSq p s.droneGroup.position < 1 →
      (animate g s delta keys).hoverTimer = s.hoverTimer) ∧
    (∀ (g : ℚ → ℚ → ℚ) (s : State) (delta : ℚ) (keys : Keys),
      s.autoMode = true → s.isInvestigating = false →
      findNearestHeatSource s.people s.droneGroup.position = none →
      (animate g s delta keys).hoverTimer = s.hoverTimer) ∧
    (∀ (g : ℚ → ℚ → ℚ) (people : List Person) (events : List Event),
      (∀ delta keys, Event.frame delta keys ∈ events → 0 ≤ delta) →
      0 ≤ (run g (initialState people) events).hoverTimer) := by
  refine ⟨?_, ?_, ?_, ?_, reachable_hoverTimer_nonneg⟩
  · intro g s delta keys h0 hlt
    rcases animate_hoverTimer g s delta keys with
      ⟨h, _⟩ | ⟨ha, hi, ⟨i, p, ht, hp, hnear, _⟩, _, _, h⟩ | ⟨_, _, _, _, h⟩ | ⟨_, _, _, _, h⟩
    · rw [h] at hlt; exact absurd hlt (lt_irrefl _)
    · exact ⟨ha, hi, ⟨i, p, ht, hp, hnear⟩, h⟩
    · rw [h] at hlt; exact absurd hlt (not_lt.mpr h0)
    · rw [h] at hlt; exact absurd hlt (not_lt.mpr h0)
  · intro g s delta keys i p hauto hinv ht hp hnear
    have hT := (animate_fields g s delta keys).2.1
    have hP := (animate_fields g s delta keys).1
    simp only [hauto, if_true] at hT hP
    rw [hT]
    simp only [State.detected?, hP]
    rw [autoBlock_investigating s i delta hinv ht]
    by_cases hdone : HOVER_TIME ≤ s.hoverTimer + delta ∧ p.detected = false
    · right
      have hlt : i < s.people.length := by
        by_contra hcon
        rw [List.getElem?_eq_none (by omega)] at hp
        exact absurd hp (by simp)
      rw [investigateHeatSource_done s i p delta hp hnear hdone.1 hdone.2]
      simp [hdone.1, hdone.2, hlt]
    · left
      rw [investigateHeatSource_wait s i p delta hp hnear hdone]
      simp
  · intro g s delta keys i p hauto hinv ht hp hfar
    have hT := (animate_fields g s delta keys).2.1
    simp only [hauto, if_true] at hT
    rw [hT, autoBlock_investigating s i delta hinv ht,
      investigateHeatSource_approach s i p delta hp hfar]
    simp
  · intro g s delta keys hauto hinv hf
    rcases animate_hoverTimer g s delta keys with
      ⟨h, _⟩ | ⟨_, hi, _⟩ | ⟨_, hi, _⟩ | ⟨_, _, ⟨e, he, _⟩, _⟩
    · exact h
    · rw [hinv] at hi; exact absurd hi (by simp)
    · rw [hinv] at hi; exact absurd hi (by simp)
    · rw [hf] at he; exact absurd he (by simp)

/-- C17, as amended: the accumulator is 0 after every frame that starts an
investigation, that assigns a different target to an active investigation, or
that ends an investigation (dwell completion); the two mode commands leave it
unchanged. -/
theorem hoverTimer_reset :
    (∀ (g : ℚ → ℚ → ℚ) (s : State) (delta : ℚ) (keys : Keys),
      (s.isInvestigating = false ∧ (animate g s delta keys).isInvestigating = true) ∨
      ((animate g s delta keys).isInvestigating = true ∧
        (animate g s delta keys).heatSourceTarget ≠ s.heatSourceTarget) ∨
      (s.isInvestigating = true ∧ (animate g s delta keys).isInvestigating = false) →
      (animate g s delta keys).hoverTimer = 0) ∧
    (∀ s : State, (manualControl s).hoverTimer = s.hoverTimer) ∧
    (∀ s : State, (startAuto s).hoverTimer = s.hoverTimer) := by
  refine ⟨?_, fun _ => rfl, fun _ => rfl⟩
  intro g s delta keys hcase
  rcases animate_hoverTimer g s delta keys with
    ⟨_, hsame, htgt⟩ | ⟨_, hi, _, hi2, htgt, _⟩ | ⟨_, _, _, _, h⟩ | ⟨_, _, _, _, h⟩
  · rcases hcase with ⟨h1, h2⟩ | ⟨h1, h2⟩ | ⟨h1, h2⟩
    · rw [hsame, h1] at h2; exact absurd h2 (by simp)
    · exact absurd (htgt h1) h2
    · rw [hsame, h1] at h2; exact absurd h2 (by simp)
  · rcases hcase with ⟨h1, _⟩ | ⟨_, h2⟩ | ⟨_, h2⟩
    · rw [hi] at h1; exact absurd h1 (by simp)
    · exact absurd htgt h2
    · rw [hi2] at h2; exact absurd h2 (by simp)
  · exact h
  · exact h

/-- After activation, the acquiring frame and one hover frame of 0.1 s over
`personBelow`, the accumulator is 0.1. -/
theorem hover_one_frame :
    animate flatTerrain (animate flatTerrain (startAuto (initialState [personBelow]))
      0.1 Keys.released) 0.1 Keys.released =
      { startAuto (initialState [personBelow]) with
        heatSourceTarget := some 0
        isInvestigating := true
        hoverTimer := 0 + 0.1
        investigationComplete := false
        missionStatus := .investigatingHeatSource } := by
  have hf : findNearestHeatSource [personBelow] ⟨0, 40, 0⟩ = some 0 := by
    simp [findNearestHeatSource, findNearestHeatSource.forEach, Sqrt.ofRat, Math.sqrt,
      Sqrt.lt_def, HEAT_DETECTION_RANGE, personBelow]
  have h1 : animate flatTerrain (startAuto (initialState [personBelow])) 0.1 Keys.released =
      { startAuto (initialState [personBelow]) with
        heatSourceTarget := some 0
        isInvestigating := true
        hoverTimer := 0
        investigationComplete := false } := by
    rw [animate_auto _ _ _ _ rfl rfl, autoBlock_acquire _ 0 _ rfl hf]
  rw [h1, animate_auto _ _ _ _ rfl rfl, autoBlock_investigating _ 0 _ rfl rfl,
    investigateHeatSource_wait
      { startAuto (initialState [personBelow]) with
        heatSourceTarget := some 0
        isInvestigating := true
        hoverTimer := 0
        investigationComplete := false } 0 personBelow 0.1 rfl
      (by norm_num [hoverDistSq, startAuto, initialState, personBelow, INVESTIGATION_HEIGHT])
      (by norm_num [startAuto, initialState, HOVER_TIME])]
  simp

/-- C17 as stated fails: after activation, one hover frame of 0.1 s over
`personBelow` and the `manual-control` command, no investigation is active and
the accumulator is 0.1, not 0. -/
theorem hoverTimer_stale_counterexample :
    (run flatTerrain (initialState [personBelow])
      [.startAuto, .frame 0.1 Keys.released, .frame 0.1 Keys.released,
        .manualControl]).isInvestigating = false ∧
    (run flatTerrain (initialState [personBelow])
      [.startAuto, .frame 0.1 Keys.released, .frame 0.1 Keys.released,
        .manualControl]).hoverTimer ≠ 0 := by
  have hrun : run flatTerrain (initialState [personBelow])
      [.startAuto, .frame 0.1 Keys.released, .frame 0.1 Keys.released, .manualControl] =
      manualControl (animate flatTerrain (animate flatTerrain
        (startAuto (initialState [personBelow])) 0.1 Keys.released) 0.1 Keys.released) := by
    simp only [run, List.foldl, step]
  rw [hrun, hover_one_frame]
  refine ⟨rfl, ?_⟩
  simp only [manualControl]
  norm_num

/-- C18: malformed way points never stall the mission.  An autonomous frame with
no investigation active, no target found, the cursor within the path and
`path[cursor]` malformed (null, undefined or lacking one of `x`, `y`, `z`)
advances the cursor by one and leaves the drone pose, the hover accumulator, the
roster with its `detected` flags and the mission status unchanged. -/
theorem malformed_waypoint_skipped (g : ℚ → ℚ → ℚ) (s : State) (delta : ℚ) (keys : Keys)
    (hauto : s.autoMode = true) (hman : s.manualMode = false)
    (hinv : s.isInvestigating = false)
    (hf : findNearestHeatSource s.people s.droneGroup.position = none)
    (hidx : s.missionPath[s.currentPathIndex]? = some none) :
    (animate g s delta keys).currentPathIndex = s.currentPathIndex + 1 ∧
    (animate g s delta keys).droneGroup = s.droneGroup ∧
    (animate g s delta keys).hoverTimer = s.hoverTimer ∧
    (animate g s delta keys).people = s.people ∧
    (∀ j, (animate g s delta keys).detected? j = s.detected? j) ∧
    (animate g s delta keys).missionStatus = s.missionStatus := by
  rw [animate_auto g s delta keys hauto hman, autoBlock_skip s delta hinv hf hidx]
  exact ⟨rfl, rfl, rfl, rfl, fun _ => rfl, rfl⟩

/-! ## Mode ownership and manual control -/

/-- With autonomous mode off, a run without `start-auto` leaves the mission
variables alone. -/
theorem run_manual_frozen (g : ℚ → ℚ → ℚ) (events : List Event) :
    ∀ u : State, u.autoMode = false → (∀ e ∈ events, e ≠ Event.startAuto) →
      (run g u events).autoMode = false ∧
      (run g u events).currentPathIndex = u.currentPathIndex ∧
      (run g u events).hoverTimer = u.hoverTimer ∧
      (run g u events).heatSourceTarget = u.heatSourceTarget ∧
      (run g u events).people = u.people ∧
      ((run g u events).missionStatus = u.missionStatus ∨
        (run g u events).missionStatus = .manualControl) := by
  induction events with
  | nil => intro u ha _; exact ⟨ha, rfl, rfl, rfl, rfl, Or.inl rfl⟩
  | cons e rest ih =>
    intro u ha hall
    have hrest : ∀ e2 ∈ rest, e2 ≠ Event.startAuto :=
      fun e2 he2 => hall e2 (List.mem_cons_of_mem _ he2)
    have he := hall e (List.mem_cons_self _ _)
    have hrun : run g u (e :: rest) = run g (step g u e) rest := rfl
    rw [hrun]
    cases e with
    | startAuto => exact absurd rfl he
    | manualControl =>
      obtain ⟨h1, h2, h3, h4, h5, h6⟩ := ih (manualControl u) rfl hrest
      refine ⟨h1, h2, h3, h4, h5, Or.inr ?_⟩
      rcases h6 with h6 | h6
      · exact h6.trans rfl
      · exact h6
    | toggleThermal =>
      exact ih (toggleThermal u) ha hrest
    | frame delta keys =>
      obtain ⟨hp, ht, htg, _, hs, hc, _, _, hauto, _⟩ := animate_fields g u delta keys
      simp only [ha, Bool.false_eq_true, if_false] at hp ht htg hs hc
      obtain ⟨h1, h2, h3, h4, h5, h6⟩ := ih (animate g u delta keys) (by rw [hauto, ha]) hrest
      simp only [step]
      rw [hc] at h2
      rw [ht] at h3
      rw [htg] at h4
      rw [hp] at h5
      rw [hs] at h6
      exact ⟨h1, h2, h3, h4, h5, h6⟩

/-- C19: single pose owner.  In every state reachable from the initial state by
commands and frames exactly one of `autoMode` and `manualMode` is true; hence a
frame there is the autonomous block alone or the manual block alone; and after
the `manual-control` command, over any events other than `start-auto`, the path
cursor, the hover accumulator, the investigation target and the roster with its
`detected` flags stay as they were, and the status stays `Manual Control`. -/
theorem single_pose_owner :
    (∀ (g : ℚ → ℚ → ℚ) (people : List Person) (events : List Event),
      ((run g (initialState people) events).autoMode = true ∧
        (run g (initialState people) events).manualMode = false) ∨
      ((run g (initialState people) events).autoMode = false ∧
        (run g (initialState people) events).manualMode = true)) ∧
    (∀ (g : ℚ → ℚ → ℚ) (people : List Person) (events : List Event) (delta : ℚ) (keys : Keys),
      ((run g (initialState people) events).autoMode = true →
        animate g (run g (initialState people) events) delta keys =
          autoBlock (run g (initialState people) events) delta) ∧
      ((run g (initialState people) events).manualMode = true →
        animate g (run g (initialState people) events) delta keys =
          manualBlock g (run g (initialState people) events) keys)) ∧
    (∀ (g : ℚ → ℚ → ℚ) (s : State) (events : List Event),
      (∀ e ∈ events, e ≠ Event.startAuto) →
      (run g (manualControl s) events).autoMode = false ∧
      (run g (manualControl s) events).currentPathIndex = s.currentPathIndex ∧
      (run g (manualControl s) events).hoverTimer = s.hoverTimer ∧
      (run g (manualControl s) events).heatSourceTarget = s.heatSourceTarget ∧
      (run g (manualControl s) events).people = s.people ∧
      (∀ j, (run g (manualControl s) events).detected? j = s.detected? j) ∧
      (run g (manualControl s) events).missionStatus = .manualControl) := by
  refine ⟨?_, ?_, ?_⟩
  · intro g people events
    have h := (reachable_modes g people events).1
    cases ha : (run g (initialState people) events).autoMode
    · right; rw [h, ha]; exact ⟨rfl, rfl⟩
    · left; rw [h, ha]; exact ⟨rfl, rfl⟩
  · intro g people events delta keys
    have h := (reachable_modes g people events).1
    constructor
    · intro ha
      exact animate_auto g _ delta keys ha (by rw [h, ha]; rfl)
    · intro hm
      have ha : (run g (initialState people) events).autoMode = false := by
        rw [h] at hm
        simpa using hm
      simp [animate, ha, hm]
  · intro g s events hall
    obtain ⟨h1, h2, h3, h4, h5, h6⟩ := run_manual_frozen g events (manualControl s) rfl hall
    refine ⟨h1, h2, h3, h4, h5, ?_, ?_⟩
    · intro j
      simp only [State.detected?, h5]
      rfl
    · rcases h6 with h6 | h6
      · rw [h6]; rfl
      · exact h6

/-- The drone position after the manual block. -/
theorem manualBlock_position (g : ℚ → ℚ → ℚ) (s : State) (keys : Keys) :
    (manualBlock g s keys).droneGroup.position =
      ⟨s.droneGroup.position.x - (if keys.arrowLeft then 0.2 else 0) +
          (if keys.arrowRight then 0.2 else 0),
        if keys.s then
          max (s.droneGroup.position.y + (if keys.w then 0.2 else 0) - 0.2)
            (g (s.droneGroup.position.x - (if keys.arrowLeft then 0.2 else 0) +
                (if keys.arrowRight then 0.2 else 0))
              (s.droneGroup.position.z - (if keys.arrowUp then 0.2 else 0) +
                (if keys.arrowDown then 0.2 else 0)) + 35)
        else s.droneGroup.position.y + (if keys.w then 0.2 else 0),
        s.droneGroup.position.z - (if keys.arrowUp then 0.2 else 0) +
          (if keys.arrowDown then 0.2 else 0)⟩ := by
  obtain ⟨up, down, left, right, w, sk, q, e⟩ := keys
  simp only [manualBlock]
  cases up <;> cases down <;> cases left <;> cases right <;> cases w <;> cases sk <;>
    simp [moveSpeed, MIN_SAFE_HEIGHT] <;>
    (split_ifs with h
     · simp [max_eq_right (le_of_lt h)]
     · simp [max_eq_left (not_lt.mp h)])

/-- C20: descend clamp.  In a manual frame with the descend key `s` held, with
`(x', z')` the horizontal position after the arrow-key moves of the frame, the
resulting altitude is `max (y + (0.2 if w is held else 0) - 0.2)
(heightAt x' z' + 35)`, hence at least `heightAt x' z' + MIN_SAFE_HEIGHT`. -/
theorem descend_clamp (g : ℚ → ℚ → ℚ) (s : State) (delta : ℚ) (keys : Keys)
    (hauto : s.autoMode = false) (hman : s.manualMode = true) (hs : keys.s = true) :
    (animate g s delta keys).droneGroup.position.x =
      s.droneGroup.position.x - (if keys.arrowLeft then 0.2 else 0) +
        (if keys.arrowRight then 0.2 else 0) ∧
    (animate g s delta keys).droneGroup.position.z =
      s.droneGroup.position.z - (if keys.arrowUp then 0.2 else 0) +
        (if keys.arrowDown then 0.2 else 0) ∧
    (animate g s delta keys).droneGroup.position.y =
      max (s.droneGroup.position.y + (if keys.w then 0.2 else 0) - 0.2)
        (g (animate g s delta keys).droneGroup.position.x
          (animate g s delta keys).droneGroup.position.z + 35) ∧
    g (animate g s delta keys).droneGroup.position.x
        (animate g s delta keys).droneGroup.position.z + MIN_SAFE_HEIGHT ≤
      (animate g s delta keys).droneGroup.position.y := by
  have hanim : animate g s delta keys = manualBlock g s keys := by
    simp [animate, hauto, hman]
  rw [hanim, manualBlock_position]
  simp only [hs, if_true, MIN_SAFE_HEIGHT]
  exact ⟨trivial, trivial, trivial, le_max_right _ _⟩

/-! ## More theorems at concrete inputs -/

/-- C12 at `tenWaypointState`: the drone is on way point 0, the cursor advances
at once and the drone does not move. -/
theorem waypoint_arrival_witness :
    (animate flatTerrain tenWaypointState 0.1 Keys.released).currentPathIndex = 1 ∧
    (animate flatTerrain tenWaypointState 0.1 Keys.released).droneGroup.position =
      ⟨0, 40, 0⟩ :=
  have h := waypoint_arrival.1 flatTerrain tenWaypointState 0.1 Keys.released ⟨0, 40, 0⟩
    rfl rfl rfl rfl rfl (by norm_num [waypointDistSq, tenWaypointState, initialState])
  ⟨h.1, h.2.1⟩

/-- C13 at `exhaustedState`: the first frame sets `Search Complete`; later frames,
whatever the keys, leave the pose and the status. -/
theorem searchComplete_absorbing_witness :
    (run flatTerrain (animate flatTerrain exhaustedState 0.1 Keys.released)
      [.frame 0.1 descendKeys, .toggleThermal, .frame 0.2 Keys.released]).droneGroup =
      exhaustedState.droneGroup ∧
    (run flatTerrain (animate flatTerrain exhaustedState 0.1 Keys.released)
      [.frame 0.1 descendKeys, .toggleThermal, .frame 0.2 Keys.released]).missionStatus =
      .searchComplete :=
  have h := searchComplete_absorbing flatTerrain exhaustedState 0.1 Keys.released
    [.frame 0.1 descendKeys, .toggleThermal, .frame 0.2 Keys.released] rfl rfl
    (by simp [exhaustedState])
    (by
      rw [animate_auto _ _ _ _ rfl rfl, autoBlock_exhausted exhaustedState 0.1 rfl rfl
        (by simp [exhaustedState, initialState])])
    (by simp [Event.isModeCommand])
  ⟨h.2.1, h.2.2.2.2.1⟩

/-- C18 at `malformedPathState`: the malformed entry is skipped. -/
theorem malformed_waypoint_skipped_witness :
    (animate flatTerrain malformedPathState 0.1 Keys.released).currentPathIndex = 1 ∧
    (animate flatTerrain malformedPathState 0.1 Keys.released).droneGroup =
      malformedPathState.droneGroup :=
  have h := malformed_waypoint_skipped flatTerrain malformedPathState 0.1 Keys.released
    rfl rfl rfl rfl rfl
  ⟨h.1, h.2.1⟩

/-- C20 at the initial state (manual mode, altitude 40) over flat terrain: with
the descend key held the altitude stays at least `MIN_SAFE_HEIGHT`. -/
theorem descend_clamp_witness :
    flatTerrain (animate flatTerrain (initialState []) 0.1 descendKeys).droneGroup.position.x
        (animate flatTerrain (initialState []) 0.1 descendKeys).droneGroup.position.z +
        MIN_SAFE_HEIGHT ≤
      (animate flatTerrain (initialState []) 0.1 descendKeys).droneGroup.position.y :=
  (descend_clamp flatTerrain (initialState []) 0.1 descendKeys rfl rfl rfl).2.2.2

/-! ## A complete sweep over an empty roster -/

theorem sweepState_succ (n : Nat) :
    sweepState (n + 1) = animate flatTerrain (sweepState n) (2 / 3) Keys.released := by
  unfold sweepState sweepEvents
  rw [List.replicate_succ', ← List.cons_append, run_snoc]
  simp only [step]

theorem sweepState_reachable (n : Nat) :
    sweepState n = run flatTerrain (initialState []) (sweepEvents n) := by
  unfold sweepState
  rfl

/-- Throughout the sweep the drone is in autonomous mode, not investigating, over
the empty roster, on the path generated at the initial position. -/
theorem sweep_inv (n : Nat) :
    (sweepState n).autoMode = true ∧ (sweepState n).manualMode = false ∧
    (sweepState n).isInvestigating = false ∧ (sweepState n).people = [] ∧
    (sweepState n).missionPath = (generateGridSearchPattern 0 0).map some := by
  induction n with
  | zero =>
    unfold sweepState sweepEvents
    simp [run, step, startAuto, initialState]
  | succ n ih =>
    obtain ⟨ha, hm, hi, hp, hpath⟩ := ih
    rw [sweepState_succ, animate_auto _ _ _ _ ha hm]
    have hfind : findNearestHeatSource (sweepState n).people
        (sweepState n).droneGroup.position = none := by
      rw [hp]; rfl
    rcases autoBlock_outcome (sweepState n) (2 / 3) with
      ⟨h1, _⟩ | ⟨_, h1, _⟩ | ⟨_, _, h1, _⟩ | ⟨_, _, h1, _⟩ | ⟨_, _, h1, _⟩ | ⟨_, _, hf, _⟩ |
      ⟨_, _, _, _, _, h⟩ | ⟨_, _, _, _, _, h⟩ | ⟨_, _, _, h⟩ | ⟨_, _, _, h⟩
    · rw [hi] at h1; exact absurd h1 (by simp)
    · rw [hi] at h1; exact absurd h1 (by simp)
    · rw [hi] at h1; exact absurd h1 (by simp)
    · rw [hi] at h1; exact absurd h1 (by simp)
    · rw [hi] at h1; exact absurd h1 (by simp)
    · rw [hfind] at hf; exact absurd hf (by simp)
    · rw [h]; exact ⟨ha, hm, hi, hp, hpath⟩
    · rw [h]; exact ⟨ha, hm, hi, hp, hpath⟩
    · rw [h]; exact ⟨ha, hm, hi, hp, hpath⟩
    · rw [h]; exact ⟨ha, hm, hi, hp, hpath⟩

/-- Two frames of the sweep advance the cursor by at least one while the path is
not exhausted. -/
theorem sweep_two_frames (n : Nat)
    (hlt : (sweepState n).currentPathIndex < (sweepState n).missionPath.length) :
    (sweepState n).currentPathIndex + 1 ≤ (sweepState (n + 1 + 1)).currentPathIndex := by
  obtain ⟨ha, hm, hi, hp, hpath⟩ := sweep_inv n
  obtain ⟨ha1, hm1, hi1, hp1, hpath1⟩ := sweep_inv (n + 1)
  have hfind : findNearestHeatSource (sweepState n).people
      (sweepState n).droneGroup.position = none := by
    rw [hp]; rfl
  have hfind1 : findNearestHeatSource (sweepState (n + 1)).people
      (sweepState (n + 1)).droneGroup.position = none := by
    rw [hp1]; rfl
  have hmono := (animate_cursor flatTerrain (sweepState (n + 1)) (2 / 3) Keys.released).1
  rw [← sweepState_succ (n + 1)] at hmono
  obtain ⟨target, hidx⟩ : ∃ target,
      (sweepState n).missionPath[(sweepState n).currentPathIndex]? = some (some target) := by
    rw [hpath] at hlt ⊢
    rw [List.getElem?_map, List.getElem?_eq_getElem (by simpa using hlt)]
    exact ⟨_, rfl⟩
  by_cases hfar : 1 < (target.x - (sweepState n).droneGroup.position.x) *
      (target.x - (sweepState n).droneGroup.position.x) +
      (target.z - (sweepState n).droneGroup.position.z) *
        (target.z - (sweepState n).droneGroup.position.z) +
      (target.y - (sweepState n).droneGroup.position.y) *
        (target.y - (sweepState n).droneGroup.position.y)
  · have h1 : sweepState (n + 1) = _ := (sweepState_succ n).trans
      ((animate_auto _ _ _ _ ha hm).trans
        (autoBlock_move (sweepState n) target (2 / 3) hi hfind hidx hfar))
    have hidx1 : (sweepState (n + 1)).missionPath[(sweepState (n + 1)).currentPathIndex]? =
        some (some target) := by
      rw [h1]; exact hidx
    have hnear1 : ¬ 1 < (target.x - (sweepState (n + 1)).droneGroup.position.x) *
        (target.x - (sweepState (n + 1)).droneGroup.position.x) +
        (target.z - (sweepState (n + 1)).droneGroup.position.z) *
          (target.z - (sweepState (n + 1)).droneGroup.position.z) +
        (target.y - (sweepState (n + 1)).droneGroup.position.y) *
          (target.y - (sweepState (n + 1)).droneGroup.position.y) := by
      rw [h1]
      simp only [NORMAL_SEARCH_SPEED]
      norm_num
      nlinarith [sq_nonneg (target.x - (sweepState n).droneGroup.position.x)]
    have h2 := (sweepState_succ (n + 1)).trans
      ((animate_auto _ _ _ _ ha1 hm1).trans
        (autoBlock_arrive (sweepState (n + 1)) target (2 / 3) hi1 hfind1 hidx1 hnear1))
    rw [h2, h1]
  · have h1 := (sweepState_succ n).trans
      ((animate_auto _ _ _ _ ha hm).trans
        (autoBlock_arrive (sweepState n) target (2 / 3) hi hfind hidx hfar))
    have hc : (sweepState (n + 1)).currentPathIndex = (sweepState n).currentPathIndex + 1 := by
      rw [h1]
    omega

/-- After `2 n` frames of the sweep the cursor has passed `n` way points. -/
theorem sweep_progress (n : Nat) (hn : n ≤ 21) :
    n ≤ (sweepState (2 * n)).currentPathIndex := by
  induction n with
  | zero => exact Nat.zero_le _
  | succ n ih =>
    have ih2 := ih (by omega)
    have h2n : 2 * (n + 1) = 2 * n + 1 + 1 := by omega
    rw [h2n]
    have hlen : (sweepState (2 * n)).missionPath.length = 21 := by
      rw [(sweep_inv (2 * n)).2.2.2.2, generateGridSearchPattern_eq]
      rfl
    by_cases hlt : (sweepState (2 * n)).currentPathIndex < (sweepState (2 * n)).missionPath.length
    · have := sweep_two_frames (2 * n) hlt
      omega
    · have m1 := (animate_cursor flatTerrain (sweepState (2 * n)) (2 / 3) Keys.released).1
      rw [← sweepState_succ] at m1
      have m2 := (animate_cursor flatTerrain (sweepState (2 * n + 1)) (2 / 3) Keys.released).1
      rw [← sweepState_succ] at m2
      omega

/-- After 42 frames of the sweep the cursor is at the end of the path. -/
theorem sweep_end :
    (sweepState 42).currentPathIndex = (sweepState 42).missionPath.length := by
  have h1 := sweep_progress 21 (le_refl _)
  have h2 := (reachable_cursor flatTerrain [] (sweepEvents 42)).1
  rw [← sweepState_reachable] at h2
  have hlen : (sweepState 42).missionPath.length = 21 := by
    rw [(sweep_inv 42).2.2.2.2, generateGridSearchPattern_eq]
    rfl
  have h42 : 2 * 21 = 42 := by omega
  rw [h42] at h1
  omega

/-- C11 at the end of a complete sweep over an empty roster: the run is reachable
from the initial state, the cursor is at the end of the path, and the next frame
sets `Search Complete`. -/
theorem cursor_invariant_witness :
    (run flatTerrain (initialState []) (sweepEvents 42)).currentPathIndex =
      (run flatTerrain (initialState []) (sweepEvents 42)).missionPath.length ∧
    (animate flatTerrain (run flatTerrain (initialState []) (sweepEvents 42)) (2 / 3)
      Keys.released).missionStatus = .searchComplete := by
  have hend := sweep_end
  have hinv := (sweep_inv 42).1
  have hnext := (sweep_inv 43).2.2.1
  have h43 : sweepState 43 = animate flatTerrain (sweepState 42) (2 / 3) Keys.released :=
    sweepState_succ 42
  rw [h43] at hnext
  rw [sweepState_reachable] at hend hinv hnext
  exact ⟨hend, cursor_invariant.2.2 flatTerrain [] (sweepEvents 42) (2 / 3) Keys.released
    hinv hend hnext⟩

theorem acquiredState_hover :
    (animate flatTerrain acquiredState 0.1 Keys.released).hoverTimer = 0 + 0.1 := by
  rw [animate_auto _ _ _ _ rfl rfl, autoBlock_investigating _ 0 _ rfl rfl,
    investigateHeatSource_wait acquiredState 0 personBelow 0.1 rfl
      (by norm_num [hoverDistSq, acquiredState, initialState, personBelow, INVESTIGATION_HEIGHT])
      (by norm_num [acquiredState, initialState, HOVER_TIME])]
  simp [acquiredState, initialState]

/-- C16 at `acquiredState`: a hover frame of 0.1 s raises the accumulator from 0 by
exactly 0.1. -/
theorem hover_accumulator_frame_witness :
    acquiredState.isInvestigating = true ∧
    (animate flatTerrain acquiredState 0.1 Keys.released).hoverTimer =
      acquiredState.hoverTimer + 0.1 :=
  have h := hover_accumulator_frame.1 flatTerrain acquiredState 0.1 Keys.released
    (le_of_eq rfl) (by rw [acquiredState_hover]; norm_num [acquiredState, initialState])
  ⟨h.2.1, h.2.2.2⟩

/-- C17, as amended, at the first frame of the scenario: the frame starts an
investigation and leaves the accumulator at 0. -/
theorem hoverTimer_reset_witness :
    (animate flatTerrain scenarioStart 0.1 Keys.released).hoverTimer = 0 :=
  hoverTimer_reset.1 flatTerrain scenarioStart 0.1 Keys.released
    (Or.inl ⟨rfl, by
      have hf : findNearestHeatSource scenarioStart.people scenarioStart.droneGroup.position =
          some 0 := by
        simp [findNearestHeatSource, findNearestHeatSource.forEach, Sqrt.ofRat, Math.sqrt,
          Sqrt.lt_def, HEAT_DETECTION_RANGE, scenarioStart, startAuto, initialState,
          scenarioPerson]
        norm_num
      rw [animate_auto _ _ _ _ rfl rfl, autoBlock_acquire scenarioStart 0 _ rfl hf]⟩)

/-- C19 at `hoveringState`: after the `manual-control` command a frame with the
descend key held leaves the accumulator and the target as they were. -/
theorem single_pose_owner_witness :
    (run flatTerrain (manualControl hoveringState) [.frame 0.1 descendKeys]).hoverTimer =
      hoveringState.hoverTimer ∧
    (run flatTerrain (manualControl hoveringState) [.frame 0.1 descendKeys]).heatSourceTarget =
      hoveringState.heatSourceTarget :=
  have h := single_pose_owner.2.2 flatTerrain hoveringState [.frame 0.1 descendKeys]
    (by simp)
  ⟨h.2.2.1, h.2.2.2.1⟩

/-! ## Tie-break of the detector -/

/-- C24: tie-break.  If an undetected entity within range (squared planar distance
below `40 * 40`) is at minimal distance among the undetected entities of the
roster, and no undetected entity before it in roster order is at the same
distance, then `findNearestHeatSource` returns it: among entities that share
the minimum, the first in iteration order wins. -/
theorem findNearestHeatSource_first_of_ties (people : List Person) (drone : Vec3) (k : Nat)
    (p : Person) (hk : people[k]? = some p) (hund : p.detected = false)
    (hrange : planarDistSq p drone < 40 * 40)
    (hmin : ∀ q ∈ people, q.detected = false → planarDistSq p drone ≤ planarDistSq q drone)
    (hfirst : ∀ j q, j < k → people[j]? = some q → q.detected = false →
      planarDistSq q drone ≠ planarDistSq p drone) :
    findNearestHeatSource people drone = some k := by
  have h40 : HEAT_DETECTION_RANGE * HEAT_DETECTION_RANGE = 40 * 40 := by
    simp [HEAT_DETECTION_RANGE]
  rcases findNearestHeatSource_spec people drone with
    ⟨_, h2⟩ | ⟨k2, p2, h1, hk2, hund2, _, hmin2, hfirst2⟩
  · have := h2 p (List.getElem?_mem hk) hund
    rw [h40] at this
    exact absurd hrange (not_lt.mpr this)
  · have hle1 := hmin2 p (List.getElem?_mem hk) hund
    have hle2 := hmin p2 (List.getElem?_mem hk2) hund2
    have heq : planarDistSq p2 drone = planarDistSq p drone := le_antisymm hle1 hle2
    rcases Nat.lt_trichotomy k2 k with hlt | heq2 | hgt
    · exact absurd heq (hfirst k2 p2 hlt hk2 hund2)
    · rw [h1, heq2]
    · have := hfirst2 k p hgt hk hund
      rw [heq] at this
      exact absurd this (lt_irrefl _)

/-- C24 at `tiedRoster`: both persons are at distance 5; the first is returned. -/
theorem findNearestHeatSource_first_of_ties_witness :
    findNearestHeatSource tiedRoster ⟨0, 40, 0⟩ = some 0 :=
  findNearestHeatSource_first_of_ties tiedRoster ⟨0, 40, 0⟩ 0
    { position := ⟨3, 0, 4⟩, heatLevel := 37, detected := false } rfl rfl
    (by norm_num [planarDistSq])
    (by
      intro q hq _
      simp only [tiedRoster, List.mem_cons, List.mem_singleton, List.not_mem_nil, or_false] at hq
      rcases hq with h | h
      · rw [h]
      · rw [h]; norm_num [planarDistSq])
    (by intro j q hj; omega)

/-! ## Manual control -/

/-- With autonomous mode off and manual mode on, a frame is the manual block. -/
theorem animate_manual (g : ℚ → ℚ → ℚ) (s : State) (delta : ℚ) (keys : Keys)
    (hauto : s.autoMode = false) (hman : s.manualMode = true) :
    animate g s delta keys = manualBlock g s keys := by
  simp [animate, hauto, hman]

/-- The drone heading after the manual block. -/
theorem manualBlock_rotation (g : ℚ → ℚ → ℚ) (s : State) (keys : Keys) :
    (manualBlock g s keys).droneGroup.rotationY =
      ⟨s.droneGroup.rotationY.facing,
        s.droneGroup.rotationY.turned + (if keys.q then 0.05 else 0) -
          (if keys.e then 0.05 else 0)⟩ := by
  obtain ⟨up, down, left, right, w, sk, q, e⟩ := keys
  simp only [manualBlock]
  cases q <;> cases e
  all_goals simp [rotateSpeed, Yaw.add]
  all_goals ring

/-- C23: manual step.  A manual frame changes `x` by `0.2 * ([ArrowRight] -
[ArrowLeft])`, `z` by `0.2 * ([ArrowDown] - [ArrowUp])`, the yaw by
`0.05 * ([q] - [e])`, and `y` by `+0.2` when `w` is held, the descend rule
(minus 0.2, clamped at the floor) being applied only when `s` is held; the
result does not depend on the delta of the frame, and with no key held the
state, hence the pose, is unchanged. -/
theorem manual_step (g : ℚ → ℚ → ℚ) (s : State) (delta : ℚ) (keys : Keys)
    (hauto : s.autoMode = false) (hman : s.manualMode = true) :
    (animate g s delta keys).droneGroup.position.x =
      s.droneGroup.position.x +
        0.2 * ((if keys.arrowRight then 1 else 0) - (if keys.arrowLeft then 1 else 0)) ∧
    (animate g s delta keys).droneGroup.position.z =
      s.droneGroup.position.z +
        0.2 * ((if keys.arrowDown then 1 else 0) - (if keys.arrowUp then 1 else 0)) ∧
    (animate g s delta keys).droneGroup.rotationY.facing = s.droneGroup.rotationY.facing ∧
    (animate g s delta keys).droneGroup.rotationY.turned =
      s.droneGroup.rotationY.turned +
        0.05 * ((if keys.q then 1 else 0) - (if keys.e then 1 else 0)) ∧
    (keys.s = false →
      (animate g s delta keys).droneGroup.position.y =
        s.droneGroup.position.y + (if keys.w then 0.2 else 0)) ∧
    (keys.s = true →
      (animate g s delta keys).droneGroup.position.y =
        max (s.droneGroup.position.y + (if keys.w then 0.2 else 0) - 0.2)
          (g (animate g s delta keys).droneGroup.position.x
            (animate g s delta keys).droneGroup.position.z + MIN_SAFE_HEIGHT)) ∧
    (∀ delta2, animate g s delta2 keys = animate g s delta keys) ∧
    (keys = Keys.released → animate g s delta keys = s) := by
  have hanim := animate_manual g s delta keys hauto hman
  rw [hanim, manualBlock_position, manualBlock_rotation]
  refine ⟨?_, ?_, rfl, ?_, ?_, ?_, ?_, ?_⟩
  · simp only; split_ifs <;> ring
  · simp only; split_ifs <;> ring
  · simp only; split_ifs <;> ring
  · intro hs; simp [hs]
  · intro hs; simp [hs, MIN_SAFE_HEIGHT]
  · intro delta2
    rw [animate_manual g s delta2 keys hauto hman]
  · intro hk
    subst hk
    simp [manualBlock, Keys.released]

/-- C21, as amended: after a manual frame with `s` held the altitude is at least
the terrain height at the new position plus `MIN_SAFE_HEIGHT`; a manual frame
with `s` not held does not lower the altitude and applies no clamp, so the floor
is kept if it held before and the terrain at the new position is not higher
than at the old one. -/
theorem altitude_floor_manual (g : ℚ → ℚ → ℚ) (s : State) (delta : ℚ) (keys : Keys)
    (hauto : s.autoMode = false) (hman : s.manualMode = true)
    (hfloor : g s.droneGroup.position.x s.droneGroup.position.z + MIN_SAFE_HEIGHT ≤
      s.droneGroup.position.y) :
    (keys.s = true →
      g (animate g s delta keys).droneGroup.position.x
          (animate g s delta keys).droneGroup.position.z + MIN_SAFE_HEIGHT ≤
        (animate g s delta keys).droneGroup.position.y) ∧
    (keys.s = false →
      s.droneGroup.position.y ≤ (animate g s delta keys).droneGroup.position.y ∧
      (g (animate g s delta keys).droneGroup.position.x
          (animate g s delta keys).droneGroup.position.z ≤
        g s.droneGroup.position.x s.droneGroup.position.z →
        g (animate g s delta keys).droneGroup.position.x
            (animate g s delta keys).droneGroup.position.z + MIN_SAFE_HEIGHT ≤
          (animate g s delta keys).droneGroup.position.y)) := by
  rw [animate_manual g s delta keys hauto hman, manualBlock_position]
  constructor
  · intro hs
    simp only [hs, if_true, MIN_SAFE_HEIGHT]
    exact le_max_right _ _
  · intro hs
    simp only [hs, Bool.false_eq_true, if_false]
    have hw : (0 : ℚ) ≤ if keys.w = true then 0.2 else 0 := by
      split_ifs <;> norm_num
    refine ⟨by linarith, ?_⟩
    intro hg
    linarith

/-- C21 at flat terrain, altitude 35 and the right arrow key: the floor is kept. -/
theorem altitude_floor_manual_witness :
    flatTerrain (animate flatTerrain (manualAt 35) 0.1 rightKeys).droneGroup.position.x
        (animate flatTerrain (manualAt 35) 0.1 rightKeys).droneGroup.position.z +
        MIN_SAFE_HEIGHT ≤
      (animate flatTerrain (manualAt 35) 0.1 rightKeys).droneGroup.position.y :=
  ((altitude_floor_manual flatTerrain (manualAt 35) 0.1 rightKeys rfl rfl
    (by norm_num [flatTerrain, manualAt, MIN_SAFE_HEIGHT])).2 rfl).2
    (by simp [flatTerrain])

/-- C21 as stated fails: over `stepTerrain`, at altitude 35 above the origin the
floor holds; a manual frame with only the right arrow key held moves the drone
to `x = 0.2`, where the terrain is 10 high, and leaves the altitude at 35, below
the floor of 45. -/
theorem altitude_floor_counterexample :
    stepTerrain (manualAt 35).droneGroup.position.x (manualAt 35).droneGroup.position.z +
        MIN_SAFE_HEIGHT ≤ (manualAt 35).droneGroup.position.y ∧
    ¬ (stepTerrain (animate stepTerrain (manualAt 35) 0.1 rightKeys).droneGroup.position.x
          (animate stepTerrain (manualAt 35) 0.1 rightKeys).droneGroup.position.z +
        MIN_SAFE_HEIGHT ≤
      (animate stepTerrain (manualAt 35) 0.1 rightKeys).droneGroup.position.y) := by
  rw [animate_manual stepTerrain (manualAt 35) 0.1 rightKeys rfl rfl, manualBlock_position]
  simp [stepTerrain, manualAt, initialState, rightKeys, Keys.released, MIN_SAFE_HEIGHT]
  norm_num

/-- C26: yaw noise threshold.  In an autonomous path-following frame that moves
the drone (distance to `path[cursor]` above 1), the yaw is unchanged when
`|dx| ≤ 0.1` and `|dz| ≤ 0.1`, and it is written (to face `(dx, dz)`) exactly
when `|dx| > 0.1` or `|dz| > 0.1`; `Math.abs` is the absolute value. -/
theorem yaw_noise_threshold (g : ℚ → ℚ → ℚ) (s : State) (delta : ℚ) (keys : Keys)
    (target : Waypoint) (hauto : s.autoMode = true) (hman : s.manualMode = false)
    (hinv : s.isInvestigating = false)
    (hf : findNearestHeatSource s.people s.droneGroup.position = none)
    (hidx : s.missionPath[s.currentPathIndex]? = some (some target))
    (hfar : 1 < waypointDistSq target s.droneGroup.position) :
    (Math.abs (target.x - s.droneGroup.position.x) ≤ 0.1 ∧
        Math.abs (target.z - s.droneGroup.position.z) ≤ 0.1 →
      (animate g s delta keys).droneGroup.rotationY = s.droneGroup.rotationY) ∧
    (Math.abs (target.x - s.droneGroup.position.x) > 0.1 ∨
        Math.abs (target.z - s.droneGroup.position.z) > 0.1 →
      (animate g s delta keys).droneGroup.rotationY =
        Yaw.pointAt (target.z - s.droneGroup.position.z)
          (target.x - s.droneGroup.position.x)) ∧
    ((animate g s delta keys).droneGroup.rotationY ≠ s.droneGroup.rotationY →
      Math.abs (target.x - s.droneGroup.position.x) > 0.1 ∨
        Math.abs (target.z - s.droneGroup.position.z) > 0.1) ∧
    (∀ q : ℚ, Math.abs q = |q|) := by
  rw [animate_auto g s delta keys hauto hman, autoBlock_move s target delta hinv hf hidx hfar]
  refine ⟨?_, ?_, ?_, ?_⟩
  · intro h
    have hn : ¬ (Math.abs (target.x - s.droneGroup.position.x) > 0.1 ∨
        Math.abs (target.z - s.droneGroup.position.z) > 0.1) := by
      intro hc
      rcases hc with hc | hc
      · exact absurd hc (not_lt.mpr h.1)
      · exact absurd hc (not_lt.mpr h.2)
    simp only [hn, if_false]
  · intro h
    simp only [h, if_true]
  · intro h
    by_contra hn
    simp only [hn, if_false] at h
    exact h rfl
  · intro q
    unfold Math.abs
    split_ifs with hq
    · exact (abs_of_neg hq).symm
    · exact (abs_of_nonneg (not_lt.mp hq)).symm

/-- C26 at the first frame after activation over an empty roster: the climb from
`(0, 40, 0)` to the way point `(0, 50, 0)` straight above leaves the yaw. -/
theorem yaw_noise_threshold_witness :
    (animate flatTerrain (startAuto (initialState [])) 0.1 Keys.released).droneGroup.rotationY =
      (startAuto (initialState [])).droneGroup.rotationY :=
  (yaw_noise_threshold flatTerrain (startAuto (initialState [])) 0.1 Keys.released ⟨0, 50, 0⟩
    rfl rfl rfl rfl
    (by simp [startAuto, initialState, generateGridSearchPattern_eq])
    (by norm_num [waypointDistSq, startAuto, initialState])).1
    (by norm_num [Math.abs, startAuto, initialState])

/-- The altitude after `n` manual frames with only the descend key held, from
altitude 36 over terrain of height 0 at the drone position. -/
theorem descend_from_36 (g : ℚ → ℚ → ℚ) (s : State) (delta : ℚ)
    (hauto : s.autoMode = false) (hman : s.manualMode = true)
    (hy : s.droneGroup.position.y = 36)
    (hg : g s.droneGroup.position.x s.droneGroup.position.z = 0) (n : Nat) :
    (run g s (List.replicate n (.frame delta descendKeys))).autoMode = false ∧
    (run g s (List.replicate n (.frame delta descendKeys))).manualMode = true ∧
    (run g s (List.replicate n (.frame delta descendKeys))).droneGroup.position.x =
      s.droneGroup.position.x ∧
    (run g s (List.replicate n (.frame delta descendKeys))).droneGroup.position.z =
      s.droneGroup.position.z ∧
    (run g s (List.replicate n (.frame delta descendKeys))).droneGroup.position.y =
      max (36 - 0.2 * (n : ℚ)) 35 := by
  induction n with
  | zero =>
    refine ⟨hauto, hman, rfl, rfl, ?_⟩
    simp only [List.replicate, run, List.foldl, hy]
    norm_num
  | succ n ih =>
    obtain ⟨ha, hm, hx, hz, hyn⟩ := ih
    rw [List.replicate_succ', run_snoc]
    simp only [step]
    have hpos := manualBlock_position g (run g s (List.replicate n (.frame delta descendKeys)))
      descendKeys
    simp only [show descendKeys.arrowLeft = false from rfl,
      show descendKeys.arrowRight = false from rfl, show descendKeys.arrowUp = false from rfl,
      show descendKeys.arrowDown = false from rfl, show descendKeys.w = false from rfl,
      show descendKeys.s = true from rfl, Bool.false_eq_true, if_false, if_true, sub_zero,
      add_zero, hx, hz, hg, hyn, zero_add] at hpos
    rw [animate_manual g _ delta descendKeys ha hm, hpos]
    refine ⟨ha, hm, rfl, rfl, ?_⟩
    simp only
    push_cast
    rcases le_total (36 - 0.2 * (n : ℚ)) 35 with h | h
    · rw [max_eq_right h, max_eq_right (by linarith), max_eq_right (by linarith)]
    · rw [max_eq_left h]
      rcases le_total (36 - 0.2 * ((n : ℚ) + 1)) 35 with h2 | h2
      · rw [max_eq_right h2, max_eq_right (by linarith)]
      · rw [max_eq_left h2, max_eq_left (by linarith)]
        ring

/-- C22, as amended: in manual mode at altitude 36 over terrain of height 0 at the
drone position, a frame with only the descend key held lowers the altitude by
`moveSpeed` to 35.8; after `n ≤ 5` such frames the altitude is `36 - 0.2 n`,
after five or more it is exactly 35, and it is never below 35. -/
theorem descend_scenario (g : ℚ → ℚ → ℚ) (s : State) (delta : ℚ)
    (hauto : s.autoMode = false) (hman : s.manualMode = true)
    (hy : s.droneGroup.position.y = 36)
    (hg : g s.droneGroup.position.x s.droneGroup.position.z = 0) :
    (animate g s delta descendKeys).droneGroup.position.y = 35.8 ∧
    (∀ n : Nat, n ≤ 5 →
      (run g s (List.replicate n (.frame delta descendKeys))).droneGroup.position.y =
        36 - 0.2 * (n : ℚ)) ∧
    (∀ n : Nat, 5 ≤ n →
      (run g s (List.replicate n (.frame delta descendKeys))).droneGroup.position.y = 35) ∧
    (∀ n : Nat,
      35 ≤ (run g s (List.replicate n (.frame delta descendKeys))).droneGroup.position.y) := by
  refine ⟨?_, ?_, ?_, ?_⟩
  · have h := (descend_from_36 g s delta hauto hman hy hg 1).2.2.2.2
    simp only [List.replicate, run, List.foldl, step] at h
    rw [h]
    norm_num
  · intro n hn
    rw [(descend_from_36 g s delta hauto hman hy hg n).2.2.2.2]
    have : (n : ℚ) ≤ 5 := by exact_mod_cast hn
    exact max_eq_left (by linarith)
  · intro n hn
    rw [(descend_from_36 g s delta hauto hman hy hg n).2.2.2.2]
    have : (5 : ℚ) ≤ n := by exact_mod_cast hn
    exact max_eq_right (by linarith)
  · intro n
    rw [(descend_from_36 g s delta hauto hman hy hg n).2.2.2.2]
    exact le_max_right _ _

/-- C22, as amended, at `manualAt 36` over flat terrain: five descend frames
bring the altitude to 35, twelve leave it there. -/
theorem descend_scenario_witness :
    (run flatTerrain (manualAt 36)
      (List.replicate 5 (.frame 0.1 descendKeys))).droneGroup.position.y =
      36 - 0.2 * ((5 : Nat) : ℚ) ∧
    (run flatTerrain (manualAt 36)
      (List.replicate 12 (.frame 0.1 descendKeys))).droneGroup.position.y = 35 :=
  have h := descend_scenario flatTerrain (manualAt 36) 0.1 rfl rfl rfl rfl
  ⟨h.2.1 5 (le_refl _), h.2.2.1 12 (by omega)⟩

/-- C22 as stated fails: at altitude 36 over flat terrain a frame with only the
descend key held gives altitude 35.8, not 35. -/
theorem descend_scenario_counterexample :
    (manualAt 36).manualMode = true ∧ (manualAt 36).droneGroup.position.y = 36 ∧
    flatTerrain (manualAt 36).droneGroup.position.x (manualAt 36).droneGroup.position.z = 0 ∧
    (animate flatTerrain (manualAt 36) 0.1 descendKeys).droneGroup.position.y ≠ 35 := by
  refine ⟨rfl, rfl, rfl, ?_⟩
  rw [animate_manual flatTerrain (manualAt 36) 0.1 descendKeys rfl rfl, manualBlock_position]
  simp [flatTerrain, manualAt, initialState, descendKeys, Keys.released]
  norm_num

/-! ## Detected count and well-formed investigations -/

/-- Marking an undetected person as detected raises the number of detected
persons by one. -/
theorem countP_set_detected (l : List Person) :
    ∀ (i : Nat) (p : Person), l[i]? = some p → p.detected = false →
      (l.set i { p with detected := true }).countP (fun q => q.detected) =
        l.countP (fun q => q.detected) + 1 := by
  induction l with
  | nil => intro i p h; simp at h
  | cons a rest ih =>
    intro i p h hund
    cases i with
    | zero =>
      simp only [List.getElem?_cons_zero, Option.some.injEq] at h
      subst h
      simp [List.countP_cons, hund]
    | succ i =>
      simp only [List.getElem?_cons_succ] at h
      simp only [List.set_cons_succ, List.countP_cons, ih i p h hund]
      omega

/-- What an event can do to the roster and the count: nothing, or mark one
undetected person of the roster and raise the count by one. -/
theorem step_roster (g : ℚ → ℚ → ℚ) (s : State) (e : Event) :
    ((step g s e).people = s.people ∧ (step g s e).peopleDetected = s.peopleDetected) ∨
    (∃ i p, s.people[i]? = some p ∧ p.detected = false ∧
      (step g s e).people = s.people.set i { p with detected := true } ∧
      (step g s e).peopleDetected = s.peopleDetected + 1) := by
  cases e with
  | startAuto => exact Or.inl ⟨rfl, rfl⟩
  | manualControl => exact Or.inl ⟨rfl, rfl⟩
  | toggleThermal => exact Or.inl ⟨rfl, rfl⟩
  | frame delta keys =>
    obtain ⟨hp, _, _, _, _, _, hd, _, _, _⟩ := animate_fields g s delta keys
    simp only [step]
    rw [hp, hd]
    by_cases ha : s.autoMode = true
    · simp only [ha, if_true]
      rcases autoBlock_outcome s delta with
        ⟨_, _, h⟩ | ⟨_, _, _, _, h⟩ | ⟨i, p, _, _, hpi, _, _, hund, h⟩ | ⟨_, _, _, _, _, _, _, h⟩ |
        ⟨_, _, _, _, _, _, h⟩ | ⟨_, _, _, h⟩ | ⟨_, _, _, _, _, h⟩ | ⟨_, _, _, _, _, h⟩ |
        ⟨_, _, _, h⟩ | ⟨_, _, _, h⟩
      all_goals rw [h]
      all_goals first | exact Or.inl ⟨rfl, rfl⟩ | exact Or.inr ⟨i, p, hpi, hund, rfl, rfl⟩
    · simp [ha]

/-- Along a run from an initial state whose roster is undetected, the count is
the number of detected persons, and the roster keeps its length. -/
theorem reachable_count (g : ℚ → ℚ → ℚ) (people : List Person) (events : List Event)
    (h0 : ∀ p ∈ people, p.detected = false) :
    (run g (initialState people) events).peopleDetected =
      (run g (initialState people) events).people.countP (fun q => q.detected) ∧
    (run g (initialState people) events).people.length = people.length := by
  induction events using List.reverseRecOn with
  | nil =>
    refine ⟨?_, rfl⟩
    simp only [run, List.foldl, initialState]
    symm
    rw [List.countP_eq_zero]
    intro p hp
    simp [h0 p hp]
  | append_singleton evs e ih =>
    rw [run_snoc]
    rcases step_roster g (run g (initialState people) evs) e with
      ⟨hp, hd⟩ | ⟨i, p, hpi, hund, hp, hd⟩
    · rw [hp, hd]; exact ih
    · rw [hp, hd, countP_set_detected _ i p hpi hund, ih.1, List.length_set]
      exact ⟨rfl, ih.2⟩

/-- C27: detected-count consistency.  In every state reachable from an initial
state whose roster is undetected, `peopleDetected` is the number of persons
whose `detected` flag is true and does not exceed the size of the roster; no
event lowers it, and none raises it by more than one; `start-auto` does not
reset it; the shipped roster has 7 undetected persons, so there it never
exceeds 7. -/
theorem detected_count_consistent :
    (∀ (g : ℚ → ℚ → ℚ) (people : List Person) (events : List Event),
      (∀ p ∈ people, p.detected = false) →
      (run g (initialState people) events).peopleDetected =
        (run g (initialState people) events).people.countP (fun q => q.detected) ∧
      (run g (initialState people) events).peopleDetected ≤ people.length) ∧
    (∀ (g : ℚ → ℚ → ℚ) (s : State) (e : Event),
      s.peopleDetected ≤ (step g s e).peopleDetected ∧
      (step g s e).peopleDetected ≤ s.peopleDetected + 1) ∧
    (∀ s : State, (startAuto s).peopleDetected = s.peopleDetected) ∧
    (∀ (g h : ℚ → ℚ → ℚ) (events : List Event),
      (createPeople h).length = 7 ∧ (∀ p ∈ createPeople h, p.detected = false) ∧
      (run g (initialState (createPeople h)) events).peopleDetected ≤ 7) := by
  have hbound : ∀ (g : ℚ → ℚ → ℚ) (people : List Person) (events : List Event),
      (∀ p ∈ people, p.detected = false) →
      (run g (initialState people) events).peopleDetected ≤ people.length := by
    intro g people events h0
    obtain ⟨h1, h2⟩ := reachable_count g people events h0
    rw [h1, ← h2]
    exact List.countP_le_length _
  have hship : ∀ h : ℚ → ℚ → ℚ, ∀ p ∈ createPeople h, p.detected = false := by
    intro h p hp
    simp only [createPeople, List.mem_cons, List.mem_singleton, List.not_mem_nil, or_false] at hp
    rcases hp with hp | hp | hp | hp | hp | hp | hp <;> rw [hp] <;> rfl
  refine ⟨fun g people events h0 => ⟨(reachable_count g people events h0).1,
    hbound g people events h0⟩, ?_, fun _ => rfl, ?_⟩
  · intro g s e
    rcases step_roster g s e with ⟨_, hd⟩ | ⟨_, _, _, _, _, hd⟩ <;> rw [hd] <;> omega
  · intro g h events
    exact ⟨rfl, hship h, hbound g (createPeople h) events (hship h)⟩

/-- C27 at a run that detects `personBelow` (activation, the acquiring frame, a
hover frame of 5 s): the count equals the number of detected persons. -/
theorem detected_count_consistent_witness :
    (run flatTerrain (initialState [personBelow])
      [.startAuto, .frame 0.1 Keys.released, .frame 5 Keys.released]).peopleDetected =
    (run flatTerrain (initialState [personBelow])
      [.startAuto, .frame 0.1 Keys.released, .frame 5 Keys.released]).people.countP
        (fun q => q.detected) :=
  (detected_count_consistent.1 flatTerrain [personBelow]
    [.startAuto, .frame 0.1 Keys.released, .frame 5 Keys.released]
    (by intro p hp; simp only [List.mem_singleton] at hp; rw [hp]; rfl)).1

/-- Along a run from the initial state, an active investigation has a target that
is a person of the roster whose `detected` flag is false. -/
theorem reachable_target (g : ℚ → ℚ → ℚ) (people : List Person) (events : List Event) :
    (run g (initialState people) events).isInvestigating = true →
    ∃ i p, (run g (initialState people) events).heatSourceTarget = some i ∧
      (run g (initialState people) events).people[i]? = some p ∧ p.detected = false := by
  induction events using List.reverseRecOn with
  | nil => intro h; simp [run, initialState] at h
  | append_singleton evs e ih =>
    rw [run_snoc]
    cases e with
    | startAuto => intro h; simp [step, startAuto] at h
    | manualControl => intro h; simp [step, manualControl] at h
    | toggleThermal => exact ih
    | frame delta keys =>
      obtain ⟨hp, _, ht, hi, _, _, _, _, _, _⟩ :=
        animate_fields g (run g (initialState people) evs) delta keys
      simp only [step]
      rw [hp, ht, hi]
      by_cases ha : (run g (initialState people) evs).autoMode = true
      · simp only [ha, if_true]
        rcases autoBlock_outcome (run g (initialState people) evs) delta with
          ⟨hinv, _, h⟩ | ⟨_, hinv, _, _, h⟩ | ⟨_, _, _, _, _, _, _, _, h⟩ |
          ⟨_, _, hinv, _, _, _, _, h⟩ | ⟨_, _, hinv, _, _, _, h⟩ | ⟨e, _, hf, h⟩ |
          ⟨_, _, _, _, _, h⟩ | ⟨_, _, _, _, _, h⟩ | ⟨_, _, _, h⟩ | ⟨_, hinv, _, h⟩
        · rw [h]; exact ih
        · rw [h]; exact ih
        · rw [h]; intro hc; simp at hc
        · rw [h]; intro _; exact ih hinv
        · rw [h]; intro _; exact ih hinv
        · rw [h]
          intro _
          obtain ⟨p, hpe, hund, _, _⟩ := findNearestHeatSource_sound _ _ e hf
          exact ⟨e, p, rfl, hpe, by simpa using hund⟩
        · rw [h]; intro hc; simp_all
        · rw [h]; intro hc; simp_all
        · rw [h]; intro hc; simp_all
        · rw [h]; intro hc; simp_all
      · simp only [ha, Bool.false_eq_true, if_false]
        exact ih

theorem run_replicate_succ (g : ℚ → ℚ → ℚ) (s : State) (e : Event) (n : Nat) :
    run g s (List.replicate (n + 1) e) = step g (run g s (List.replicate n e)) e := by
  rw [List.replicate_succ', run_snoc]

/-- A hover over an undetected target completes: under a constant positive delta
the target is detected after finitely many frames. -/
theorem hover_completes (g : ℚ → ℚ → ℚ) (s : State) (delta : ℚ) (keys : Keys) (i : Nat)
    (p : Person) (hauto : s.autoMode = true) (hman : s.manualMode = false)
    (hinv : s.isInvestigating = true) (ht : s.heatSourceTarget = some i)
    (hp : s.people[i]? = some p) (hund : p.detected = false)
    (hnear : hoverDistSq p s.droneGroup.position < 1) (hd : 0 < delta) :
    ∃ n, (run g s (List.replicate n (.frame delta keys))).detected? i = some true := by
  have key : ∀ n : Nat,
      (∃ m, (run g s (List.replicate m (.frame delta keys))).detected? i = some true) ∨
      ((run g s (List.replicate n (.frame delta keys))).autoMode = true ∧
        (run g s (List.replicate n (.frame delta keys))).manualMode = false ∧
        (run g s (List.replicate n (.frame delta keys))).isInvestigating = true ∧
        (run g s (List.replicate n (.frame delta keys))).heatSourceTarget = some i ∧
        (run g s (List.replicate n (.frame delta keys))).people = s.people ∧
        (run g s (List.replicate n (.frame delta keys))).droneGroup = s.droneGroup ∧
        (run g s (List.replicate n (.frame delta keys))).hoverTimer =
          s.hoverTimer + n * delta ∧
        (n = 0 ∨ (run g s (List.replicate n (.frame delta keys))).hoverTimer < HOVER_TIME)) := by
    intro n
    induction n with
    | zero =>
      right
      refine ⟨hauto, hman, hinv, ht, rfl, rfl, ?_, Or.inl rfl⟩
      simp [run]
    | succ n ih =>
      rcases ih with hdone | ⟨ha, hm, hi, htg, hpp, hdg, htime, _⟩
      · exact Or.inl hdone
      · have hp2 : (run g s (List.replicate n (.frame delta keys))).people[i]? = some p := by
          rw [hpp]; exact hp
        have hnear2 : hoverDistSq p
            (run g s (List.replicate n (.frame delta keys))).droneGroup.position < 1 := by
          rw [hdg]; exact hnear
        have hlt : i < (run g s (List.replicate n (.frame delta keys))).people.length := by
          by_contra hcon
          rw [List.getElem?_eq_none (by omega)] at hp2
          exact absurd hp2 (by simp)
        rw [run_replicate_succ]
        simp only [step]
        rw [animate_auto g _ delta keys ha hm, autoBlock_investigating _ i delta hi htg]
        by_cases hfin : HOVER_TIME ≤
            (run g s (List.replicate n (.frame delta keys))).hoverTimer + delta
        · left
          refine ⟨n + 1, ?_⟩
          rw [run_replicate_succ]
          simp only [step]
          rw [animate_auto g _ delta keys ha hm, autoBlock_investigating _ i delta hi htg,
            investigateHeatSource_done _ i p delta hp2 hnear2 hfin hund]
          simp [State.detected?, hlt]
        · right
          rw [investigateHeatSource_wait _ i p delta hp2 hnear2 (fun hc => hfin hc.1)]
          simp only [Bool.false_eq_true, if_false]
          refine ⟨ha, hm, hi, htg, hpp, hdg, ?_, Or.inr (not_le.mp hfin)⟩
          rw [htime]
          push_cast
          ring
  obtain ⟨N, hN⟩ := exists_nat_gt ((HOVER_TIME - s.hoverTimer) / delta)
  rcases key (N + 1) with hdone | ⟨_, _, _, _, _, _, htime, hlt⟩
  · exact hdone
  · exfalso
    rcases hlt with h0 | hlt
    · omega
    · rw [htime] at hlt
      rw [div_lt_iff₀ hd] at hN
      push_cast at hlt
      linarith

/-- C28: investigation well-formedness.  In every state reachable from the initial
state, an active investigation has a target that is a person of the roster
whose `detected` flag is false, so no reachable state is an investigation of an
already-detected person; hence once the dwell time is reached in a hover frame
the guard on `detected` passes, the person is marked and the investigation
ends; and under a constant positive delta a hover ends after finitely many
frames. -/
theorem investigation_well_formed :
    (∀ (g : ℚ → ℚ → ℚ) (people : List Person) (events : List Event),
      (run g (initialState people) events).isInvestigating = true →
      ∃ i p, (run g (initialState people) events).heatSourceTarget = some i ∧
        (run g (initialState people) events).people[i]? = some p ∧ p.detected = false) ∧
    (∀ (g : ℚ → ℚ → ℚ) (people : List Person) (events : List Event) (i : Nat),
      ¬ ((run g (initialState people) events).isInvestigating = true ∧
        (run g (initialState people) events).heatSourceTarget = some i ∧
        (run g (initialState people) events).detected? i = some true)) ∧
    (∀ (g : ℚ → ℚ → ℚ) (people : List Person) (events : List Event) (delta : ℚ) (keys : Keys)
      (i : Nat),
      (run g (initialState people) events).isInvestigating = true →
      (run g (initialState people) events).heatSourceTarget = some i →
      (run g (initialState people) events).hoversOver i = true →
      HOVER_TIME ≤ (run g (initialState people) events).hoverTimer + delta →
      (animate g (run g (initialState people) events) delta keys).detected? i = some true ∧
      (animate g (run g (initialState people) events) delta keys).isInvestigating = false) ∧
    (∀ (g : ℚ → ℚ → ℚ) (people : List Person) (events : List Event) (delta : ℚ) (keys : Keys)
      (i : Nat),
      (run g (initialState people) events).isInvestigating = true →
      (run g (initialState people) events).heatSourceTarget = some i →
      (run g (initialState people) events).hoversOver i = true → 0 < delta →
      ∃ n, (run g (run g (initialState people) events)
        (List.replicate n (.frame delta keys))).detected? i = some true) := by
  refine ⟨reachable_target, ?_, ?_, ?_⟩
  · intro g people events i ⟨hinv, ht, hdet⟩
    obtain ⟨j, p, htj, hp, hund⟩ := reachable_target g people events hinv
    rw [ht] at htj
    have hij : i = j := by simpa using htj
    subst hij
    simp [State.detected?, hp, hund] at hdet
  · intro g people events delta keys i hinv ht hover htime
    obtain ⟨j, p, htj, hp, hund⟩ := reachable_target g people events hinv
    rw [ht] at htj
    have hij : i = j := by simpa using htj
    subst hij
    have hmodes := reachable_modes g people events
    have ha := hmodes.2 hinv
    have hm : (run g (initialState people) events).manualMode = false := by
      rw [hmodes.1, ha]; rfl
    have hnear : hoverDistSq p (run g (initialState people) events).droneGroup.position < 1 := by
      simpa [State.hoversOver, hp] using hover
    have hlt : i < (run g (initialState people) events).people.length := by
      by_contra hcon
      rw [List.getElem?_eq_none (by omega)] at hp
      exact absurd hp (by simp)
    rw [animate_auto g _ delta keys ha hm, autoBlock_investigating _ i delta hinv ht,
      investigateHeatSource_done _ i p delta hp hnear htime hund]
    simp [State.detected?, hlt]
  · intro g people events delta keys i hinv ht hover hd
    obtain ⟨j, p, htj, hp, hund⟩ := reachable_target g people events hinv
    rw [ht] at htj
    have hij : i = j := by simpa using htj
    subst hij
    have hmodes := reachable_modes g people events
    have ha := hmodes.2 hinv
    have hm : (run g (initialState people) events).manualMode = false := by
      rw [hmodes.1, ha]; rfl
    have hnear : hoverDistSq p (run g (initialState people) events).droneGroup.position < 1 := by
      simpa [State.hoversOver, hp] using hover
    exact hover_completes g _ delta keys i p ha hm hinv ht hp hund hnear hd

/-- C28 after activation and the acquiring frame of the scenario: the target is the
undetected person 0. -/
theorem investigation_well_formed_witness :
    ∃ i p, (run flatTerrain (initialState [scenarioPerson])
        [.startAuto, .frame 0.1 Keys.released]).heatSourceTarget = some i ∧
      (run flatTerrain (initialState [scenarioPerson])
        [.startAuto, .frame 0.1 Keys.released]).people[i]? = some p ∧ p.detected = false :=
  investigation_well_formed.1 flatTerrain [scenarioPerson]
    [.startAuto, .frame 0.1 Keys.released]
    (by
      have hf : findNearestHeatSource scenarioStart.people scenarioStart.droneGroup.position =
          some 0 := by
        simp [findNearestHeatSource, findNearestHeatSource.forEach, Sqrt.ofRat, Math.sqrt,
          Sqrt.lt_def, HEAT_DETECTION_RANGE, scenarioStart, startAuto, initialState,
          scenarioPerson]
        norm_num
      have hrun : run flatTerrain (initialState [scenarioPerson])
          [.startAuto, .frame 0.1 Keys.released] =
          animate flatTerrain scenarioStart 0.1 Keys.released := by
        simp only [run, List.foldl, step, scenarioStart]
      rw [hrun, animate_auto _ _ _ _ rfl rfl, autoBlock_acquire scenarioStart 0 _ rfl hf])

/-- C23 at the initial state (manual mode) with only the right arrow key held:
`x` grows by 0.2. -/
theorem manual_step_witness :
    (animate flatTerrain (manualAt 40) 0.1 rightKeys).droneGroup.position.x =
      (manualAt 40).droneGroup.position.x +
        0.2 * ((if rightKeys.arrowRight then 1 else 0) -
          (if rightKeys.arrowLeft then 1 else 0)) :=
  (manual_step flatTerrain (manualAt 40) 0.1 rightKeys rfl rfl).1

/-! ## Movement toward a target -/

/-- An approach frame of an investigation: the offset to the investigation point
is scaled by `1 - INVESTIGATION_SPEED * delta`. -/
theorem approach_frame (g : ℚ → ℚ → ℚ) (s : State) (delta : ℚ) (keys : Keys) (i : Nat)
    (p : Person) (hauto : s.autoMode = true) (hman : s.manualMode = false)
    (hinv : s.isInvestigating = true) (ht : s.heatSourceTarget = some i)
    (hp : s.people[i]? = some p) (hfar : ¬ hoverDistSq p s.droneGroup.position < 1) :
    (animate g s delta keys).droneGroup.position =
      ⟨s.droneGroup.position.x +
          INVESTIGATION_SPEED * delta * (p.position.x - s.droneGroup.position.x),
        s.droneGroup.position.y +
          INVESTIGATION_SPEED * delta *
            (p.position.y + INVESTIGATION_HEIGHT - s.droneGroup.position.y),
        s.droneGroup.position.z +
          INVESTIGATION_SPEED * delta * (p.position.z - s.droneGroup.position.z)⟩ ∧
    p.position.x - (animate g s delta keys).droneGroup.position.x =
      (1 - INVESTIGATION_SPEED * delta) * (p.position.x - s.droneGroup.position.x) ∧
    p.position.y + INVESTIGATION_HEIGHT - (animate g s delta keys).droneGroup.position.y =
      (1 - INVESTIGATION_SPEED * delta) *
        (p.position.y + INVESTIGATION_HEIGHT - s.droneGroup.position.y) ∧
    p.position.z - (animate g s delta keys).droneGroup.position.z =
      (1 - INVESTIGATION_SPEED * delta) * (p.position.z - s.droneGroup.position.z) ∧
    hoverDistSq p (animate g s delta keys).droneGroup.position =
      (1 - INVESTIGATION_SPEED * delta) ^ 2 * hoverDistSq p s.droneGroup.position ∧
    (animate g s delta keys).autoMode = true ∧
    (animate g s delta keys).manualMode = false ∧
    (animate g s delta keys).isInvestigating = true ∧
    (animate g s delta keys).heatSourceTarget = some i ∧
    (animate g s delta keys).people = s.people := by
  rw [animate_auto g s delta keys hauto hman, autoBlock_investigating s i delta hinv ht,
    investigateHeatSource_approach s i p delta hp hfar]
  simp only [Bool.false_eq_true, if_false, hoverDistSq]
  refine ⟨?_, by ring, by ring, by ring, by ring, hauto, hman, hinv, ht, trivial⟩
  simp only [Vec3.mk.injEq]
  refine ⟨by ring, by ring, by ring⟩

/-- A path-following frame that moves: the offset to the way point is scaled by
`1 - NORMAL_SEARCH_SPEED * delta`. -/
theorem move_frame (g : ℚ → ℚ → ℚ) (s : State) (delta : ℚ) (keys : Keys) (target : Waypoint)
    (hauto : s.autoMode = true) (hman : s.manualMode = false)
    (hinv : s.isInvestigating = false)
    (hf : findNearestHeatSource s.people s.droneGroup.position = none)
    (hidx : s.missionPath[s.currentPathIndex]? = some (some target))
    (hfar : 1 < waypointDistSq target s.droneGroup.position) :
    (animate g s delta keys).droneGroup.position =
      ⟨s.droneGroup.position.x +
          NORMAL_SEARCH_SPEED * delta * (target.x - s.droneGroup.position.x),
        s.droneGroup.position.y +
          NORMAL_SEARCH_SPEED * delta * (target.y - s.droneGroup.position.y),
        s.droneGroup.position.z +
          NORMAL_SEARCH_SPEED * delta * (target.z - s.droneGroup.position.z)⟩ ∧
    target.x - (animate g s delta keys).droneGroup.position.x =
      (1 - NORMAL_SEARCH_SPEED * delta) * (target.x - s.droneGroup.position.x) ∧
    target.y - (animate g s delta keys).droneGroup.position.y =
      (1 - NORMAL_SEARCH_SPEED * delta) * (target.y - s.droneGroup.position.y) ∧
    target.z - (animate g s delta keys).droneGroup.position.z =
      (1 - NORMAL_SEARCH_SPEED * delta) * (target.z - s.droneGroup.position.z) ∧
    waypointDistSq target (animate g s delta keys).droneGroup.position =
      (1 - NORMAL_SEARCH_SPEED * delta) ^ 2 * waypointDistSq target s.droneGroup.position ∧
    (animate g s delta keys).autoMode = true ∧
    (animate g s delta keys).manualMode = false ∧
    (animate g s delta keys).isInvestigating = false ∧
    (animate g s delta keys).people = s.people ∧
    (animate g s delta keys).missionPath = s.missionPath ∧
    (animate g s delta keys).currentPathIndex = s.currentPathIndex := by
  rw [animate_auto g s delta keys hauto hman, autoBlock_move s target delta hinv hf hidx hfar]
  simp only [waypointDistSq]
  refine ⟨?_, by ring, by ring, by ring, by ring, hauto, hman, hinv, trivial, trivial, trivial⟩
  simp only [Vec3.mk.injEq]
  refine ⟨by ring, by ring, by ring⟩

/-- A contraction by a factor `c` with `0 < c < 1` strictly shrinks a squared
distance of at least 1 (indeed any positive one). -/
theorem sq_scale_lt (c d : ℚ) (hc0 : 0 < c) (hc1 : c < 1) (hd : 0 < d) : c ^ 2 * d < d := by
  have h : c ^ 2 < 1 := by nlinarith
  nlinarith

/-- The detector finds nothing in a roster whose persons are all detected. -/
theorem findNearestHeatSource_all_detected (people : List Person) (drone : Vec3)
    (h : ∀ q ∈ people, q.detected = true) : findNearestHeatSource people drone = none := by
  rcases findNearestHeatSource_spec people drone with ⟨h1, _⟩ | ⟨k, p, _, hk, hund, _⟩
  · exact h1
  · have := h p (List.getElem?_mem hk)
    rw [hund] at this
    exact absurd this (by simp)

/-- A contraction by `c` with `0 < c < 1`, repeated, brings any squared distance
below 1. -/
theorem exists_scale_lt_one (c d : ℚ) (hc0 : 0 < c) (hc1 : c < 1) (hd : 0 ≤ d) :
    ∃ n : ℕ, (c ^ n) ^ 2 * d < 1 := by
  have hc2 : c ^ 2 < 1 := by nlinarith
  obtain ⟨n, hn⟩ := exists_pow_lt_of_lt_one (by positivity : (0 : ℚ) < 1 / (d + 1)) hc2
  refine ⟨n, ?_⟩
  have hpow : (c ^ n) ^ 2 = (c ^ 2) ^ n := by rw [← pow_mul, ← pow_mul, mul_comm]
  rw [hpow]
  have hnn : 0 ≤ (c ^ 2) ^ n := by positivity
  have hd1 : 0 < d + 1 := by linarith
  rw [lt_div_iff₀ hd1] at hn
  nlinarith

/-- Under a constant delta with `0 < INVESTIGATION_SPEED * delta < 1`, an
investigation brings the drone within one unit of the investigation point
after finitely many frames. -/
theorem approach_arrives (g : ℚ → ℚ → ℚ) (s : State) (delta : ℚ) (keys : Keys) (i : Nat)
    (p : Person) (hauto : s.autoMode = true) (hman : s.manualMode = false)
    (hinv : s.isInvestigating = true) (ht : s.heatSourceTarget = some i)
    (hp : s.people[i]? = some p)
    (h0 : 0 < INVESTIGATION_SPEED * delta) (h1 : INVESTIGATION_SPEED * delta < 1) :
    ∃ n, (run g s (List.replicate n (.frame delta keys))).hoversOver i = true := by
  have key : ∀ n : Nat,
      (∃ m, (run g s (List.replicate m (.frame delta keys))).hoversOver i = true) ∨
      ((run g s (List.replicate n (.frame delta keys))).autoMode = true ∧
        (run g s (List.replicate n (.frame delta keys))).manualMode = false ∧
        (run g s (List.replicate n (.frame delta keys))).isInvestigating = true ∧
        (run g s (List.replicate n (.frame delta keys))).heatSourceTarget = some i ∧
        (run g s (List.replicate n (.frame delta keys))).people = s.people ∧
        hoverDistSq p (run g s (List.replicate n (.frame delta keys))).droneGroup.position =
          ((1 - INVESTIGATION_SPEED * delta) ^ n) ^ 2 *
            hoverDistSq p s.droneGroup.position) := by
    intro n
    induction n with
    | zero =>
      right
      refine ⟨hauto, hman, hinv, ht, rfl, ?_⟩
      simp [run]
    | succ n ih =>
      rcases ih with hdone | ⟨ha, hm, hi, htg, hpp, hdist⟩
      · exact Or.inl hdone
      · have hp2 : (run g s (List.replicate n (.frame delta keys))).people[i]? = some p := by
          rw [hpp]; exact hp
        by_cases hnear : hoverDistSq p
            (run g s (List.replicate n (.frame delta keys))).droneGroup.position < 1
        · left
          exact ⟨n, by simp [State.hoversOver, hp2, hnear]⟩
        · right
          obtain ⟨_, _, _, _, hd2, ha2, hm2, hi2, ht2, hpp2⟩ :=
            approach_frame g _ delta keys i p ha hm hi htg hp2 hnear
          rw [run_replicate_succ]
          simp only [step]
          refine ⟨ha2, hm2, hi2, ht2, hpp2.trans hpp, ?_⟩
          rw [hd2, hdist, pow_succ]
          ring
  have hD : 0 ≤ hoverDistSq p s.droneGroup.position := by
    unfold hoverDistSq
    nlinarith [mul_self_nonneg (p.position.x - s.droneGroup.position.x),
      mul_self_nonneg (p.position.z - s.droneGroup.position.z),
      mul_self_nonneg (p.position.y + INVESTIGATION_HEIGHT - s.droneGroup.position.y)]
  obtain ⟨n, hn⟩ := exists_scale_lt_one (1 - INVESTIGATION_SPEED * delta) _
    (by linarith) (by linarith) hD
  rcases key n with hdone | ⟨_, _, _, _, hpp, hdist⟩
  · exact hdone
  · refine ⟨n, ?_⟩
    have hp2 : (run g s (List.replicate n (.frame delta keys))).people[i]? = some p := by
      rw [hpp]; exact hp
    rw [← hdist] at hn
    simp [State.hoversOver, hp2, hn]

/-- Under a constant delta with `0 < NORMAL_SEARCH_SPEED * delta < 1`, and with
nothing for the detector to find, path following brings the drone to within
distance 1 of the current way point after finitely many frames, the cursor
still on that way point. -/
theorem move_arrives (g : ℚ → ℚ → ℚ) (s : State) (delta : ℚ) (keys : Keys) (target : Waypoint)
    (hauto : s.autoMode = true) (hman : s.manualMode = false)
    (hinv : s.isInvestigating = false) (hdet : ∀ q ∈ s.people, q.detected = true)
    (hidx : s.missionPath[s.currentPathIndex]? = some (some target))
    (h0 : 0 < NORMAL_SEARCH_SPEED * delta) (h1 : NORMAL_SEARCH_SPEED * delta < 1) :
    ∃ n, (run g s (List.replicate n (.frame delta keys))).currentPathIndex =
        s.currentPathIndex ∧
      waypointDistSq target
        (run g s (List.replicate n (.frame delta keys))).droneGroup.position ≤ 1 := by
  have key : ∀ n : Nat,
      (∃ m, (run g s (List.replicate m (.frame delta keys))).currentPathIndex =
          s.currentPathIndex ∧
        waypointDistSq target
          (run g s (List.replicate m (.frame delta keys))).droneGroup.position ≤ 1) ∨
      ((run g s (List.replicate n (.frame delta keys))).autoMode = true ∧
        (run g s (List.replicate n (.frame delta keys))).manualMode = false ∧
        (run g s (List.replicate n (.frame delta keys))).isInvestigating = false ∧
        (run g s (List.replicate n (.frame delta keys))).people = s.people ∧
        (run g s (List.replicate n (.frame delta keys))).missionPath = s.missionPath ∧
        (run g s (List.replicate n (.frame delta keys))).currentPathIndex =
          s.currentPathIndex ∧
        waypointDistSq target
            (run g s (List.replicate n (.frame delta keys))).droneGroup.position =
          ((1 - NORMAL_SEARCH_SPEED * delta) ^ n) ^ 2 *
            waypointDistSq target s.droneGroup.position) := by
    intro n
    induction n with
    | zero =>
      right
      refine ⟨hauto, hman, hinv, rfl, rfl, rfl, ?_⟩
      simp [run]
    | succ n ih =>
      rcases ih with hdone | ⟨ha, hm, hi, hpp, hpath, hcur, hdist⟩
      · exact Or.inl hdone
      · by_cases hfar : 1 < waypointDistSq target
            (run g s (List.replicate n (.frame delta keys))).droneGroup.position
        · right
          have hf : findNearestHeatSource
              (run g s (List.replicate n (.frame delta keys))).people
              (run g s (List.replicate n (.frame delta keys))).droneGroup.position = none :=
            findNearestHeatSource_all_detected _ _ (by rw [hpp]; exact hdet)
          have hidx2 : (run g s (List.replicate n (.frame delta keys))).missionPath[
              (run g s (List.replicate n (.frame delta keys))).currentPathIndex]? =
              some (some target) := by
            rw [hpath, hcur]; exact hidx
          obtain ⟨_, _, _, _, hd2, ha2, hm2, hi2, hpp2, hpath2, hcur2⟩ :=
            move_frame g _ delta keys target ha hm hi hf hidx2 hfar
          rw [run_replicate_succ]
          simp only [step]
          refine ⟨ha2, hm2, hi2, hpp2.trans hpp, hpath2.trans hpath, hcur2.trans hcur, ?_⟩
          rw [hd2, hdist, pow_succ]
          ring
        · left
          exact ⟨n, hcur, not_lt.mp hfar⟩
  have hD : 0 ≤ waypointDistSq target s.droneGroup.position := by
    unfold waypointDistSq
    nlinarith [mul_self_nonneg (target.x - s.droneGroup.position.x),
      mul_self_nonneg (target.z - s.droneGroup.position.z),
      mul_self_nonneg (target.y - s.droneGroup.position.y)]
  obtain ⟨n, hn⟩ := exists_scale_lt_one (1 - NORMAL_SEARCH_SPEED * delta) _
    (by linarith) (by linarith) hD
  rcases key n with hdone | ⟨_, _, _, _, _, hcur, hdist⟩
  · exact hdone
  · refine ⟨n, hcur, ?_⟩
    rw [← hdist] at hn
    exact le_of_lt hn

/-- From `landingState`, with frames of 1/3 s, the drone moves once, from altitude
48 to altitude 49 at distance exactly 1 below the way point, and stays there. -/
theorem landing_inv (n : Nat) :
    (run flatTerrain landingState (List.replicate n (.frame (1 / 3) Keys.released))).autoMode =
      true ∧
    (run flatTerrain landingState
      (List.replicate n (.frame (1 / 3) Keys.released))).manualMode = false ∧
    (run flatTerrain landingState
      (List.replicate n (.frame (1 / 3) Keys.released))).isInvestigating = false ∧
    (run flatTerrain landingState
      (List.replicate n (.frame (1 / 3) Keys.released))).people = [] ∧
    (run flatTerrain landingState
      (List.replicate n (.frame (1 / 3) Keys.released))).missionPath = [some ⟨0, 50, 0⟩] ∧
    (run flatTerrain landingState
      (List.replicate n (.frame (1 / 3) Keys.released))).droneGroup.position.x = 0 ∧
    (run flatTerrain landingState
      (List.replicate n (.frame (1 / 3) Keys.released))).droneGroup.position.z = 0 ∧
    (((run flatTerrain landingState
        (List.replicate n (.frame (1 / 3) Keys.released))).droneGroup.position.y = 48 ∧
      (run flatTerrain landingState
        (List.replicate n (.frame (1 / 3) Keys.released))).currentPathIndex = 0) ∨
      (run flatTerrain landingState
        (List.replicate n (.frame (1 / 3) Keys.released))).droneGroup.position.y = 49) := by
  induction n with
  | zero =>
    simp [run, landingState, initialState]
  | succ n ih =>
    obtain ⟨ha, hm, hi, hpp, hpath, hx, hz, hy⟩ := ih
    rw [run_replicate_succ]
    simp only [step]
    rw [animate_auto flatTerrain _ (1 / 3) Keys.released ha hm]
    have hfind : findNearestHeatSource
        (run flatTerrain landingState (List.replicate n (.frame (1 / 3) Keys.released))).people
        (run flatTerrain landingState
          (List.replicate n (.frame (1 / 3) Keys.released))).droneGroup.position = none := by
      rw [hpp]; rfl
    rcases autoBlock_outcome
        (run flatTerrain landingState (List.replicate n (.frame (1 / 3) Keys.released)))
        (1 / 3) with
      ⟨h1, _⟩ | ⟨_, h1, _⟩ | ⟨_, _, h1, _⟩ | ⟨_, _, h1, _⟩ | ⟨_, _, h1, _⟩ | ⟨_, _, hf, _⟩ |
      ⟨target, _, _, hidx, hfar, h⟩ | ⟨target, _, _, hidx, hnear, h⟩ | ⟨_, _, hidx, h⟩ |
      ⟨_, _, hlen, h⟩
    · rw [hi] at h1; exact absurd h1 (by simp)
    · rw [hi] at h1; exact absurd h1 (by simp)
    · rw [hi] at h1; exact absurd h1 (by simp)
    · rw [hi] at h1; exact absurd h1 (by simp)
    · rw [hi] at h1; exact absurd h1 (by simp)
    · rw [hfind] at hf; exact absurd hf (by simp)
    · rw [hpath] at hidx
      have hc : (run flatTerrain landingState
          (List.replicate n (.frame (1 / 3) Keys.released))).currentPathIndex = 0 := by
        by_contra hne
        have hlen : ([some (⟨0, 50, 0⟩ : Waypoint)] : List (Option Waypoint)).length ≤
            (run flatTerrain landingState
              (List.replicate n (.frame (1 / 3) Keys.released))).currentPathIndex := by
          simp only [List.length_singleton]
          omega
        rw [List.getElem?_eq_none hlen] at hidx
        exact absurd hidx (by simp)
      rw [hc] at hidx
      have htgt : target = ⟨0, 50, 0⟩ := by
        simp only [List.getElem?_cons_zero, Option.some.injEq] at hidx
        exact hidx.symm
      subst htgt
      rw [h]
      refine ⟨ha, hm, hi, hpp, hpath, ?_, ?_, Or.inr ?_⟩
      · simp only [hx]; norm_num
      · simp only [hz]; norm_num
      · rcases hy with ⟨hy, _⟩ | hy
        · simp only [hy, NORMAL_SEARCH_SPEED]; norm_num
        · rw [hx, hz, hy] at hfar
          norm_num at hfar
    · rw [h]
      refine ⟨ha, hm, hi, hpp, hpath, hx, hz, ?_⟩
      rcases hy with ⟨hy, hc⟩ | hy
      · exfalso
        rw [hpath, hc] at hidx
        simp only [List.getElem?_cons_zero, Option.some.injEq] at hidx
        subst hidx
        rw [hx, hz, hy] at hnear
        norm_num at hnear
      · exact Or.inr hy
    · rw [h]
      refine ⟨ha, hm, hi, hpp, hpath, hx, hz, ?_⟩
      rcases hy with ⟨_, hc⟩ | hy
      · exfalso
        rw [hpath, hc] at hidx
        simp at hidx
      · exact Or.inr hy
    · rw [h]
      refine ⟨ha, hm, hi, hpp, hpath, hx, hz, ?_⟩
      rcases hy with ⟨_, hc⟩ | hy
      · exfalso
        rw [hpath, hc] at hlen
        simp at hlen
      · exact Or.inr hy

/-- Marking an undetected person as detected lowers the number of undetected
persons by one. -/
theorem countP_set_undetected (l : List Person) :
    ∀ (i : Nat) (p : Person), l[i]? = some p → p.detected = false →
      (l.set i { p with detected := true }).countP (fun q => !q.detected) + 1 =
        l.countP (fun q => !q.detected) := by
  induction l with
  | nil => intro i p h; simp at h
  | cons a rest ih =>
    intro i p h hund
    cases i with
    | zero =>
      simp only [List.getElem?_cons_zero, Option.some.injEq] at h
      subst h
      simp [List.countP_cons, hund]
    | succ i =>
      simp only [List.getElem?_cons_succ] at h
      simp only [List.set_cons_succ, List.countP_cons, ← ih i p h hund]
      omega

/-- Path following up to arrival or acquisition.  Under a constant delta with
`0 < NORMAL_SEARCH_SPEED * delta < 1`, the frames that move the drone toward
the current way point are finitely many: after `n` of them, each one with
nothing found by the detector and the squared distance above 1, the squared
distance is `((1 - NORMAL_SEARCH_SPEED * delta) ^ n) ^ 2` times the initial one,
and either it is at most 1 or the detector finds a target. -/
theorem path_phase (g : ℚ → ℚ → ℚ) (s : State) (delta : ℚ) (keys : Keys) (target : Waypoint)
    (hauto : s.autoMode = true) (hman : s.manualMode = false)
    (hinv : s.isInvestigating = false)
    (hidx : s.missionPath[s.currentPathIndex]? = some (some target))
    (h0 : 0 < NORMAL_SEARCH_SPEED * delta) (h1 : NORMAL_SEARCH_SPEED * delta < 1) :
    ∃ n, (∀ m, m < n →
        findNearestHeatSource (run g s (List.replicate m (.frame delta keys))).people
          (run g s (List.replicate m (.frame delta keys))).droneGroup.position = none ∧
        1 < waypointDistSq target
          (run g s (List.replicate m (.frame delta keys))).droneGroup.position) ∧
      (run g s (List.replicate n (.frame delta keys))).autoMode = true ∧
      (run g s (List.replicate n (.frame delta keys))).manualMode = false ∧
      (run g s (List.replicate n (.frame delta keys))).isInvestigating = false ∧
      (run g s (List.replicate n (.frame delta keys))).people = s.people ∧
      (run g s (List.replicate n (.frame delta keys))).missionPath = s.missionPath ∧
      (run g s (List.replicate n (.frame delta keys))).currentPathIndex = s.currentPathIndex ∧
      waypointDistSq target
          (run g s (List.replicate n (.frame delta keys))).droneGroup.position =
        ((1 - NORMAL_SEARCH_SPEED * delta) ^ n) ^ 2 *
          waypointDistSq target s.droneGroup.position ∧
      (waypointDistSq target
          (run g s (List.replicate n (.frame delta keys))).droneGroup.position ≤ 1 ∨
        findNearestHeatSource (run g s (List.replicate n (.frame delta keys))).people
          (run g s (List.replicate n (.frame delta keys))).droneGroup.position ≠ none) := by
  have key : ∀ n : Nat,
      (∃ k, (∀ m, m < k →
          findNearestHeatSource (run g s (List.replicate m (.frame delta keys))).people
            (run g s (List.replicate m (.frame delta keys))).droneGroup.position = none ∧
          1 < waypointDistSq target
            (run g s (List.replicate m (.frame delta keys))).droneGroup.position) ∧
        (run g s (List.replicate k (.frame delta keys))).autoMode = true ∧
        (run g s (List.replicate k (.frame delta keys))).manualMode = false ∧
        (run g s (List.replicate k (.frame delta keys))).isInvestigating = false ∧
        (run g s (List.replicate k (.frame delta keys))).people = s.people ∧
        (run g s (List.replicate k (.frame delta keys))).missionPath = s.missionPath ∧
        (run g s (List.replicate k (.frame delta keys))).currentPathIndex =
          s.currentPathIndex ∧
        waypointDistSq target
            (run g s (List.replicate k (.frame delta keys))).droneGroup.position =
          ((1 - NORMAL_SEARCH_SPEED * delta) ^ k) ^ 2 *
            waypointDistSq target s.droneGroup.position ∧
        (waypointDistSq target
            (run g s (List.replicate k (.frame delta keys))).droneGroup.position ≤ 1 ∨
          findNearestHeatSource (run g s (List.replicate k (.frame delta keys))).people
            (run g s (List.replicate k (.frame delta keys))).droneGroup.position ≠ none)) ∨
      ((∀ m, m < n →
          findNearestHeatSource (run g s (List.replicate m (.frame delta keys))).people
            (run g s (List.replicate m (.frame delta keys))).droneGroup.position = none ∧
          1 < waypointDistSq target
            (run g s (List.replicate m (.frame delta keys))).droneGroup.position) ∧
        (run g s (List.replicate n (.frame delta keys))).autoMode = true ∧
        (run g s (List.replicate n (.frame delta keys))).manualMode = false ∧
        (run g s (List.replicate n (.frame delta keys))).isInvestigating = false ∧
        (run g s (List.replicate n (.frame delta keys))).people = s.people ∧
        (run g s (List.replicate n (.frame delta keys))).missionPath = s.missionPath ∧
        (run g s (List.replicate n (.frame delta keys))).currentPathIndex =
          s.currentPathIndex ∧
        waypointDistSq target
            (run g s (List.replicate n (.frame delta keys))).droneGroup.position =
          ((1 - NORMAL_SEARCH_SPEED * delta) ^ n) ^ 2 *
            waypointDistSq target s.droneGroup.position) := by
    intro n
    induction n with
    | zero =>
      right
      refine ⟨fun m hm => absurd hm (Nat.not_lt_zero m), hauto, hman, hinv, rfl, rfl, rfl, ?_⟩
      simp [run]
    | succ n ih =>
      rcases ih with hdone | ⟨hprev, ha, hm, hi, hpp, hpath, hcur, hdist⟩
      · exact Or.inl hdone
      · by_cases hf : findNearestHeatSource
            (run g s (List.replicate n (.frame delta keys))).people
            (run g s (List.replicate n (.frame delta keys))).droneGroup.position = none
        · by_cases hfar : 1 < waypointDistSq target
              (run g s (List.replicate n (.frame delta keys))).droneGroup.position
          · right
            have hidx2 : (run g s (List.replicate n (.frame delta keys))).missionPath[
                (run g s (List.replicate n (.frame delta keys))).currentPathIndex]? =
                some (some target) := by
              rw [hpath, hcur]; exact hidx
            obtain ⟨_, _, _, _, hd2, ha2, hm2, hi2, hpp2, hpath2, hcur2⟩ :=
              move_frame g _ delta keys target ha hm hi hf hidx2 hfar
            rw [run_replicate_succ]
            simp only [step]
            refine ⟨?_, ha2, hm2, hi2, hpp2.trans hpp, hpath2.trans hpath, hcur2.trans hcur, ?_⟩
            · intro m hmn
              rcases Nat.lt_succ_iff_lt_or_eq.mp hmn with hlt | heq
              · exact hprev m hlt
              · rw [heq]; exact ⟨hf, hfar⟩
            · rw [hd2, hdist, pow_succ]
              ring
          · left
            exact ⟨n, hprev, ha, hm, hi, hpp, hpath, hcur, hdist, Or.inl (not_lt.mp hfar)⟩
        · left
          exact ⟨n, hprev, ha, hm, hi, hpp, hpath, hcur, hdist, Or.inr hf⟩
  have hD : 0 ≤ waypointDistSq target s.droneGroup.position := by
    unfold waypointDistSq
    nlinarith [mul_self_nonneg (target.x - s.droneGroup.position.x),
      mul_self_nonneg (target.z - s.droneGroup.position.z),
      mul_self_nonneg (target.y - s.droneGroup.position.y)]
  obtain ⟨n, hn⟩ := exists_scale_lt_one (1 - NORMAL_SEARCH_SPEED * delta) _
    (by linarith) (by linarith) hD
  rcases key n with hdone | ⟨hprev, ha, hm, hi, hpp, hpath, hcur, hdist⟩
  · exact hdone
  · refine ⟨n, hprev, ha, hm, hi, hpp, hpath, hcur, hdist, Or.inl ?_⟩
    rw [← hdist] at hn
    exact le_of_lt hn
/-- A frame of an active investigation leaves the path cursor where it is. -/
theorem investigating_cursor (g : ℚ → ℚ → ℚ) (s : State) (delta : ℚ) (keys : Keys)
    (hinv : s.isInvestigating = true) :
    (animate g s delta keys).currentPathIndex = s.currentPathIndex := by
  rw [(animate_fields g s delta keys).2.2.2.2.2.1]
  by_cases ha : s.autoMode = true
  · simp only [ha, if_true]
    exact (autoBlock_preempt s delta s.missionPath s.currentPathIndex (Or.inl hinv)).2
  · simp [ha]

/-- The approach of an investigation ends: under a constant delta with
`0 < INVESTIGATION_SPEED * delta < 1` the drone is within one unit of the
investigation point after finitely many frames, the investigation still
active, the roster, the path and its cursor unchanged. -/
theorem approach_phase (g : ℚ → ℚ → ℚ) (s : State) (delta : ℚ) (keys : Keys) (i : Nat)
    (p : Person) (hauto : s.autoMode = true) (hman : s.manualMode = false)
    (hinv : s.isInvestigating = true) (ht : s.heatSourceTarget = some i)
    (hp : s.people[i]? = some p)
    (h0 : 0 < INVESTIGATION_SPEED * delta) (h1 : INVESTIGATION_SPEED * delta < 1) :
    ∃ n, (run g s (List.replicate n (.frame delta keys))).autoMode = true ∧
      (run g s (List.replicate n (.frame delta keys))).manualMode = false ∧
      (run g s (List.replicate n (.frame delta keys))).isInvestigating = true ∧
      (run g s (List.replicate n (.frame delta keys))).heatSourceTarget = some i ∧
      (run g s (List.replicate n (.frame delta keys))).people = s.people ∧
      (run g s (List.replicate n (.frame delta keys))).missionPath = s.missionPath ∧
      (run g s (List.replicate n (.frame delta keys))).currentPathIndex = s.currentPathIndex ∧
      hoverDistSq p (run g s (List.replicate n (.frame delta keys))).droneGroup.position < 1 := by
  have key : ∀ n : Nat,
      (∃ k, (run g s (List.replicate k (.frame delta keys))).autoMode = true ∧
        (run g s (List.replicate k (.frame delta keys))).manualMode = false ∧
        (run g s (List.replicate k (.frame delta keys))).isInvestigating = true ∧
        (run g s (List.replicate k (.frame delta keys))).heatSourceTarget = some i ∧
        (run g s (List.replicate k (.frame delta keys))).people = s.people ∧
        (run g s (List.replicate k (.frame delta keys))).missionPath = s.missionPath ∧
        (run g s (List.replicate k (.frame delta keys))).currentPathIndex =
          s.currentPathIndex ∧
        hoverDistSq p
          (run g s (List.replicate k (.frame delta keys))).droneGroup.position < 1) ∨
      ((run g s (List.replicate n (.frame delta keys))).autoMode = true ∧
        (run g s (List.replicate n (.frame delta keys))).manualMode = false ∧
        (run g s (List.replicate n (.frame delta keys))).isInvestigating = true ∧
        (run g s (List.replicate n (.frame delta keys))).heatSourceTarget = some i ∧
        (run g s (List.replicate n (.frame delta keys))).people = s.people ∧
        (run g s (List.replicate n (.frame delta keys))).missionPath = s.missionPath ∧
        (run g s (List.replicate n (.frame delta keys))).currentPathIndex =
          s.currentPathIndex ∧
        hoverDistSq p (run g s (List.replicate n (.frame delta keys))).droneGroup.position =
          ((1 - INVESTIGATION_SPEED * delta) ^ n) ^ 2 *
            hoverDistSq p s.droneGroup.position) := by
    intro n
    induction n with
    | zero =>
      right
      refine ⟨hauto, hman, hinv, ht, rfl, rfl, rfl, ?_⟩
      simp [run]
    | succ n ih =>
      rcases ih with hdone | ⟨ha, hm, hi, htg, hpp, hpath, hcur, hdist⟩
      · exact Or.inl hdone
      · have hp2 : (run g s (List.replicate n (.frame delta keys))).people[i]? = some p := by
          rw [hpp]; exact hp
        by_cases hnear : hoverDistSq p
            (run g s (List.replicate n (.frame delta keys))).droneGroup.position < 1
        · left
          exact ⟨n, ha, hm, hi, htg, hpp, hpath, hcur, hnear⟩
        · right
          obtain ⟨_, _, _, _, hd2, ha2, hm2, hi2, ht2, hpp2⟩ :=
            approach_frame g _ delta keys i p ha hm hi htg hp2 hnear
          have hpath2 := (animate_fields g (run g s (List.replicate n (.frame delta keys)))
            delta keys).2.2.2.2.2.2.2.1
          have hcur2 := investigating_cursor g
            (run g s (List.replicate n (.frame delta keys))) delta keys hi
          rw [run_replicate_succ]
          simp only [step]
          refine ⟨ha2, hm2, hi2, ht2, hpp2.trans hpp, hpath2.trans hpath, hcur2.trans hcur, ?_⟩
          rw [hd2, hdist, pow_succ]
          ring
  have hD : 0 ≤ hoverDistSq p s.droneGroup.position := by
    unfold hoverDistSq
    nlinarith [mul_self_nonneg (p.position.x - s.droneGroup.position.x),
      mul_self_nonneg (p.position.z - s.droneGroup.position.z),
      mul_self_nonneg (p.position.y + INVESTIGATION_HEIGHT - s.droneGroup.position.y)]
  obtain ⟨n, hn⟩ := exists_scale_lt_one (1 - INVESTIGATION_SPEED * delta) _
    (by linarith) (by linarith) hD
  rcases key n with hdone | ⟨ha, hm, hi, htg, hpp, hpath, hcur, hdist⟩
  · exact hdone
  · refine ⟨n, ha, hm, hi, htg, hpp, hpath, hcur, ?_⟩
    rw [hdist]
    exact hn

/-- The hover of an investigation ends: under a constant positive delta the
target is marked detected after finitely many frames and the investigation is
over, the path and its cursor unchanged. -/
theorem hover_phase (g : ℚ → ℚ → ℚ) (s : State) (delta : ℚ) (keys : Keys) (i : Nat)
    (p : Person) (hauto : s.autoMode = true) (hman : s.manualMode = false)
    (hinv : s.isInvestigating = true) (ht : s.heatSourceTarget = some i)
    (hp : s.people[i]? = some p) (hund : p.detected = false)
    (hnear : hoverDistSq p s.droneGroup.position < 1) (hd : 0 < delta) :
    ∃ n, (run g s (List.replicate n (.frame delta keys))).autoMode = true ∧
      (run g s (List.replicate n (.frame delta keys))).manualMode = false ∧
      (run g s (List.replicate n (.frame delta keys))).isInvestigating = false ∧
      (run g s (List.replicate n (.frame delta keys))).people =
        s.people.set i { p with detected := true } ∧
      (run g s (List.replicate n (.frame delta keys))).missionPath = s.missionPath ∧
      (run g s (List.replicate n (.frame delta keys))).currentPathIndex =
        s.currentPathIndex := by
  have key : ∀ n : Nat,
      (∃ k, (run g s (List.replicate k (.frame delta keys))).autoMode = true ∧
        (run g s (List.replicate k (.frame delta keys))).manualMode = false ∧
        (run g s (List.replicate k (.frame delta keys))).isInvestigating = false ∧
        (run g s (List.replicate k (.frame delta keys))).people =
          s.people.set i { p with detected := true } ∧
        (run g s (List.replicate k (.frame delta keys))).missionPath = s.missionPath ∧
        (run g s (List.replicate k (.frame delta keys))).currentPathIndex =
          s.currentPathIndex) ∨
      ((run g s (List.replicate n (.frame delta keys))).autoMode = true ∧
        (run g s (List.replicate n (.frame delta keys))).manualMode = false ∧
        (run g s (List.replicate n (.frame delta keys))).isInvestigating = true ∧
        (run g s (List.replicate n (.frame delta keys))).heatSourceTarget = some i ∧
        (run g s (List.replicate n (.frame delta keys))).people = s.people ∧
        (run g s (List.replicate n (.frame delta keys))).missionPath = s.missionPath ∧
        (run g s (List.replicate n (.frame delta keys))).currentPathIndex =
          s.currentPathIndex ∧
        (run g s (List.replicate n (.frame delta keys))).droneGroup = s.droneGroup ∧
        (run g s (List.replicate n (.frame delta keys))).hoverTimer =
          s.hoverTimer + n * delta ∧
        (n = 0 ∨ (run g s (List.replicate n (.frame delta keys))).hoverTimer < HOVER_TIME)) := by
    intro n
    induction n with
    | zero =>
      right
      refine ⟨hauto, hman, hinv, ht, rfl, rfl, rfl, rfl, ?_, Or.inl rfl⟩
      simp [run]
    | succ n ih =>
      rcases ih with hdone | ⟨ha, hm, hi, htg, hpp, hpath, hcur, hdg, htime, _⟩
      · exact Or.inl hdone
      · have hp2 : (run g s (List.replicate n (.frame delta keys))).people[i]? = some p := by
          rw [hpp]; exact hp
        have hnear2 : hoverDistSq p
            (run g s (List.replicate n (.frame delta keys))).droneGroup.position < 1 := by
          rw [hdg]; exact hnear
        have hpath2 := (animate_fields g (run g s (List.replicate n (.frame delta keys)))
          delta keys).2.2.2.2.2.2.2.1
        have hcur2 := investigating_cursor g
          (run g s (List.replicate n (.frame delta keys))) delta keys hi
        by_cases hfin : HOVER_TIME ≤
            (run g s (List.replicate n (.frame delta keys))).hoverTimer + delta
        · left
          refine ⟨n + 1, ?_⟩
          rw [run_replicate_succ]
          simp only [step]
          refine ⟨?_, ?_, ?_, ?_, hpath2.trans hpath, hcur2.trans hcur⟩
          all_goals
            rw [animate_auto g _ delta keys ha hm, autoBlock_investigating _ i delta hi htg,
              investigateHeatSource_done _ i p delta hp2 hnear2 hfin hund]
            simp [ha, hm, hpp]
        · right
          rw [run_replicate_succ]
          simp only [step]
          refine ⟨?_, ?_, ?_, ?_, ?_, hpath2.trans hpath, hcur2.trans hcur, ?_, ?_, ?_⟩
          all_goals
            rw [animate_auto g _ delta keys ha hm, autoBlock_investigating _ i delta hi htg,
              investigateHeatSource_wait _ i p delta hp2 hnear2 (fun hc => hfin hc.1)]
            simp only [Bool.false_eq_true, if_false]
          · exact ha
          · exact hm
          · exact hi
          · exact htg
          · exact hpp
          · exact hdg
          · rw [htime]
            push_cast
            ring
          · exact Or.inr (not_le.mp hfin)
  obtain ⟨N, hN⟩ := exists_nat_gt ((HOVER_TIME - s.hoverTimer) / delta)
  rcases key (N + 1) with hdone | ⟨_, _, _, _, _, _, _, _, htime, hlt⟩
  · exact hdone
  · exfalso
    rcases hlt with h0 | hlt
    · omega
    · rw [htime] at hlt
      rw [div_lt_iff₀ hd] at hN
      push_cast at hlt
      linarith
theorem run_replicate_add (g : ℚ → ℚ → ℚ) (s : State) (e : Event) (a b : Nat) :
    run g s (List.replicate (a + b) e) =
      run g (run g s (List.replicate a e)) (List.replicate b e) := by
  rw [List.replicate_add, run_append]

/-- An investigation started by the detector ends: under a constant delta with
`0 < INVESTIGATION_SPEED * delta < 1`, after finitely many frames the person
found is marked detected and the investigation is over, the path and its cursor
unchanged. -/
theorem investigation_phase (g : ℚ → ℚ → ℚ) (s : State) (delta : ℚ) (keys : Keys) (e : Nat)
    (hauto : s.autoMode = true) (hman : s.manualMode = false)
    (hinv : s.isInvestigating = false)
    (hf : findNearestHeatSource s.people s.droneGroup.position = some e)
    (h0 : 0 < INVESTIGATION_SPEED * delta) (h1 : INVESTIGATION_SPEED * delta < 1) :
    ∃ n p, s.people[e]? = some p ∧ p.detected = false ∧
      (run g s (List.replicate n (.frame delta keys))).autoMode = true ∧
      (run g s (List.replicate n (.frame delta keys))).manualMode = false ∧
      (run g s (List.replicate n (.frame delta keys))).isInvestigating = false ∧
      (run g s (List.replicate n (.frame delta keys))).people =
        s.people.set e { p with detected := true } ∧
      (run g s (List.replicate n (.frame delta keys))).missionPath = s.missionPath ∧
      (run g s (List.replicate n (.frame delta keys))).currentPathIndex =
        s.currentPathIndex := by
  obtain ⟨p, hp, hund, _, _⟩ := findNearestHeatSource_sound s.people s.droneGroup.position e hf
  have hund2 : p.detected = false := by simpa using hund
  have hd : 0 < delta := by
    unfold INVESTIGATION_SPEED at h0
    linarith
  have hacq : run g s (List.replicate 1 (.frame delta keys)) =
      { s with
        heatSourceTarget := some e
        isInvestigating := true
        hoverTimer := 0
        investigationComplete := false } := by
    simp only [List.replicate, run, List.foldl, step]
    rw [animate_auto g s delta keys hauto hman, autoBlock_acquire s e delta hinv hf]
  obtain ⟨n1, ha1, hm1, hi1, ht1, hpp1, hpath1, hcur1, hnear1⟩ :=
    approach_phase g (run g s (List.replicate 1 (.frame delta keys))) delta keys e p
      (by rw [hacq]; exact hauto) (by rw [hacq]; exact hman) (by rw [hacq])
      (by rw [hacq]) (by rw [hacq]; exact hp) h0 h1
  have hp1 : (run g (run g s (List.replicate 1 (.frame delta keys)))
      (List.replicate n1 (.frame delta keys))).people[e]? = some p := by
    rw [hpp1, hacq]; exact hp
  obtain ⟨n2, ha2, hm2, hi2, hpp2, hpath2, hcur2⟩ :=
    hover_phase g _ delta keys e p ha1 hm1 hi1 ht1 hp1 hund2 hnear1 hd
  refine ⟨1 + n1 + n2, p, hp, hund2, ?_⟩
  rw [run_replicate_add, run_replicate_add]
  refine ⟨ha2, hm2, hi2, ?_, ?_, ?_⟩
  · rw [hpp2, hpp1, hacq]
  · rw [hpath2, hpath1, hacq]
  · rw [hcur2, hcur1, hacq]

/-- The current way point is reached.  Under a constant delta with
`0 < NORMAL_SEARCH_SPEED * delta < 1`, from any autonomous state that is
following the path, whatever the roster, the drone is after finitely many
frames within distance 1 of the way point under the cursor, the cursor still on
it and no investigation active: every investigation the detector starts on the
way ends, and marks one more person. -/
theorem waypoint_reached (g : ℚ → ℚ → ℚ) (delta : ℚ) (keys : Keys) (target : Waypoint)
    (h0 : 0 < NORMAL_SEARCH_SPEED * delta) (h1 : NORMAL_SEARCH_SPEED * delta < 1) :
    ∀ (k : Nat) (s : State), s.people.countP (fun q => !q.detected) = k →
      s.autoMode = true → s.manualMode = false → s.isInvestigating = false →
      s.missionPath[s.currentPathIndex]? = some (some target) →
      ∃ n, (run g s (List.replicate n (.frame delta keys))).currentPathIndex =
          s.currentPathIndex ∧
        (run g s (List.replicate n (.frame delta keys))).isInvestigating = false ∧
        waypointDistSq target
          (run g s (List.replicate n (.frame delta keys))).droneGroup.position ≤ 1 := by
  have hd : 0 < delta := by
    unfold NORMAL_SEARCH_SPEED at h0
    linarith
  have hi0 : 0 < INVESTIGATION_SPEED * delta := by
    unfold INVESTIGATION_SPEED
    linarith
  have hi1 : INVESTIGATION_SPEED * delta < 1 := by
    unfold INVESTIGATION_SPEED
    unfold NORMAL_SEARCH_SPEED at h1
    linarith
  intro k
  induction k with
  | zero =>
    intro s hk hauto hman hinv hidx
    obtain ⟨n, _, ha, hm, hi, hpp, hpath, hcur, _, hend⟩ :=
      path_phase g s delta keys target hauto hman hinv hidx h0 h1
    rcases hend with hnear | hfound
    · exact ⟨n, hcur, hi, hnear⟩
    · exfalso
      obtain ⟨e, he⟩ : ∃ e, findNearestHeatSource
          (run g s (List.replicate n (.frame delta keys))).people
          (run g s (List.replicate n (.frame delta keys))).droneGroup.position = some e :=
        Option.ne_none_iff_exists'.mp hfound
      obtain ⟨p, hp, hund, _, _⟩ := findNearestHeatSource_sound _ _ e he
      rw [hpp] at hp
      have hmem : p ∈ s.people := List.getElem?_mem hp
      have hpos : 0 < s.people.countP (fun q => !q.detected) :=
        List.countP_pos_iff.mpr ⟨p, hmem, by simpa using hund⟩
      omega
  | succ k ih =>
    intro s hk hauto hman hinv hidx
    obtain ⟨n, _, ha, hm, hi, hpp, hpath, hcur, _, hend⟩ :=
      path_phase g s delta keys target hauto hman hinv hidx h0 h1
    rcases hend with hnear | hfound
    · exact ⟨n, hcur, hi, hnear⟩
    · obtain ⟨e, he⟩ : ∃ e, findNearestHeatSource
          (run g s (List.replicate n (.frame delta keys))).people
          (run g s (List.replicate n (.frame delta keys))).droneGroup.position = some e :=
        Option.ne_none_iff_exists'.mp hfound
      obtain ⟨n2, p, hp, hund, ha2, hm2, hi2, hpp2, hpath2, hcur2⟩ :=
        investigation_phase g _ delta keys e ha hm hi he hi0 hi1
      have hcount : (run g (run g s (List.replicate n (.frame delta keys)))
          (List.replicate n2 (.frame delta keys))).people.countP (fun q => !q.detected) = k := by
        have := countP_set_undetected _ e p hp hund
        rw [hpp2]
        rw [hpp] at this ⊢
        omega
      have hidx2 : (run g (run g s (List.replicate n (.frame delta keys)))
          (List.replicate n2 (.frame delta keys))).missionPath[
          (run g (run g s (List.replicate n (.frame delta keys)))
            (List.replicate n2 (.frame delta keys))).currentPathIndex]? =
          some (some target) := by
        rw [hpath2, hcur2, hpath, hcur]; exact hidx
      obtain ⟨n3, hcur3, hi3, hnear3⟩ := ih _ hcount ha2 hm2 hi2 hidx2
      refine ⟨n + n2 + n3, ?_⟩
      rw [run_replicate_add, run_replicate_add]
      exact ⟨by rw [hcur3, hcur2, hcur], hi3, hnear3⟩

/-- C25, as amended: movement is linear interpolation.  In an investigation frame
at distance at least 1 (speed 0.8, target the person's position raised by 30)
and in a path-following frame at distance above 1 (speed 1.5, target
`path[cursor]`) the new position is `p + s * delta * (target - p)`
componentwise, so the offset to the target is scaled by exactly `1 - s * delta`
and the squared distance by its square; for `0 < s * delta < 1` the drone ends
strictly closer; under a constant such delta an investigation brings the
distance below 1 after finitely many frames, and path following brings it to
at most 1, where the way point counts as reached: the path-following frames
that move toward the way point contract the squared distance geometrically and
are finitely many, ending at distance at most 1 or with a target found by the
detector, and whatever the roster the drone is within distance 1 of the way
point after finitely many frames, the cursor still on it, every investigation
started on the way having ended. -/
theorem movement_interpolation :
    (∀ (g : ℚ → ℚ → ℚ) (s : State) (delta : ℚ) (keys : Keys) (i : Nat) (p : Person),
      s.autoMode = true → s.manualMode = false → s.isInvestigating = true →
      s.heatSourceTarget = some i → s.people[i]? = some p →
      ¬ hoverDistSq p s.droneGroup.position < 1 →
      (animate g s delta keys).droneGroup.position =
        ⟨s.droneGroup.position.x +
            INVESTIGATION_SPEED * delta * (p.position.x - s.droneGroup.position.x),
          s.droneGroup.position.y +
            INVESTIGATION_SPEED * delta *
              (p.position.y + INVESTIGATION_HEIGHT - s.droneGroup.position.y),
          s.droneGroup.position.z +
            INVESTIGATION_SPEED * delta * (p.position.z - s.droneGroup.position.z)⟩ ∧
      p.position.x - (animate g s delta keys).droneGroup.position.x =
        (1 - INVESTIGATION_SPEED * delta) * (p.position.x - s.droneGroup.position.x) ∧
      p.position.y + INVESTIGATION_HEIGHT - (animate g s delta keys).droneGroup.position.y =
        (1 - INVESTIGATION_SPEED * delta) *
          (p.position.y + INVESTIGATION_HEIGHT - s.droneGroup.position.y) ∧
      p.position.z - (animate g s delta keys).droneGroup.position.z =
        (1 - INVESTIGATION_SPEED * delta) * (p.position.z - s.droneGroup.position.z) ∧
      hoverDistSq p (animate g s delta keys).droneGroup.position =
        (1 - INVESTIGATION_SPEED * delta) ^ 2 * hoverDistSq p s.droneGroup.position ∧
      (0 < INVESTIGATION_SPEED * delta → INVESTIGATION_SPEED * delta < 1 →
        hoverDistSq p (animate g s delta keys).droneGroup.position <
          hoverDistSq p s.droneGroup.position)) ∧
    (∀ (g : ℚ → ℚ → ℚ) (s : State) (delta : ℚ) (keys : Keys) (target : Waypoint),
      s.autoMode = true → s.manualMode = false → s.isInvestigating = false →
      findNearestHeatSource s.people s.droneGroup.position = none →
      s.missionPath[s.currentPathIndex]? = some (some target) →
      1 < waypointDistSq target s.droneGroup.position →
      (animate g s delta keys).droneGroup.position =
        ⟨s.droneGroup.position.x +
            NORMAL_SEARCH_SPEED * delta * (target.x - s.droneGroup.position.x),
          s.droneGroup.position.y +
            NORMAL_SEARCH_SPEED * delta * (target.y - s.droneGroup.position.y),
          s.droneGroup.position.z +
            NORMAL_SEARCH_SPEED * delta * (target.z - s.droneGroup.position.z)⟩ ∧
      target.x - (animate g s delta keys).droneGroup.position.x =
        (1 - NORMAL_SEARCH_SPEED * delta) * (target.x - s.droneGroup.position.x) ∧
      target.y - (animate g s delta keys).droneGroup.position.y =
        (1 - NORMAL_SEARCH_SPEED * delta) * (target.y - s.droneGroup.position.y) ∧
      target.z - (animate g s delta keys).droneGroup.position.z =
        (1 - NORMAL_SEARCH_SPEED * delta) * (target.z - s.droneGroup.position.z) ∧
      waypointDistSq target (animate g s delta keys).droneGroup.position =
        (1 - NORMAL_SEARCH_SPEED * delta) ^ 2 * waypointDistSq target s.droneGroup.position ∧
      (0 < NORMAL_SEARCH_SPEED * delta → NORMAL_SEARCH_SPEED * delta < 1 →
        waypointDistSq target (animate g s delta keys).droneGroup.position <
          waypointDistSq target s.droneGroup.position)) ∧
    (∀ (g : ℚ → ℚ → ℚ) (s : State) (delta : ℚ) (keys : Keys) (i : Nat) (p : Person),
      s.autoMode = true → s.manualMode = false → s.isInvestigating = true →
      s.heatSourceTarget = some i → s.people[i]? = some p →
      0 < INVESTIGATION_SPEED * delta → INVESTIGATION_SPEED * delta < 1 →
      ∃ n, (run g s (List.replicate n (.frame delta keys))).hoversOver i = true) ∧
    (∀ (g : ℚ → ℚ → ℚ) (s : State) (delta : ℚ) (keys : Keys) (target : Waypoint),
      s.autoMode = true → s.manualMode = false → s.isInvestigating = false →
      s.missionPath[s.currentPathIndex]? = some (some target) →
      0 < NORMAL_SEARCH_SPEED * delta → NORMAL_SEARCH_SPEED * delta < 1 →
      ∃ n, (∀ m, m < n →
          findNearestHeatSource (run g s (List.replicate m (.frame delta keys))).people
            (run g s (List.replicate m (.frame delta keys))).droneGroup.position = none ∧
          1 < waypointDistSq target
            (run g s (List.replicate m (.frame delta keys))).droneGroup.position) ∧
        (run g s (List.replicate n (.frame delta keys))).currentPathIndex =
          s.currentPathIndex ∧
        waypointDistSq target
            (run g s (List.replicate n (.frame delta keys))).droneGroup.position =
          ((1 - NORMAL_SEARCH_SPEED * delta) ^ n) ^ 2 *
            waypointDistSq target s.droneGroup.position ∧
        (waypointDistSq target
            (run g s (List.replicate n (.frame delta keys))).droneGroup.position ≤ 1 ∨
          findNearestHeatSource (run g s (List.replicate n (.frame delta keys))).people
            (run g s (List.replicate n (.frame delta keys))).droneGroup.position ≠ none)) ∧
    (∀ (g : ℚ → ℚ → ℚ) (s : State) (delta : ℚ) (keys : Keys) (target : Waypoint),
      s.autoMode = true → s.manualMode = false → s.isInvestigating = false →
      s.missionPath[s.currentPathIndex]? = some (some target) →
      0 < NORMAL_SEARCH_SPEED * delta → NORMAL_SEARCH_SPEED * delta < 1 →
      ∃ n, (run g s (List.replicate n (.frame delta keys))).currentPathIndex =
          s.currentPathIndex ∧
        (run g s (List.replicate n (.frame delta keys))).isInvestigating = false ∧
        waypointDistSq target
          (run g s (List.replicate n (.frame delta keys))).droneGroup.position ≤ 1) := by
  refine ⟨?_, ?_, approach_arrives, ?_, ?_⟩
  · intro g s delta keys i p hauto hman hinv ht hp hfar
    obtain ⟨h1, h2, h3, h4, h5, _⟩ := approach_frame g s delta keys i p hauto hman hinv ht hp hfar
    refine ⟨h1, h2, h3, h4, h5, ?_⟩
    intro h0 hlt
    rw [h5]
    exact sq_scale_lt _ _ (by linarith) (by linarith) (by linarith [not_lt.mp hfar])
  · intro g s delta keys target hauto hman hinv hf hidx hfar
    obtain ⟨h1, h2, h3, h4, h5, _⟩ := move_frame g s delta keys target hauto hman hinv hf hidx hfar
    refine ⟨h1, h2, h3, h4, h5, ?_⟩
    intro h0 hlt
    rw [h5]
    exact sq_scale_lt _ _ (by linarith) (by linarith) (by linarith)
  · intro g s delta keys target hauto hman hinv hidx h0 h1
    obtain ⟨n, hprev, _, _, _, _, _, hcur, hdist, hend⟩ :=
      path_phase g s delta keys target hauto hman hinv hidx h0 h1
    exact ⟨n, hprev, hcur, hdist, hend⟩
  · intro g s delta keys target hauto hman hinv hidx h0 h1
    exact waypoint_reached g delta keys target h0 h1 _ s rfl hauto hman hinv hidx

/-- C25, as amended, at the second frame of the scenario (the first approach
frame, delta 0.1): the squared distance to `(5, 30, 5)` shrinks. -/
theorem movement_interpolation_witness :
    hoverDistSq scenarioPerson
        (animate flatTerrain (scenarioState (0 + 1)) 0.1 Keys.released).droneGroup.position <
      hoverDistSq scenarioPerson (scenarioState (0 + 1)).droneGroup.position := by
  obtain ⟨ha, hm, hi, ht, hp, _, _, hpos⟩ := scenario_approach 0 (by omega)
  have hp0 : (scenarioState (0 + 1)).people[0]? = some scenarioPerson := by rw [hp]; rfl
  have hfar : ¬ hoverDistSq scenarioPerson (scenarioState (0 + 1)).droneGroup.position < 1 := by
    rw [hpos]
    norm_num [hoverDistSq, scenarioPerson, INVESTIGATION_HEIGHT]
  exact (movement_interpolation.1 flatTerrain (scenarioState (0 + 1)) 0.1 Keys.released 0
    scenarioPerson ha hm hi ht hp0 hfar).2.2.2.2.2
    (by norm_num [INVESTIGATION_SPEED]) (by norm_num [INVESTIGATION_SPEED])

/-- C25 as stated fails for path following: from `landingState` (distance 2 to the
way point, `NORMAL_SEARCH_SPEED * delta = 1/2`) the first frame moves the drone
to distance exactly 1, where the way point counts as reached; the distance to
it never falls below 1. -/
theorem movement_lands_on_threshold_counterexample :
    0 < NORMAL_SEARCH_SPEED * (1 / 3) ∧ NORMAL_SEARCH_SPEED * (1 / 3) < 1 ∧
    landingState.missionPath[landingState.currentPathIndex]? = some (some ⟨0, 50, 0⟩) ∧
    1 < waypointDistSq ⟨0, 50, 0⟩ landingState.droneGroup.position ∧
    ¬ ∃ n, waypointDistSq ⟨0, 50, 0⟩
      (run flatTerrain landingState
        (List.replicate n (.frame (1 / 3) Keys.released))).droneGroup.position < 1 := by
  refine ⟨by norm_num [NORMAL_SEARCH_SPEED], by norm_num [NORMAL_SEARCH_SPEED], rfl,
    by norm_num [waypointDistSq, landingState, initialState], ?_⟩
  rintro ⟨n, hn⟩
  obtain ⟨_, _, _, _, _, hx, hz, hy⟩ := landing_inv n
  unfold waypointDistSq at hn
  rw [hx, hz] at hn
  rcases hy with ⟨hy, _⟩ | hy
  · rw [hy] at hn; norm_num at hn
  · rw [hy] at hn; norm_num at hn

/-! ## Search pattern in double precision -/

/-- Evaluation of `Binary64.round` from the binary exponent `e` of `q` and the
floor `f` of `q` in units of the last place. -/
theorem Binary64.round_of_floor (q : ℚ) (f e : ℤ) (h1 : (2 : ℚ) ^ e ≤ |q|)
    (h2 : |q| < (2 : ℚ) ^ (e + 1)) (hf : (f : ℚ) ≤ q / 2 ^ (e - 52))
    (hf2 : q / 2 ^ (e - 52) < f + 1) :
    Binary64.round q =
      ((if q / 2 ^ (e - 52) - f < 1 / 2 then f
        else if 1 / 2 < q / 2 ^ (e - 52) - f then f + 1
        else if f % 2 = 0 then f
        else f + 1 : ℤ) : ℚ) * 2 ^ (e - 52) := by
  have hpos : (0 : ℚ) < |q| := lt_of_lt_of_le (by positivity) h1
  have hq : q ≠ 0 := abs_pos.mp hpos
  have hlog : Int.log 2 |q| = e := by
    apply le_antisymm
    · have := (Int.lt_zpow_iff_log_lt (b := 2) (by norm_num) hpos (x := e + 1)).mp
        (by exact_mod_cast h2)
      omega
    · exact (Int.zpow_le_iff_le_log (b := 2) (by norm_num) hpos).mp (by exact_mod_cast h1)
  have hfl : ⌊q / 2 ^ (e - 52)⌋ = f := Int.floor_eq_iff.mpr ⟨hf, hf2⟩
  unfold Binary64.round
  rw [if_neg hq]
  simp only [hlog, hfl]

/-- One row of the double-precision loop that is followed by another row. -/
theorem Binary64.loop_row (gridMinX gridMaxX gridMaxZ lineSpacing : ℚ) (fuel : Nat)
    (z z1 : ℚ) (goingRight : Bool) (path : List Waypoint) (hz : z ≤ gridMaxZ)
    (hr : Binary64.round (z + lineSpacing) = z1) (hn : z1 ≤ gridMaxZ) :
    Binary64.generateGridSearchPattern.loop gridMinX gridMaxX gridMaxZ lineSpacing (fuel + 1)
        z goingRight path =
      Binary64.generateGridSearchPattern.loop gridMinX gridMaxX gridMaxZ lineSpacing fuel
        z1 (!goingRight)
        (path ++ [⟨if goingRight then gridMaxX else gridMinX, SEARCH_PATTERN_HEIGHT, z⟩,
          ⟨if goingRight then gridMaxX else gridMinX, SEARCH_PATTERN_HEIGHT, z1⟩]) := by
  rw [Binary64.generateGridSearchPattern.loop]
  cases goingRight <;> simp [hz, hr, hn]

/-- The last row of the double-precision loop: the next value of the counter
exceeds `gridMaxZ`. -/
theorem Binary64.loop_last (gridMinX gridMaxX gridMaxZ lineSpacing : ℚ) (fuel : Nat)
    (z z1 : ℚ) (goingRight : Bool) (path : List Waypoint) (hz : z ≤ gridMaxZ)
    (hr : Binary64.round (z + lineSpacing) = z1) (hn : ¬ z1 ≤ gridMaxZ) :
    Binary64.generateGridSearchPattern.loop gridMinX gridMaxX gridMaxZ lineSpacing (fuel + 2)
        z goingRight path =
      some (path ++ [⟨if goingRight then gridMaxX else gridMinX, SEARCH_PATTERN_HEIGHT, z⟩]) := by
  rw [Binary64.generateGridSearchPattern.loop, Binary64.generateGridSearchPattern.loop]
  cases goingRight <;> simp [hz, hr, hn]

/-- More fuel does not change the result of the double-precision loop. -/
theorem Binary64.loop_fuel (gridMinX gridMaxX gridMaxZ lineSpacing : ℚ) (fuel : Nat) :
    ∀ (z : ℚ) (goingRight : Bool) (path result : List Waypoint),
      Binary64.generateGridSearchPattern.loop gridMinX gridMaxX gridMaxZ lineSpacing fuel
          z goingRight path = some result →
      Binary64.generateGridSearchPattern.loop gridMinX gridMaxX gridMaxZ lineSpacing (fuel + 1)
          z goingRight path = some result := by
  induction fuel with
  | zero => intro z goingRight path result h; simp [Binary64.generateGridSearchPattern.loop] at h
  | succ n ih =>
    intro z goingRight path result h
    rw [Binary64.generateGridSearchPattern.loop] at h
    rw [Binary64.generateGridSearchPattern.loop]
    by_cases hz : z ≤ gridMaxZ
    · rw [if_pos hz] at h ⊢
      exact ih _ _ _ _ h
    · rw [if_neg hz] at h ⊢
      exact h

theorem Binary64.rowLoss_path :
    Binary64.generateGridSearchPattern 10 0 rowLossStart = some
      [⟨0, 50, (-3687322194909585 / 140737488355328)⟩,
      ⟨(-90), 50, (-1022106009180569 / 8796093022208)⟩,
      ⟨90, 50, (-1022106009180569 / 8796093022208)⟩,
      ⟨90, 50, (-846184148736409 / 8796093022208)⟩,
      ⟨(-90), 50, (-846184148736409 / 8796093022208)⟩,
      ⟨(-90), 50, (-670262288292249 / 8796093022208)⟩,
      ⟨90, 50, (-670262288292249 / 8796093022208)⟩,
      ⟨90, 50, (-494340427848089 / 8796093022208)⟩,
      ⟨(-90), 50, (-494340427848089 / 8796093022208)⟩,
      ⟨(-90), 50, (-318418567403929 / 8796093022208)⟩,
      ⟨90, 50, (-318418567403929 / 8796093022208)⟩,
      ⟨90, 50, (-142496706959769 / 8796093022208)⟩,
      ⟨(-90), 50, (-142496706959769 / 8796093022208)⟩,
      ⟨(-90), 50, (33425153484391 / 8796093022208)⟩,
      ⟨90, 50, (33425153484391 / 8796093022208)⟩,
      ⟨90, 50, (209347013928551 / 8796093022208)⟩,
      ⟨(-90), 50, (209347013928551 / 8796093022208)⟩,
      ⟨(-90), 50, (385268874372711 / 8796093022208)⟩,
      ⟨90, 50, (385268874372711 / 8796093022208)⟩] := by
  have hhalf : Binary64.round (180 / 2) = 90 := by
    rw [Binary64.round_of_floor _ (6333186975989760) 6 (by norm_num [abs_of_pos]) (by norm_num [abs_of_pos])
      (by norm_num) (by norm_num)]
    norm_num
  have hminX : Binary64.round (0 - 90) = (-90) := by
    rw [Binary64.round_of_floor _ (-6333186975989760) 6 (by norm_num [abs_of_neg]) (by norm_num [abs_of_neg])
      (by norm_num) (by norm_num)]
    norm_num
  have hmaxX : Binary64.round (0 + 90) = 90 := by
    rw [Binary64.round_of_floor _ (6333186975989760) 6 (by norm_num [abs_of_pos]) (by norm_num [abs_of_pos])
      (by norm_num) (by norm_num)]
    norm_num
  have hminZ : Binary64.round ((-3687322194909585 / 140737488355328) - 90) = (-1022106009180569 / 8796093022208) := by
    rw [Binary64.round_of_floor _ (-8176848073444553) 6 (by norm_num [abs_of_neg]) (by norm_num [abs_of_neg])
      (by norm_num) (by norm_num)]
    norm_num
  have hmaxZ : Binary64.round ((-3687322194909585 / 140737488355328) + 90) = (8979051757069935 / 140737488355328) := by
    rw [Binary64.round_of_floor _ (8979051757069935) 5 (by norm_num [abs_of_pos]) (by norm_num [abs_of_pos])
      (by norm_num) (by norm_num)]
    norm_num
  have hz1 : Binary64.round ((-1022106009180569 / 8796093022208) + 20) = (-846184148736409 / 8796093022208) := by
    rw [Binary64.round_of_floor _ (-6769473189891272) 6 (by norm_num [abs_of_neg]) (by norm_num [abs_of_neg])
      (by norm_num) (by norm_num)]
    norm_num
  have hz2 : Binary64.round ((-846184148736409 / 8796093022208) + 20) = (-670262288292249 / 8796093022208) := by
    rw [Binary64.round_of_floor _ (-5362098306337992) 6 (by norm_num [abs_of_neg]) (by norm_num [abs_of_neg])
      (by norm_num) (by norm_num)]
    norm_num
  have hz3 : Binary64.round ((-670262288292249 / 8796093022208) + 20) = (-494340427848089 / 8796093022208) := by
    rw [Binary64.round_of_floor _ (-7909446845569424) 5 (by norm_num [abs_of_neg]) (by norm_num [abs_of_neg])
      (by norm_num) (by norm_num)]
    norm_num
  have hz4 : Binary64.round ((-494340427848089 / 8796093022208) + 20) = (-318418567403929 / 8796093022208) := by
    rw [Binary64.round_of_floor _ (-5094697078462864) 5 (by norm_num [abs_of_neg]) (by norm_num [abs_of_neg])
      (by norm_num) (by norm_num)]
    norm_num
  have hz5 : Binary64.round ((-318418567403929 / 8796093022208) + 20) = (-142496706959769 / 8796093022208) := by
    rw [Binary64.round_of_floor _ (-4559894622712608) 4 (by norm_num [abs_of_neg]) (by norm_num [abs_of_neg])
      (by norm_num) (by norm_num)]
    norm_num
  have hz6 : Binary64.round ((-142496706959769 / 8796093022208) + 20) = (33425153484391 / 8796093022208) := by
    rw [Binary64.round_of_floor _ (8556839292004096) 1 (by norm_num [abs_of_pos]) (by norm_num [abs_of_pos])
      (by norm_num) (by norm_num)]
    norm_num
  have hz7 : Binary64.round ((33425153484391 / 8796093022208) + 20) = (209347013928551 / 8796093022208) := by
    rw [Binary64.round_of_floor _ (6699104445713632) 4 (by norm_num [abs_of_pos]) (by norm_num [abs_of_pos])
      (by norm_num) (by norm_num)]
    norm_num
  have hz8 : Binary64.round ((209347013928551 / 8796093022208) + 20) = (385268874372711 / 8796093022208) := by
    rw [Binary64.round_of_floor _ (6164301989963376) 5 (by norm_num [abs_of_pos]) (by norm_num [abs_of_pos])
      (by norm_num) (by norm_num)]
    norm_num
  have hz9 : Binary64.round ((385268874372711 / 8796093022208) + 20) = (561190734816871 / 8796093022208) := by
    rw [Binary64.round_of_floor _ (8979051757069936) 5 (by norm_num [abs_of_pos]) (by norm_num [abs_of_pos])
      (by norm_num) (by norm_num)]
    norm_num
  unfold Binary64.generateGridSearchPattern rowLossStart
  simp only [hhalf, hminX, hmaxX, hminZ, hmaxZ]
  rw [Binary64.loop_row _ _ _ _ _ _ _ _ _ (by norm_num) hz1 (by norm_num),
    Binary64.loop_row _ _ _ _ _ _ _ _ _ (by norm_num) hz2 (by norm_num),
    Binary64.loop_row _ _ _ _ _ _ _ _ _ (by norm_num) hz3 (by norm_num),
    Binary64.loop_row _ _ _ _ _ _ _ _ _ (by norm_num) hz4 (by norm_num),
    Binary64.loop_row _ _ _ _ _ _ _ _ _ (by norm_num) hz5 (by norm_num),
    Binary64.loop_row _ _ _ _ _ _ _ _ _ (by norm_num) hz6 (by norm_num),
    Binary64.loop_row _ _ _ _ _ _ _ _ _ (by norm_num) hz7 (by norm_num),
    Binary64.loop_row _ _ _ _ _ _ _ _ _ (by norm_num) hz8 (by norm_num),
    Binary64.loop_last _ _ _ _ _ _ _ _ _ (by norm_num) hz9 (by norm_num)]
  simp [SEARCH_PATTERN_HEIGHT]

/-- The double nearest to the literal `0.2`. -/
theorem Binary64.moveSpeed_eq : Binary64.moveSpeed = 3602879701896397 / 18014398509481984 := by
  unfold Binary64.moveSpeed
  rw [Binary64.round_of_floor _ (7205759403792793) (-3) (by norm_num [abs_of_pos]) (by norm_num [abs_of_pos])
    (by norm_num) (by norm_num)]
  norm_num

/-- Evaluation of one `ArrowUp` frame on doubles. -/
theorem Binary64.arrowUp_eval (z z1 : ℚ) (f e : ℤ)
    (h1 : (2 : ℚ) ^ e ≤ -(z - 3602879701896397 / 18014398509481984))
    (h2 : -(z - 3602879701896397 / 18014398509481984) < (2 : ℚ) ^ (e + 1))
    (hf : (f : ℚ) ≤ (z - 3602879701896397 / 18014398509481984) / 2 ^ (e - 52))
    (hf2 : (z - 3602879701896397 / 18014398509481984) / 2 ^ (e - 52) < f + 1)
    (hv : ((if (z - 3602879701896397 / 18014398509481984) / 2 ^ (e - 52) - f < 1 / 2 then f
        else if 1 / 2 < (z - 3602879701896397 / 18014398509481984) / 2 ^ (e - 52) - f then f + 1
        else if f % 2 = 0 then f
        else f + 1 : ℤ) : ℚ) * 2 ^ (e - 52) = z1) :
    Binary64.arrowUp z = z1 := by
  have hneg : z - 3602879701896397 / 18014398509481984 < 0 := by
    have : (0 : ℚ) < 2 ^ e := by positivity
    linarith
  unfold Binary64.arrowUp
  rw [Binary64.moveSpeed_eq, Binary64.round_of_floor _ f e (by rw [abs_of_neg hneg]; exact h1)
    (by rw [abs_of_neg hneg]; exact h2) hf hf2, hv]

/-- One hundred and thirty-one `ArrowUp` frames on doubles, starting from `z = 0`, end at
`rowLossStart`. -/
theorem Binary64.rowLossStart_reached : Binary64.arrowUp^[131] 0 = rowLossStart := by
  rw [Function.iterate_succ_apply, Binary64.arrowUp_eval 0 (-3602879701896397 / 18014398509481984) (-7205759403792794) (-3)
    (by norm_num) (by norm_num) (by norm_num) (by norm_num) (by norm_num)]
  rw [Function.iterate_succ_apply, Binary64.arrowUp_eval (-3602879701896397 / 18014398509481984) (-3602879701896397 / 9007199254740992) (-7205759403792794) (-2)
    (by norm_num) (by norm_num) (by norm_num) (by norm_num) (by norm_num)]
  rw [Function.iterate_succ_apply, Binary64.arrowUp_eval (-3602879701896397 / 9007199254740992) (-1351079888211149 / 2251799813685248) (-5404319552844596) (-1)
    (by norm_num) (by norm_num) (by norm_num) (by norm_num) (by norm_num)]
  rw [Function.iterate_succ_apply, Binary64.arrowUp_eval (-1351079888211149 / 2251799813685248) (-3602879701896397 / 4503599627370496) (-7205759403792795) (-1)
    (by norm_num) (by norm_num) (by norm_num) (by norm_num) (by norm_num)]
  rw [Function.iterate_succ_apply, Binary64.arrowUp_eval (-3602879701896397 / 4503599627370496) (-1) (-4503599627370497) (0)
    (by norm_num) (by norm_num) (by norm_num) (by norm_num) (by norm_num)]
  rw [Function.iterate_succ_apply, Binary64.arrowUp_eval (-1) (-5404319552844595 / 4503599627370496) (-5404319552844596) (0)
    (by norm_num) (by norm_num) (by norm_num) (by norm_num) (by norm_num)]
  rw [Function.iterate_succ_apply, Binary64.arrowUp_eval (-5404319552844595 / 4503599627370496) (-3152519739159347 / 2251799813685248) (-6305039478318695) (0)
    (by norm_num) (by norm_num) (by norm_num) (by norm_num) (by norm_num)]
  rw [Function.iterate_succ_apply, Binary64.arrowUp_eval (-3152519739159347 / 2251799813685248) (-7205759403792793 / 4503599627370496) (-7205759403792794) (0)
    (by norm_num) (by norm_num) (by norm_num) (by norm_num) (by norm_num)]
  rw [Function.iterate_succ_apply, Binary64.arrowUp_eval (-7205759403792793 / 4503599627370496) (-2026619832316723 / 1125899906842624) (-8106479329266893) (0)
    (by norm_num) (by norm_num) (by norm_num) (by norm_num) (by norm_num)]
  rw [Function.iterate_succ_apply, Binary64.arrowUp_eval (-2026619832316723 / 1125899906842624) (-9007199254740991 / 4503599627370496) (-9007199254740992) (0)
    (by norm_num) (by norm_num) (by norm_num) (by norm_num) (by norm_num)]
  rw [Function.iterate_succ_apply, Binary64.arrowUp_eval (-9007199254740991 / 4503599627370496) (-4953959590107545 / 2251799813685248) (-4953959590107546) (1)
    (by norm_num) (by norm_num) (by norm_num) (by norm_num) (by norm_num)]
  rw [Function.iterate_succ_apply, Binary64.arrowUp_eval (-4953959590107545 / 2251799813685248) (-5404319552844595 / 2251799813685248) (-5404319552844595) (1)
    (by norm_num) (by norm_num) (by norm_num) (by norm_num) (by norm_num)]
  rw [Function.iterate_succ_apply, Binary64.arrowUp_eval (-5404319552844595 / 2251799813685248) (-5854679515581645 / 2251799813685248) (-5854679515581645) (1)
    (by norm_num) (by norm_num) (by norm_num) (by norm_num) (by norm_num)]
  rw [Function.iterate_succ_apply, Binary64.arrowUp_eval (-5854679515581645 / 2251799813685248) (-6305039478318695 / 2251799813685248) (-6305039478318695) (1)
    (by norm_num) (by norm_num) (by norm_num) (by norm_num) (by norm_num)]
  rw [Function.iterate_succ_apply, Binary64.arrowUp_eval (-6305039478318695 / 2251799813685248) (-6755399441055745 / 2251799813685248) (-6755399441055745) (1)
    (by norm_num) (by norm_num) (by norm_num) (by norm_num) (by norm_num)]
  rw [Function.iterate_succ_apply, Binary64.arrowUp_eval (-6755399441055745 / 2251799813685248) (-7205759403792795 / 2251799813685248) (-7205759403792795) (1)
    (by norm_num) (by norm_num) (by norm_num) (by norm_num) (by norm_num)]
  rw [Function.iterate_succ_apply, Binary64.arrowUp_eval (-7205759403792795 / 2251799813685248) (-7656119366529845 / 2251799813685248) (-7656119366529845) (1)
    (by norm_num) (by norm_num) (by norm_num) (by norm_num) (by norm_num)]
  rw [Function.iterate_succ_apply, Binary64.arrowUp_eval (-7656119366529845 / 2251799813685248) (-8106479329266895 / 2251799813685248) (-8106479329266895) (1)
    (by norm_num) (by norm_num) (by norm_num) (by norm_num) (by norm_num)]
  rw [Function.iterate_succ_apply, Binary64.arrowUp_eval (-8106479329266895 / 2251799813685248) (-8556839292003945 / 2251799813685248) (-8556839292003945) (1)
    (by norm_num) (by norm_num) (by norm_num) (by norm_num) (by norm_num)]
  rw [Function.iterate_succ_apply, Binary64.arrowUp_eval (-8556839292003945 / 2251799813685248) (-4503599627370497 / 1125899906842624) (-4503599627370498) (2)
    (by norm_num) (by norm_num) (by norm_num) (by norm_num) (by norm_num)]
  rw [Function.iterate_succ_apply, Binary64.arrowUp_eval (-4503599627370497 / 1125899906842624) (-2364389804369511 / 562949953421312) (-4728779608739022) (2)
    (by norm_num) (by norm_num) (by norm_num) (by norm_num) (by norm_num)]
  rw [Function.iterate_succ_apply, Binary64.arrowUp_eval (-2364389804369511 / 562949953421312) (-4953959590107547 / 1125899906842624) (-4953959590107547) (2)
    (by norm_num) (by norm_num) (by norm_num) (by norm_num) (by norm_num)]
  rw [Function.iterate_succ_apply, Binary64.arrowUp_eval (-4953959590107547 / 1125899906842624) (-647392446434509 / 140737488355328) (-5179139571476072) (2)
    (by norm_num) (by norm_num) (by norm_num) (by norm_num) (by norm_num)]
  rw [Function.iterate_succ_apply, Binary64.arrowUp_eval (-647392446434509 / 140737488355328) (-5404319552844597 / 1125899906842624) (-5404319552844597) (2)
    (by norm_num) (by norm_num) (by norm_num) (by norm_num) (by norm_num)]
  rw [Function.iterate_succ_apply, Binary64.arrowUp_eval (-5404319552844597 / 1125899906842624) (-2814749767106561 / 562949953421312) (-5629499534213122) (2)
    (by norm_num) (by norm_num) (by norm_num) (by norm_num) (by norm_num)]
  rw [Function.iterate_succ_apply, Binary64.arrowUp_eval (-2814749767106561 / 562949953421312) (-5854679515581647 / 1125899906842624) (-5854679515581647) (2)
    (by norm_num) (by norm_num) (by norm_num) (by norm_num) (by norm_num)]
  rw [Function.iterate_succ_apply, Binary64.arrowUp_eval (-5854679515581647 / 1125899906842624) (-1519964874237543 / 281474976710656) (-6079859496950172) (2)
    (by norm_num) (by norm_num) (by norm_num) (by norm_num) (by norm_num)]
  rw [Function.iterate_succ_apply, Binary64.arrowUp_eval (-1519964874237543 / 281474976710656) (-6305039478318697 / 1125899906842624) (-6305039478318697) (2)
    (by norm_num) (by norm_num) (by norm_num) (by norm_num) (by norm_num)]
  rw [Function.iterate_succ_apply, Binary64.arrowUp_eval (-6305039478318697 / 1125899906842624) (-3265109729843611 / 562949953421312) (-6530219459687222) (2)
    (by norm_num) (by norm_num) (by norm_num) (by norm_num) (by norm_num)]
  rw [Function.iterate_succ_apply, Binary64.arrowUp_eval (-3265109729843611 / 562949953421312) (-6755399441055747 / 1125899906842624) (-6755399441055747) (2)
    (by norm_num) (by norm_num) (by norm_num) (by norm_num) (by norm_num)]
  rw [Function.iterate_succ_apply, Binary64.arrowUp_eval (-6755399441055747 / 1125899906842624) (-436286213901517 / 70368744177664) (-6980579422424272) (2)
    (by norm_num) (by norm_num) (by norm_num) (by norm_num) (by norm_num)]
  rw [Function.iterate_succ_apply, Binary64.arrowUp_eval (-436286213901517 / 70368744177664) (-7205759403792797 / 1125899906842624) (-7205759403792797) (2)
    (by norm_num) (by norm_num) (by norm_num) (by norm_num) (by norm_num)]
  rw [Function.iterate_succ_apply, Binary64.arrowUp_eval (-7205759403792797 / 1125899906842624) (-3715469692580661 / 562949953421312) (-7430939385161322) (2)
    (by norm_num) (by norm_num) (by norm_num) (by norm_num) (by norm_num)]
  rw [Function.iterate_succ_apply, Binary64.arrowUp_eval (-3715469692580661 / 562949953421312) (-7656119366529847 / 1125899906842624) (-7656119366529847) (2)
    (by norm_num) (by norm_num) (by norm_num) (by norm_num) (by norm_num)]
  rw [Function.iterate_succ_apply, Binary64.arrowUp_eval (-7656119366529847 / 1125899906842624) (-1970324836974593 / 281474976710656) (-7881299347898372) (2)
    (by norm_num) (by norm_num) (by norm_num) (by norm_num) (by norm_num)]
  rw [Function.iterate_succ_apply, Binary64.arrowUp_eval (-1970324836974593 / 281474976710656) (-8106479329266897 / 1125899906842624) (-8106479329266897) (2)
    (by norm_num) (by norm_num) (by norm_num) (by norm_num) (by norm_num)]
  rw [Function.iterate_succ_apply, Binary64.arrowUp_eval (-8106479329266897 / 1125899906842624) (-4165829655317711 / 562949953421312) (-8331659310635422) (2)
    (by norm_num) (by norm_num) (by norm_num) (by norm_num) (by norm_num)]
  rw [Function.iterate_succ_apply, Binary64.arrowUp_eval (-4165829655317711 / 562949953421312) (-8556839292003947 / 1125899906842624) (-8556839292003947) (2)
    (by norm_num) (by norm_num) (by norm_num) (by norm_num) (by norm_num)]
  rw [Function.iterate_succ_apply, Binary64.arrowUp_eval (-8556839292003947 / 1125899906842624) (-1097752409171559 / 140737488355328) (-8782019273372472) (2)
    (by norm_num) (by norm_num) (by norm_num) (by norm_num) (by norm_num)]
  rw [Function.iterate_succ_apply, Binary64.arrowUp_eval (-1097752409171559 / 140737488355328) (-2251799813685249 / 281474976710656) (-4503599627370499) (3)
    (by norm_num) (by norm_num) (by norm_num) (by norm_num) (by norm_num)]
  rw [Function.iterate_succ_apply, Binary64.arrowUp_eval (-2251799813685249 / 281474976710656) (-577023702256845 / 70368744177664) (-4616189618054761) (3)
    (by norm_num) (by norm_num) (by norm_num) (by norm_num) (by norm_num)]
  rw [Function.iterate_succ_apply, Binary64.arrowUp_eval (-577023702256845 / 70368744177664) (-2364389804369511 / 281474976710656) (-4728779608739023) (3)
    (by norm_num) (by norm_num) (by norm_num) (by norm_num) (by norm_num)]
  rw [Function.iterate_succ_apply, Binary64.arrowUp_eval (-2364389804369511 / 281474976710656) (-1210342399855821 / 140737488355328) (-4841369599423285) (3)
    (by norm_num) (by norm_num) (by norm_num) (by norm_num) (by norm_num)]
  rw [Function.iterate_succ_apply, Binary64.arrowUp_eval (-1210342399855821 / 140737488355328) (-2476979795053773 / 281474976710656) (-4953959590107547) (3)
    (by norm_num) (by norm_num) (by norm_num) (by norm_num) (by norm_num)]
  rw [Function.iterate_succ_apply, Binary64.arrowUp_eval (-2476979795053773 / 281474976710656) (-9) (-5066549580791809) (3)
    (by norm_num) (by norm_num) (by norm_num) (by norm_num) (by norm_num)]
  rw [Function.iterate_succ_apply, Binary64.arrowUp_eval (-9) (-2589569785738035 / 281474976710656) (-5179139571476071) (3)
    (by norm_num) (by norm_num) (by norm_num) (by norm_num) (by norm_num)]
  rw [Function.iterate_succ_apply, Binary64.arrowUp_eval (-2589569785738035 / 281474976710656) (-1322932390540083 / 140737488355328) (-5291729562160333) (3)
    (by norm_num) (by norm_num) (by norm_num) (by norm_num) (by norm_num)]
  rw [Function.iterate_succ_apply, Binary64.arrowUp_eval (-1322932390540083 / 140737488355328) (-2702159776422297 / 281474976710656) (-5404319552844595) (3)
    (by norm_num) (by norm_num) (by norm_num) (by norm_num) (by norm_num)]
  rw [Function.iterate_succ_apply, Binary64.arrowUp_eval (-2702159776422297 / 281474976710656) (-689613692941107 / 70368744177664) (-5516909543528857) (3)
    (by norm_num) (by norm_num) (by norm_num) (by norm_num) (by norm_num)]
  rw [Function.iterate_succ_apply, Binary64.arrowUp_eval (-689613692941107 / 70368744177664) (-2814749767106559 / 281474976710656) (-5629499534213119) (3)
    (by norm_num) (by norm_num) (by norm_num) (by norm_num) (by norm_num)]
  rw [Function.iterate_succ_apply, Binary64.arrowUp_eval (-2814749767106559 / 281474976710656) (-1435522381224345 / 140737488355328) (-5742089524897381) (3)
    (by norm_num) (by norm_num) (by norm_num) (by norm_num) (by norm_num)]
  rw [Function.iterate_succ_apply, Binary64.arrowUp_eval (-1435522381224345 / 140737488355328) (-2927339757790821 / 281474976710656) (-5854679515581643) (3)
    (by norm_num) (by norm_num) (by norm_num) (by norm_num) (by norm_num)]
  rw [Function.iterate_succ_apply, Binary64.arrowUp_eval (-2927339757790821 / 281474976710656) (-372954344141619 / 35184372088832) (-5967269506265905) (3)
    (by norm_num) (by norm_num) (by norm_num) (by norm_num) (by norm_num)]
  rw [Function.iterate_succ_apply, Binary64.arrowUp_eval (-372954344141619 / 35184372088832) (-3039929748475083 / 281474976710656) (-6079859496950167) (3)
    (by norm_num) (by norm_num) (by norm_num) (by norm_num) (by norm_num)]
  rw [Function.iterate_succ_apply, Binary64.arrowUp_eval (-3039929748475083 / 281474976710656) (-1548112371908607 / 140737488355328) (-6192449487634429) (3)
    (by norm_num) (by norm_num) (by norm_num) (by norm_num) (by norm_num)]
  rw [Function.iterate_succ_apply, Binary64.arrowUp_eval (-1548112371908607 / 140737488355328) (-3152519739159345 / 281474976710656) (-6305039478318691) (3)
    (by norm_num) (by norm_num) (by norm_num) (by norm_num) (by norm_num)]
  rw [Function.iterate_succ_apply, Binary64.arrowUp_eval (-3152519739159345 / 281474976710656) (-802203683625369 / 70368744177664) (-6417629469002953) (3)
    (by norm_num) (by norm_num) (by norm_num) (by norm_num) (by norm_num)]
  rw [Function.iterate_succ_apply, Binary64.arrowUp_eval (-802203683625369 / 70368744177664) (-3265109729843607 / 281474976710656) (-6530219459687215) (3)
    (by norm_num) (by norm_num) (by norm_num) (by norm_num) (by norm_num)]
  rw [Function.iterate_succ_apply, Binary64.arrowUp_eval (-3265109729843607 / 281474976710656) (-1660702362592869 / 140737488355328) (-6642809450371477) (3)
    (by norm_num) (by norm_num) (by norm_num) (by norm_num) (by norm_num)]
  rw [Function.iterate_succ_apply, Binary64.arrowUp_eval (-1660702362592869 / 140737488355328) (-3377699720527869 / 281474976710656) (-6755399441055739) (3)
    (by norm_num) (by norm_num) (by norm_num) (by norm_num) (by norm_num)]
  rw [Function.iterate_succ_apply, Binary64.arrowUp_eval (-3377699720527869 / 281474976710656) (-214624669741875 / 17592186044416) (-6867989431740001) (3)
    (by norm_num) (by norm_num) (by norm_num) (by norm_num) (by norm_num)]
  rw [Function.iterate_succ_apply, Binary64.arrowUp_eval (-214624669741875 / 17592186044416) (-3490289711212131 / 281474976710656) (-6980579422424263) (3)
    (by norm_num) (by norm_num) (by norm_num) (by norm_num) (by norm_num)]
  rw [Function.iterate_succ_apply, Binary64.arrowUp_eval (-3490289711212131 / 281474976710656) (-1773292353277131 / 140737488355328) (-7093169413108525) (3)
    (by norm_num) (by norm_num) (by norm_num) (by norm_num) (by norm_num)]
  rw [Function.iterate_succ_apply, Binary64.arrowUp_eval (-1773292353277131 / 140737488355328) (-3602879701896393 / 281474976710656) (-7205759403792787) (3)
    (by norm_num) (by norm_num) (by norm_num) (by norm_num) (by norm_num)]
  rw [Function.iterate_succ_apply, Binary64.arrowUp_eval (-3602879701896393 / 281474976710656) (-914793674309631 / 70368744177664) (-7318349394477049) (3)
    (by norm_num) (by norm_num) (by norm_num) (by norm_num) (by norm_num)]
  rw [Function.iterate_succ_apply, Binary64.arrowUp_eval (-914793674309631 / 70368744177664) (-3715469692580655 / 281474976710656) (-7430939385161311) (3)
    (by norm_num) (by norm_num) (by norm_num) (by norm_num) (by norm_num)]
  rw [Function.iterate_succ_apply, Binary64.arrowUp_eval (-3715469692580655 / 281474976710656) (-1885882343961393 / 140737488355328) (-7543529375845573) (3)
    (by norm_num) (by norm_num) (by norm_num) (by norm_num) (by norm_num)]
  rw [Function.iterate_succ_apply, Binary64.arrowUp_eval (-1885882343961393 / 140737488355328) (-3828059683264917 / 281474976710656) (-7656119366529835) (3)
    (by norm_num) (by norm_num) (by norm_num) (by norm_num) (by norm_num)]
  rw [Function.iterate_succ_apply, Binary64.arrowUp_eval (-3828059683264917 / 281474976710656) (-485544334825881 / 35184372088832) (-7768709357214097) (3)
    (by norm_num) (by norm_num) (by norm_num) (by norm_num) (by norm_num)]
  rw [Function.iterate_succ_apply, Binary64.arrowUp_eval (-485544334825881 / 35184372088832) (-3940649673949179 / 281474976710656) (-7881299347898359) (3)
    (by norm_num) (by norm_num) (by norm_num) (by norm_num) (by norm_num)]
  rw [Function.iterate_succ_apply, Binary64.arrowUp_eval (-3940649673949179 / 281474976710656) (-1998472334645655 / 140737488355328) (-7993889338582621) (3)
    (by norm_num) (by norm_num) (by norm_num) (by norm_num) (by norm_num)]
  rw [Function.iterate_succ_apply, Binary64.arrowUp_eval (-1998472334645655 / 140737488355328) (-4053239664633441 / 281474976710656) (-8106479329266883) (3)
    (by norm_num) (by norm_num) (by norm_num) (by norm_num) (by norm_num)]
  rw [Function.iterate_succ_apply, Binary64.arrowUp_eval (-4053239664633441 / 281474976710656) (-1027383664993893 / 70368744177664) (-8219069319951145) (3)
    (by norm_num) (by norm_num) (by norm_num) (by norm_num) (by norm_num)]
  rw [Function.iterate_succ_apply, Binary64.arrowUp_eval (-1027383664993893 / 70368744177664) (-4165829655317703 / 281474976710656) (-8331659310635407) (3)
    (by norm_num) (by norm_num) (by norm_num) (by norm_num) (by norm_num)]
  rw [Function.iterate_succ_apply, Binary64.arrowUp_eval (-4165829655317703 / 281474976710656) (-2111062325329917 / 140737488355328) (-8444249301319669) (3)
    (by norm_num) (by norm_num) (by norm_num) (by norm_num) (by norm_num)]
  rw [Function.iterate_succ_apply, Binary64.arrowUp_eval (-2111062325329917 / 140737488355328) (-4278419646001965 / 281474976710656) (-8556839292003931) (3)
    (by norm_num) (by norm_num) (by norm_num) (by norm_num) (by norm_num)]
  rw [Function.iterate_succ_apply, Binary64.arrowUp_eval (-4278419646001965 / 281474976710656) (-135459832542003 / 8796093022208) (-8669429282688193) (3)
    (by norm_num) (by norm_num) (by norm_num) (by norm_num) (by norm_num)]
  rw [Function.iterate_succ_apply, Binary64.arrowUp_eval (-135459832542003 / 8796093022208) (-4391009636686227 / 281474976710656) (-8782019273372455) (3)
    (by norm_num) (by norm_num) (by norm_num) (by norm_num) (by norm_num)]
  rw [Function.iterate_succ_apply, Binary64.arrowUp_eval (-4391009636686227 / 281474976710656) (-2223652316014179 / 140737488355328) (-8894609264056717) (3)
    (by norm_num) (by norm_num) (by norm_num) (by norm_num) (by norm_num)]
  rw [Function.iterate_succ_apply, Binary64.arrowUp_eval (-2223652316014179 / 140737488355328) (-4503599627370489 / 281474976710656) (-9007199254740979) (3)
    (by norm_num) (by norm_num) (by norm_num) (by norm_num) (by norm_num)]
  rw [Function.iterate_succ_apply, Binary64.arrowUp_eval (-4503599627370489 / 281474976710656) (-1139973655678155 / 70368744177664) (-4559894622712621) (4)
    (by norm_num) (by norm_num) (by norm_num) (by norm_num) (by norm_num)]
  rw [Function.iterate_succ_apply, Binary64.arrowUp_eval (-1139973655678155 / 70368744177664) (-4616189618054751 / 281474976710656) (-4616189618054752) (4)
    (by norm_num) (by norm_num) (by norm_num) (by norm_num) (by norm_num)]
  rw [Function.iterate_succ_apply, Binary64.arrowUp_eval (-4616189618054751 / 281474976710656) (-2336242306698441 / 140737488355328) (-4672484613396883) (4)
    (by norm_num) (by norm_num) (by norm_num) (by norm_num) (by norm_num)]
  rw [Function.iterate_succ_apply, Binary64.arrowUp_eval (-2336242306698441 / 140737488355328) (-4728779608739013 / 281474976710656) (-4728779608739014) (4)
    (by norm_num) (by norm_num) (by norm_num) (by norm_num) (by norm_num)]
  rw [Function.iterate_succ_apply, Binary64.arrowUp_eval (-4728779608739013 / 281474976710656) (-598134325510143 / 35184372088832) (-4785074604081145) (4)
    (by norm_num) (by norm_num) (by norm_num) (by norm_num) (by norm_num)]
  rw [Function.iterate_succ_apply, Binary64.arrowUp_eval (-598134325510143 / 35184372088832) (-4841369599423275 / 281474976710656) (-4841369599423276) (4)
    (by norm_num) (by norm_num) (by norm_num) (by norm_num) (by norm_num)]
  rw [Function.iterate_succ_apply, Binary64.arrowUp_eval (-4841369599423275 / 281474976710656) (-2448832297382703 / 140737488355328) (-4897664594765407) (4)
    (by norm_num) (by norm_num) (by norm_num) (by norm_num) (by norm_num)]
  rw [Function.iterate_succ_apply, Binary64.arrowUp_eval (-2448832297382703 / 140737488355328) (-4953959590107537 / 281474976710656) (-4953959590107538) (4)
    (by norm_num) (by norm_num) (by norm_num) (by norm_num) (by norm_num)]
  rw [Function.iterate_succ_apply, Binary64.arrowUp_eval (-4953959590107537 / 281474976710656) (-1252563646362417 / 70368744177664) (-5010254585449669) (4)
    (by norm_num) (by norm_num) (by norm_num) (by norm_num) (by norm_num)]
  rw [Function.iterate_succ_apply, Binary64.arrowUp_eval (-1252563646362417 / 70368744177664) (-5066549580791799 / 281474976710656) (-5066549580791800) (4)
    (by norm_num) (by norm_num) (by norm_num) (by norm_num) (by norm_num)]
  rw [Function.iterate_succ_apply, Binary64.arrowUp_eval (-5066549580791799 / 281474976710656) (-2561422288066965 / 140737488355328) (-5122844576133931) (4)
    (by norm_num) (by norm_num) (by norm_num) (by norm_num) (by norm_num)]
  rw [Function.iterate_succ_apply, Binary64.arrowUp_eval (-2561422288066965 / 140737488355328) (-5179139571476061 / 281474976710656) (-5179139571476062) (4)
    (by norm_num) (by norm_num) (by norm_num) (by norm_num) (by norm_num)]
  rw [Function.iterate_succ_apply, Binary64.arrowUp_eval (-5179139571476061 / 281474976710656) (-327214660426137 / 17592186044416) (-5235434566818193) (4)
    (by norm_num) (by norm_num) (by norm_num) (by norm_num) (by norm_num)]
  rw [Function.iterate_succ_apply, Binary64.arrowUp_eval (-327214660426137 / 17592186044416) (-5291729562160323 / 281474976710656) (-5291729562160324) (4)
    (by norm_num) (by norm_num) (by norm_num) (by norm_num) (by norm_num)]
  rw [Function.iterate_succ_apply, Binary64.arrowUp_eval (-5291729562160323 / 281474976710656) (-2674012278751227 / 140737488355328) (-5348024557502455) (4)
    (by norm_num) (by norm_num) (by norm_num) (by norm_num) (by norm_num)]
  rw [Function.iterate_succ_apply, Binary64.arrowUp_eval (-2674012278751227 / 140737488355328) (-5404319552844585 / 281474976710656) (-5404319552844586) (4)
    (by norm_num) (by norm_num) (by norm_num) (by norm_num) (by norm_num)]
  rw [Function.iterate_succ_apply, Binary64.arrowUp_eval (-5404319552844585 / 281474976710656) (-1365153637046679 / 70368744177664) (-5460614548186717) (4)
    (by norm_num) (by norm_num) (by norm_num) (by norm_num) (by norm_num)]
  rw [Function.iterate_succ_apply, Binary64.arrowUp_eval (-1365153637046679 / 70368744177664) (-5516909543528847 / 281474976710656) (-5516909543528848) (4)
    (by norm_num) (by norm_num) (by norm_num) (by norm_num) (by norm_num)]
  rw [Function.iterate_succ_apply, Binary64.arrowUp_eval (-5516909543528847 / 281474976710656) (-2786602269435489 / 140737488355328) (-5573204538870979) (4)
    (by norm_num) (by norm_num) (by norm_num) (by norm_num) (by norm_num)]
  rw [Function.iterate_succ_apply, Binary64.arrowUp_eval (-2786602269435489 / 140737488355328) (-5629499534213109 / 281474976710656) (-5629499534213110) (4)
    (by norm_num) (by norm_num) (by norm_num) (by norm_num) (by norm_num)]
  rw [Function.iterate_succ_apply, Binary64.arrowUp_eval (-5629499534213109 / 281474976710656) (-710724316194405 / 35184372088832) (-5685794529555241) (4)
    (by norm_num) (by norm_num) (by norm_num) (by norm_num) (by norm_num)]
  rw [Function.iterate_succ_apply, Binary64.arrowUp_eval (-710724316194405 / 35184372088832) (-5742089524897371 / 281474976710656) (-5742089524897372) (4)
    (by norm_num) (by norm_num) (by norm_num) (by norm_num) (by norm_num)]
  rw [Function.iterate_succ_apply, Binary64.arrowUp_eval (-5742089524897371 / 281474976710656) (-2899192260119751 / 140737488355328) (-5798384520239503) (4)
    (by norm_num) (by norm_num) (by norm_num) (by norm_num) (by norm_num)]
  rw [Function.iterate_succ_apply, Binary64.arrowUp_eval (-2899192260119751 / 140737488355328) (-5854679515581633 / 281474976710656) (-5854679515581634) (4)
    (by norm_num) (by norm_num) (by norm_num) (by norm_num) (by norm_num)]
  rw [Function.iterate_succ_apply, Binary64.arrowUp_eval (-5854679515581633 / 281474976710656) (-1477743627730941 / 70368744177664) (-5910974510923765) (4)
    (by norm_num) (by norm_num) (by norm_num) (by norm_num) (by norm_num)]
  rw [Function.iterate_succ_apply, Binary64.arrowUp_eval (-1477743627730941 / 70368744177664) (-5967269506265895 / 281474976710656) (-5967269506265896) (4)
    (by norm_num) (by norm_num) (by norm_num) (by norm_num) (by norm_num)]
  rw [Function.iterate_succ_apply, Binary64.arrowUp_eval (-5967269506265895 / 281474976710656) (-3011782250804013 / 140737488355328) (-6023564501608027) (4)
    (by norm_num) (by norm_num) (by norm_num) (by norm_num) (by norm_num)]
  rw [Function.iterate_succ_apply, Binary64.arrowUp_eval (-3011782250804013 / 140737488355328) (-6079859496950157 / 281474976710656) (-6079859496950158) (4)
    (by norm_num) (by norm_num) (by norm_num) (by norm_num) (by norm_num)]
  rw [Function.iterate_succ_apply, Binary64.arrowUp_eval (-6079859496950157 / 281474976710656) (-95877413942067 / 4398046511104) (-6136154492292289) (4)
    (by norm_num) (by norm_num) (by norm_num) (by norm_num) (by norm_num)]
  rw [Function.iterate_succ_apply, Binary64.arrowUp_eval (-95877413942067 / 4398046511104) (-6192449487634419 / 281474976710656) (-6192449487634420) (4)
    (by norm_num) (by norm_num) (by norm_num) (by norm_num) (by norm_num)]
  rw [Function.iterate_succ_apply, Binary64.arrowUp_eval (-6192449487634419 / 281474976710656) (-3124372241488275 / 140737488355328) (-6248744482976551) (4)
    (by norm_num) (by norm_num) (by norm_num) (by norm_num) (by norm_num)]
  rw [Function.iterate_succ_apply, Binary64.arrowUp_eval (-3124372241488275 / 140737488355328) (-6305039478318681 / 281474976710656) (-6305039478318682) (4)
    (by norm_num) (by norm_num) (by norm_num) (by norm_num) (by norm_num)]
  rw [Function.iterate_succ_apply, Binary64.arrowUp_eval (-6305039478318681 / 281474976710656) (-1590333618415203 / 70368744177664) (-6361334473660813) (4)
    (by norm_num) (by norm_num) (by norm_num) (by norm_num) (by norm_num)]
  rw [Function.iterate_succ_apply, Binary64.arrowUp_eval (-1590333618415203 / 70368744177664) (-6417629469002943 / 281474976710656) (-6417629469002944) (4)
    (by norm_num) (by norm_num) (by norm_num) (by norm_num) (by norm_num)]
  rw [Function.iterate_succ_apply, Binary64.arrowUp_eval (-6417629469002943 / 281474976710656) (-3236962232172537 / 140737488355328) (-6473924464345075) (4)
    (by norm_num) (by norm_num) (by norm_num) (by norm_num) (by norm_num)]
  rw [Function.iterate_succ_apply, Binary64.arrowUp_eval (-3236962232172537 / 140737488355328) (-6530219459687205 / 281474976710656) (-6530219459687206) (4)
    (by norm_num) (by norm_num) (by norm_num) (by norm_num) (by norm_num)]
  rw [Function.iterate_succ_apply, Binary64.arrowUp_eval (-6530219459687205 / 281474976710656) (-823314306878667 / 35184372088832) (-6586514455029337) (4)
    (by norm_num) (by norm_num) (by norm_num) (by norm_num) (by norm_num)]
  rw [Function.iterate_succ_apply, Binary64.arrowUp_eval (-823314306878667 / 35184372088832) (-6642809450371467 / 281474976710656) (-6642809450371468) (4)
    (by norm_num) (by norm_num) (by norm_num) (by norm_num) (by norm_num)]
  rw [Function.iterate_succ_apply, Binary64.arrowUp_eval (-6642809450371467 / 281474976710656) (-3349552222856799 / 140737488355328) (-6699104445713599) (4)
    (by norm_num) (by norm_num) (by norm_num) (by norm_num) (by norm_num)]
  rw [Function.iterate_succ_apply, Binary64.arrowUp_eval (-3349552222856799 / 140737488355328) (-6755399441055729 / 281474976710656) (-6755399441055730) (4)
    (by norm_num) (by norm_num) (by norm_num) (by norm_num) (by norm_num)]
  rw [Function.iterate_succ_apply, Binary64.arrowUp_eval (-6755399441055729 / 281474976710656) (-1702923609099465 / 70368744177664) (-6811694436397861) (4)
    (by norm_num) (by norm_num) (by norm_num) (by norm_num) (by norm_num)]
  rw [Function.iterate_succ_apply, Binary64.arrowUp_eval (-1702923609099465 / 70368744177664) (-6867989431739991 / 281474976710656) (-6867989431739992) (4)
    (by norm_num) (by norm_num) (by norm_num) (by norm_num) (by norm_num)]
  rw [Function.iterate_succ_apply, Binary64.arrowUp_eval (-6867989431739991 / 281474976710656) (-3462142213541061 / 140737488355328) (-6924284427082123) (4)
    (by norm_num) (by norm_num) (by norm_num) (by norm_num) (by norm_num)]
  rw [Function.iterate_succ_apply, Binary64.arrowUp_eval (-3462142213541061 / 140737488355328) (-6980579422424253 / 281474976710656) (-6980579422424254) (4)
    (by norm_num) (by norm_num) (by norm_num) (by norm_num) (by norm_num)]
  rw [Function.iterate_succ_apply, Binary64.arrowUp_eval (-6980579422424253 / 281474976710656) (-439804651110399 / 17592186044416) (-7036874417766385) (4)
    (by norm_num) (by norm_num) (by norm_num) (by norm_num) (by norm_num)]
  rw [Function.iterate_succ_apply, Binary64.arrowUp_eval (-439804651110399 / 17592186044416) (-7093169413108515 / 281474976710656) (-7093169413108516) (4)
    (by norm_num) (by norm_num) (by norm_num) (by norm_num) (by norm_num)]
  rw [Function.iterate_succ_apply, Binary64.arrowUp_eval (-7093169413108515 / 281474976710656) (-3574732204225323 / 140737488355328) (-7149464408450647) (4)
    (by norm_num) (by norm_num) (by norm_num) (by norm_num) (by norm_num)]
  rw [Function.iterate_succ_apply, Binary64.arrowUp_eval (-3574732204225323 / 140737488355328) (-7205759403792777 / 281474976710656) (-7205759403792778) (4)
    (by norm_num) (by norm_num) (by norm_num) (by norm_num) (by norm_num)]
  rw [Function.iterate_succ_apply, Binary64.arrowUp_eval (-7205759403792777 / 281474976710656) (-1815513599783727 / 70368744177664) (-7262054399134909) (4)
    (by norm_num) (by norm_num) (by norm_num) (by norm_num) (by norm_num)]
  rw [Function.iterate_succ_apply, Binary64.arrowUp_eval (-1815513599783727 / 70368744177664) (-7318349394477039 / 281474976710656) (-7318349394477040) (4)
    (by norm_num) (by norm_num) (by norm_num) (by norm_num) (by norm_num)]
  rw [Function.iterate_succ_apply, Binary64.arrowUp_eval (-7318349394477039 / 281474976710656) (-3687322194909585 / 140737488355328) (-7374644389819171) (4)
    (by norm_num) (by norm_num) (by norm_num) (by norm_num) (by norm_num)]
  rfl

/-- More fuel does not change the result of the double-precision generator. -/
theorem Binary64.generateGridSearchPattern_fuel (fuel : Nat) (startX startZ : ℚ)
    (result : List Waypoint)
    (h : Binary64.generateGridSearchPattern fuel startX startZ = some result) (n : Nat) :
    Binary64.generateGridSearchPattern (n + fuel) startX startZ = some result := by
  induction n with
  | zero => rw [Nat.zero_add]; exact h
  | succ n ih =>
    rw [Nat.add_right_comm]
    unfold Binary64.generateGridSearchPattern at ih ⊢
    exact Binary64.loop_fuel _ _ _ _ _ _ _ _ _ ih

/-- C15, at a start the program reaches: after 131 manual frames with `ArrowUp`
held the drone is at `z = rowLossStart = -26.19999999999994`, and in double
precision `generateGridSearchPattern(0, rowLossStart)` returns 19 way points
(whatever the fuel, from 10 rows on): the loop counter reaches
`63.80000000000007`, above `gridMaxZ = 63.80000000000006`, after nine rows, so
the transition to row `k = 9` (index 19) and the end point of row `k = 9`
(index 20) are never pushed.  In exact arithmetic the same start gives 21 way
points, the last one `(-90, 50, rowLossStart + 90)`. -/
theorem generateGridSearchPattern_row_loss :
    Binary64.arrowUp^[131] 0 = rowLossStart ∧
    (∀ n : Nat, Binary64.generateGridSearchPattern (n + 10) 0 rowLossStart = some
      [⟨0, 50, (-3687322194909585 / 140737488355328)⟩,
        ⟨(-90), 50, (-1022106009180569 / 8796093022208)⟩,
        ⟨90, 50, (-1022106009180569 / 8796093022208)⟩,
        ⟨90, 50, (-846184148736409 / 8796093022208)⟩,
        ⟨(-90), 50, (-846184148736409 / 8796093022208)⟩,
        ⟨(-90), 50, (-670262288292249 / 8796093022208)⟩,
        ⟨90, 50, (-670262288292249 / 8796093022208)⟩,
        ⟨90, 50, (-494340427848089 / 8796093022208)⟩,
        ⟨(-90), 50, (-494340427848089 / 8796093022208)⟩,
        ⟨(-90), 50, (-318418567403929 / 8796093022208)⟩,
        ⟨90, 50, (-318418567403929 / 8796093022208)⟩,
        ⟨90, 50, (-142496706959769 / 8796093022208)⟩,
        ⟨(-90), 50, (-142496706959769 / 8796093022208)⟩,
        ⟨(-90), 50, (33425153484391 / 8796093022208)⟩,
        ⟨90, 50, (33425153484391 / 8796093022208)⟩,
        ⟨90, 50, (209347013928551 / 8796093022208)⟩,
        ⟨(-90), 50, (209347013928551 / 8796093022208)⟩,
        ⟨(-90), 50, (385268874372711 / 8796093022208)⟩,
        ⟨90, 50, (385268874372711 / 8796093022208)⟩]) ∧
    (∀ n : Nat, (Binary64.generateGridSearchPattern (n + 10) 0 rowLossStart).map List.length =
      some 19) ∧
    (∀ n : Nat, (Binary64.generateGridSearchPattern (n + 10) 0 rowLossStart).map
      (fun path => (path[3 + 2 * 8]?, path[2 + 2 * 9]?)) = some (none, none)) ∧
    (generateGridSearchPattern 0 rowLossStart).length = 21 ∧
    (generateGridSearchPattern 0 rowLossStart)[3 + 2 * 8]? =
      some ⟨90, 50, rowLossStart + 90⟩ ∧
    (generateGridSearchPattern 0 rowLossStart)[2 + 2 * 9]? =
      some ⟨-90, 50, rowLossStart + 90⟩ := by
  have hpath := fun n => Binary64.generateGridSearchPattern_fuel 10 0 rowLossStart _
    Binary64.rowLoss_path n
  refine ⟨Binary64.rowLossStart_reached, hpath, ?_, ?_, ?_, ?_, ?_⟩
  · intro n
    rw [hpath n]
    rfl
  · intro n
    rw [hpath n]
    rfl
  · rw [generateGridSearchPattern_eq]
    rfl
  · rw [generateGridSearchPattern_eq]
    simp
  · rw [generateGridSearchPattern_eq]
    simp

end SearchRescue
